import Mathlib

/-!
# FTP-Server-Client: the transport core

A shallow embedding of `src/Common/Message.h`, `src/Common/DataStream.cpp` and
`src/Common/Connection.cpp`.

* C++ streams (`std::iostream`) are modelled by `StdStream`: a character
  sequence with a get position and the `eofbit` / `failbit` state flags.
* The operating system's side of a socket is modelled by `Sock`: a script of
  what arrives (`Event`), a script of how each `::send` call behaves
  (`WriteEvent`), the bytes accepted so far (`wire`) and a log of the system
  calls issued (`trace`).
* A timeout reaches `select` as the timeval `recv_timeout` builds (`tv_sec = 0`,
  `tv_usec = timeoutMs * 1000`); `select` fails on a `tv_usec` that is negative
  or does not fit 31 bits (`timevalValid`).
* C++ loops that need not terminate take a `fuel` argument; `Res.outOfFuel`
  is the outcome of a run that has not returned within the given fuel.
* Exceptions are values of `Exn`, one constructor per `throw` site.
-/

namespace connection

/-! ## Message.h -/

/-- One `char` of a stream or of the wire. -/
abbrev Byte := Fin 256

def MESSAGE_BYTE_LEN : Nat := 13
def MAX_PAYLOAD_LEN : Nat := 1024
def CHUNK_SIZE : Nat := 1024 * 32

def MESSAGE_LS : Nat := 1
def MESSAGE_GET : Nat := 2
def MESSAGE_PUT : Nat := 3
def MESSAGE_QUIT : Nat := 4
def MESSAGE_HELLO : Nat := 32
def MESSAGE_OK : Nat := 128
def MESSAGE_ERROR : Nat := 200

/-- The `struct Message`: `msgid` is a `uint8_t` enum, `msglen` a `uint16_t`,
`datalen` a `uint64_t`, `port` the 16-bit union of `port` and `ecode`. -/
structure Message where
  msgid : Nat
  msglen : Nat
  datalen : Nat
  port : Nat
  payload : List Byte
  deriving DecidableEq, Repr

/-- The method `Message::length()`:
`MESSAGE_BYTE_LEN + static_cast<uint16_t>(payload.length())`, returned as `uint16_t`. -/
def Message.length (m : Message) : Nat :=
  (MESSAGE_BYTE_LEN + m.payload.length % 2 ^ 16) % 2 ^ 16

/-- The value `ZERO_MSG` stores into a message. -/
def ZERO_MSG : Message :=
  { msgid := MESSAGE_ERROR, msglen := 0, datalen := 0, port := 0, payload := [] }

/-! ## Streams -/

/-- A `std::iostream` (string stream or file stream): its character sequence,
the get position and the state flags. Writes append (the put position is the
end). `reads` is a ghost log of the `gcount()` of every `read` call. -/
structure StdStream where
  buf : List Byte
  gpos : Nat
  eofbit : Bool
  failbit : Bool
  reads : List Nat
  deriving DecidableEq, Repr

/-- A freshly constructed, empty `std::stringstream`. -/
def StdStream.empty : StdStream :=
  { buf := [], gpos := 0, eofbit := false, failbit := false, reads := [] }

/-- A good stream holding `bs`, positioned at its beginning. -/
def StdStream.ofBytes (bs : List Byte) : StdStream :=
  { buf := bs, gpos := 0, eofbit := false, failbit := false, reads := [] }

/-- The test `stream.good()`. -/
def StdStream.good (s : StdStream) : Bool := !s.eofbit && !s.failbit

/-- The test `stream.eof()`. -/
def StdStream.eof (s : StdStream) : Bool := s.eofbit

/-- The characters not yet read. -/
def StdStream.unread (s : StdStream) : List Byte := s.buf.drop s.gpos

/-- The call `stream.read(buf, n)`: the characters stored (their number is
`gcount()`) and the stream afterwards. Fewer than `n` characters available
sets `eofbit` and `failbit`; a stream that is not good only gets `failbit`. -/
def StdStream.read (s : StdStream) (n : Nat) : List Byte × StdStream :=
  if s.good then
    let got := s.unread.take n
    if got.length < n then
      (got, { s with gpos := s.gpos + got.length, eofbit := true, failbit := true,
                     reads := s.reads ++ [got.length] })
    else
      (got, { s with gpos := s.gpos + got.length, reads := s.reads ++ [got.length] })
  else
    ([], { s with failbit := true, reads := s.reads ++ [0] })

/-- The call `stream.write(p, n)` with the `n` characters `bs`. -/
def StdStream.write (s : StdStream) (bs : List Byte) : StdStream :=
  if s.good then { s with buf := s.buf ++ bs } else { s with failbit := true }

/-- The call `stream.tellp()`: `-1` on a failed stream. -/
def StdStream.tellp (s : StdStream) : Int :=
  if s.failbit then -1 else (s.buf.length : Int)

/-! ## DataStream.cpp -/

/-- The low byte of a number. -/
def byteOf (n : Nat) : Byte := ⟨n % 256, Nat.mod_lt _ (by decide)⟩

/-- The big-endian value of a byte string. -/
def beVal (bs : List Byte) : Nat := bs.foldl (fun acc b => acc * 256 + b.val) 0

/-- A local buffer of `n` characters after a `read` that stored `bs`: the
characters not stored are indeterminate in the source and are taken as zero. -/
def padTo (n : Nat) (bs : List Byte) : List Byte := bs ++ List.replicate (n - bs.length) 0

/-- The operator `<<` for `uint8_t`. -/
def NetworkDataStream.put_u8 (s : StdStream) (data : Nat) : StdStream :=
  s.write [byteOf data]

/-- The operator `<<` for `MSGID`: `const uint8_t msgcode = msg; stream << msgcode`. -/
def NetworkDataStream.put_MSGID (s : StdStream) (msg : Nat) : StdStream :=
  NetworkDataStream.put_u8 s msg

/-- The operator `<<` for `uint16_t`: writes the two bytes of `htons(data)`. -/
def NetworkDataStream.put_u16 (s : StdStream) (data : Nat) : StdStream :=
  s.write [byteOf (data / 256), byteOf data]

/-- The operator `<<` for `uint64_t`: writes the eight bytes of `htonll(data)`. -/
def NetworkDataStream.put_u64 (s : StdStream) (data : Nat) : StdStream :=
  s.write [byteOf (data / 256 ^ 7), byteOf (data / 256 ^ 6), byteOf (data / 256 ^ 5),
           byteOf (data / 256 ^ 4), byteOf (data / 256 ^ 3), byteOf (data / 256 ^ 2),
           byteOf (data / 256), byteOf data]

/-- The method `write_str`: nothing for the empty string. -/
def NetworkDataStream.write_str (s : StdStream) (str : List Byte) : StdStream :=
  if str.length = 0 then s else s.write str

/-- The operator `>>` for `MSGID`. -/
def NetworkDataStream.get_MSGID (s : StdStream) : Nat × StdStream :=
  match s.read 1 with
  | (bs, s1) => (beVal (padTo 1 bs), s1)

/-- The operator `>>` for `uint16_t`: `ntohs` of the two bytes read. -/
def NetworkDataStream.get_u16 (s : StdStream) : Nat × StdStream :=
  match s.read 2 with
  | (bs, s1) => (beVal (padTo 2 bs), s1)

/-- The operator `>>` for `uint64_t`: `ntohll` of the eight bytes read. -/
def NetworkDataStream.get_u64 (s : StdStream) : Nat × StdStream :=
  match s.read 8 with
  | (bs, s1) => (beVal (padTo 8 bs), s1)

/-- The method `read_str(len)`: a string of exactly `len` characters. -/
def NetworkDataStream.read_str (s : StdStream) (len : Nat) : List Byte × StdStream :=
  if len = 0 then ([], s)
  else
    match s.read len with
    | (bs, s1) => (padTo len bs, s1)

/-! ## The operating system's side of a socket -/

/-- What happens next on the receiving side of a socket.
* `quiet`: nothing becomes ready for one whole wait of `select`;
* `selectFail`: `select` returns `SOCKET_ERROR`;
* `notSet`: `select` returns a positive count although the descriptor is in
  neither set;
* `recvFail`: the descriptor is ready and `recv` returns `SOCKET_ERROR`;
* `bytes bs`: the descriptor is ready and `bs` can be received (`bytes []` is
  a read of zero bytes: the peer has closed).
The end of the script stands for a peer that has closed for good. -/
inductive Event where
  | quiet
  | selectFail
  | notSet
  | recvFail
  | bytes (bs : List Byte)
  deriving DecidableEq, Repr

/-- How the next `::send` call behaves: it fails, or the socket has room for
`k` bytes (the call returns `min k len`). After the end of the script every
call accepts all it is given. -/
inductive WriteEvent where
  | fail
  | room (k : Nat)
  deriving DecidableEq, Repr

/-- A system call, as logged in `Sock.trace`. -/
inductive Op where
  | send (req : Nat) (ret : Int)
  | select (ret : Int)
  | recv (req : Nat) (ret : Int)
  | shutdown (fd : Int)
  | close (fd : Int)
  deriving DecidableEq, Repr

/-- The environment of one socket. -/
structure Sock where
  incoming : List Event
  outgoing : List WriteEvent
  wire : List Byte
  trace : List Op
  deriving DecidableEq, Repr

/-- The system call `::send(fd, data, len, 0)`. -/
def Sock.send (s : Sock) (data : List Byte) : Int × Sock :=
  match s.outgoing with
  | [] =>
    ((data.length : Int),
      { s with wire := s.wire ++ data, trace := s.trace ++ [Op.send data.length data.length] })
  | WriteEvent.fail :: r =>
    (-1, { s with outgoing := r, trace := s.trace ++ [Op.send data.length (-1)] })
  | WriteEvent.room k :: r =>
    (((min k data.length : Nat) : Int),
      { s with outgoing := r, wire := s.wire ++ data.take (min k data.length),
               trace := s.trace ++ [Op.send data.length (min k data.length : Nat)] })

/-- What `select` on the one descriptor reports. -/
inductive SelectResult where
  | error
  | timeout
  | ready (isSet : Bool)
  deriving DecidableEq, Repr

/-- The return value `numReady` of `select`. -/
def SelectResult.numReady : SelectResult → Int
  | SelectResult.error => -1
  | SelectResult.timeout => 0
  | SelectResult.ready _ => 1

/-- The script after `select`: with a null timeout (`hasTimeout = false`) the
call waits through quiet periods; a ready event stays for `recv`. -/
def selectEvents (hasTimeout : Bool) : List Event → SelectResult × List Event
  | [] => (SelectResult.ready true, [])
  | Event.quiet :: r =>
    if hasTimeout then (SelectResult.timeout, r) else selectEvents hasTimeout r
  | Event.selectFail :: r => (SelectResult.error, r)
  | Event.notSet :: r => (SelectResult.ready false, r)
  | Event.recvFail :: r => (SelectResult.ready true, Event.recvFail :: r)
  | Event.bytes bs :: r => (SelectResult.ready true, Event.bytes bs :: r)

/-- The system call `select` on the descriptor's read and error sets. -/
def Sock.select (s : Sock) (hasTimeout : Bool) : SelectResult × Sock :=
  match selectEvents hasTimeout s.incoming with
  | (r, evs) => (r, { s with incoming := evs, trace := s.trace ++ [Op.select r.numReady] })

/-- The script after a blocking `::recv` of at most `len` bytes: the return
value, the bytes stored and the remaining script. Bytes of an event that do not
fit stay in the script. -/
def recvEvents (len : Nat) : List Event → Int × List Byte × List Event
  | [] => (0, [], [])
  | Event.quiet :: r => recvEvents len r
  | Event.selectFail :: r => recvEvents len r
  | Event.notSet :: r => recvEvents len r
  | Event.recvFail :: r => (-1, [], r)
  | Event.bytes bs :: r =>
    (((bs.take len).length : Int), bs.take len,
      if bs.drop len = [] then r else Event.bytes (bs.drop len) :: r)

/-- The system call `::recv(fd, buf, len, flags)`. -/
def Sock.recv (s : Sock) (len : Nat) : Int × List Byte × Sock :=
  match recvEvents len s.incoming with
  | (n, bs, evs) => (n, bs, { s with incoming := evs, trace := s.trace ++ [Op.recv len n] })

/-- The bytes still to arrive on a socket, in order. -/
def pending : List Event → List Byte
  | [] => []
  | Event.bytes bs :: r => bs ++ pending r
  | _ :: r => pending r

/-! ## Connection.cpp -/

def SOCKET_ERROR : Int := -1
def INVALID_SOCKET : Int := -1
def TIMEOUT_NEVER : Int := 0
def SHUTDOWN_TIMEOUT_MS : Int := 60000

/-- The exceptions of `Connection.cpp`, one per `throw` site. -/
inductive Exn where
  | select_failed            -- ConnectionException "exception in select recv_timeout"
  | recv_failed              -- ConnectionException "failed to receive data"
  | send_failed              -- ConnectionException "error sending data stream"
  | not_all_sent             -- std::runtime_error "did not send all data!"
  | payload_too_long         -- std::invalid_argument "maximum payload length exceeded"
  | receive_error            -- ConnectionException "error receiving data stream"
  | stream_write_failed      -- std::runtime_error "failed to write bytes to stream"
  | disconnected             -- ConnectionException "client has disconnected unexpectedly"
  | receive_failed           -- std::runtime_error "failed to receive data"
  | unexpected_header        -- std::runtime_error "unexpected number of bytes"
  | length_mismatch          -- std::runtime_error "expected to receive ... bytes"
  | shutdown_failed          -- ConnectionException "could not shutdown gracefully"
  | welcome_socket_failed    -- ConnectionException "failed to create welcome socket"
  | reuse_failed             -- ConnectionException "unable to reuse socket address"
  | bind_failed              -- ConnectionException "welcome socket bind failed"
  | listen_failed            -- ConnectionException "welcome socket listen failed"
  | getsockname_failed       -- ConnectionException "getsockname failed"
  | convert_address_failed   -- ConnectionException "failed to convert address"
  | welcome_select_failed    -- ConnectionException "select failed"
  | accept_failed            -- ConnectionException "accept failed"
  | getpeername_failed       -- ConnectionException "getpeername failed"
  | peer_convert_failed      -- ConnectionException "failed to convert address from binary to text"
  | connect_failed           -- ConnectionException "getaddrinfo failed" / "unable to connect to server"
  | send_incomplete          -- ConnectionException "failed to send all ... bytes"
  | callback (code : Nat)    -- whatever a callback handed to `welcome` throws
  deriving DecidableEq, Repr

/-- Whether the exception is a `ConnectionException` (what `shutdown` catches). -/
def Exn.isConnectionException : Exn → Bool
  | Exn.select_failed => true
  | Exn.recv_failed => true
  | Exn.send_failed => true
  | Exn.receive_error => true
  | Exn.disconnected => true
  | Exn.shutdown_failed => true
  | Exn.welcome_socket_failed => true
  | Exn.reuse_failed => true
  | Exn.bind_failed => true
  | Exn.listen_failed => true
  | Exn.getsockname_failed => true
  | Exn.convert_address_failed => true
  | Exn.welcome_select_failed => true
  | Exn.accept_failed => true
  | Exn.getpeername_failed => true
  | Exn.peer_convert_failed => true
  | Exn.connect_failed => true
  | Exn.send_incomplete => true
  | _ => false

/-- The outcome of a call: a normal return with value `a`, an exception, or a
run that is still going when the fuel is used up. `s` is the state the call
leaves behind. -/
inductive Res (α σ : Type) where
  | ok (a : α) (s : σ)
  | throw (e : Exn) (s : σ)
  | outOfFuel
  deriving DecidableEq, Repr

/-- A C++ `int` holding `x`: two's complement on 32 bits. -/
def wrapInt32 (x : Int) : Int := (x + 2 ^ 31) % 2 ^ 32 - 2 ^ 31

/-- The class `Connection`: the handle `socket_` and the environment of the
socket behind it. Calls other than `shutdown` are modelled for an open handle. -/
structure Connection where
  socket_ : Int
  os : Sock
  deriving DecidableEq, Repr

/-- The inner loop of `Connection::send(NetworkDataStream&)`:
`while (bytesLeft > 0)` around `::send(socket_, buf, bytesLeft, 0)`; every
call passes the start of `buf`. Returns `totalBytesSent`. -/
def Connection.send_chunk : Nat → Connection → List Byte → Int → Int → Res Int Connection
  | 0, _, _, _, _ => Res.outOfFuel
  | fuel + 1, c, buf, bytesLeft, totalBytesSent =>
    if bytesLeft > 0 then
      match c.os.send (buf.take bytesLeft.toNat) with
      | (bytesSent, os1) =>
        if bytesSent = SOCKET_ERROR then Res.throw Exn.send_failed { c with os := os1 }
        else
          Connection.send_chunk fuel { c with os := os1 } buf (bytesLeft - bytesSent)
            (wrapInt32 (totalBytesSent + bytesSent))
    else Res.ok totalBytesSent c

/-- The outer loop of `Connection::send(NetworkDataStream&)`:
`while (data.stream_.good())`, reading one chunk per round. -/
def Connection.send_loop : Nat → Connection → StdStream → Int → Res Int (Connection × StdStream)
  | 0, _, _, _ => Res.outOfFuel
  | fuel + 1, c, data, totalBytesSent =>
    if data.good then
      match data.read CHUNK_SIZE with
      | (buf, data1) =>
        if !data1.good && buf.length == 0 then Res.ok totalBytesSent (c, data1)
        else
          match Connection.send_chunk fuel c buf (buf.length : Int) totalBytesSent with
          | Res.ok total c1 => Connection.send_loop fuel c1 data1 total
          | Res.throw e c1 => Res.throw e (c1, data1)
          | Res.outOfFuel => Res.outOfFuel
    else Res.ok totalBytesSent (c, data)

/-- The function `int Connection::send(NetworkDataStream& data)`. -/
def Connection.send_stream (fuel : Nat) (c : Connection) (data : StdStream) :
    Res Int (Connection × StdStream) :=
  match Connection.send_loop fuel c data 0 with
  | Res.ok total (c1, data1) =>
    if data1.eof then Res.ok total (c1, data1) else Res.throw Exn.not_all_sent (c1, data1)
  | r => r

/-- The stream `Connection::send(const Message&)` builds:
`ds << msgid << length() << datalen << port; ds.write_str(payload)`. -/
def encode (message : Message) : StdStream :=
  NetworkDataStream.write_str
    (NetworkDataStream.put_u16
      (NetworkDataStream.put_u64
        (NetworkDataStream.put_u16
          (NetworkDataStream.put_MSGID StdStream.empty message.msgid)
          message.length)
        message.datalen)
      message.port)
    message.payload

/-- The function `int Connection::send(const Message& message)`. -/
def Connection.send (fuel : Nat) (c : Connection) (message : Message) : Res Int Connection :=
  if message.payload.length > MAX_PAYLOAD_LEN then Res.throw Exn.payload_too_long c
  else
    match Connection.send_stream fuel c (encode message) with
    | Res.ok n (c1, _) => Res.ok n c1
    | Res.throw e (c1, _) => Res.throw e c1
    | Res.outOfFuel => Res.outOfFuel

/-- The wrapper `recv` of the namespace (the build without WIN32): a request
for zero bytes returns zero at once. -/
def recv (s : Sock) (len : Nat) : Int × List Byte × Sock :=
  if len = 0 then (0, [], s) else s.recv len

/-- The field `tv_usec` of the timeval `recv_timeout` builds
(`timeout.tv_sec = 0; timeout.tv_usec = timeoutMs * 1000`). -/
def tv_usec (timeoutMs : Int) : Int := timeoutMs * 1000

/-- Whether `select` takes a timeval of zero seconds and `usec` microseconds:
the count must not be negative and must fit 31 bits; any other value makes the
call fail with `EINVAL`. -/
def timevalValid (usec : Int) : Bool := decide (0 ≤ usec) && decide (usec < 2 ^ 31)

/-- The call `select(FD_SETSIZE, &rfd, nullptr, &efd, timeout)`: `timeout` is
`none` for the null pointer and the microseconds of the timeval otherwise. A
timeval that `select` does not take makes the call return `SOCKET_ERROR` at
once, whatever the socket holds. -/
def Sock.selectCall (s : Sock) (timeout : Option Int) : SelectResult × Sock :=
  match timeout with
  | none => s.select false
  | some usec =>
    if timevalValid usec then s.select true
    else (SelectResult.error,
      { s with trace := s.trace ++ [Op.select SelectResult.error.numReady] })

/-- The function `recv_timeout`: the value returned, the bytes stored in `buf`
and the flag `*timedOut`. The timeval is given to `select` only when
`timeoutMs > 0` (`timeoutMs > 0 ? &timeout : nullptr`). -/
def recv_timeout (s : Sock) (len : Nat) (timeoutMs : Int) : Res (Int × List Byte × Bool) Sock :=
  match s.selectCall (if timeoutMs > 0 then some (tv_usec timeoutMs) else none) with
  | (sel, s1) =>
    if sel.numReady = SOCKET_ERROR then Res.throw Exn.select_failed s1
    else if sel.numReady = 0 then Res.ok (0, [], true) s1
    else
      match sel with
      | SelectResult.ready true =>
        match recv s1 len with
        | (result, bs, s2) =>
          if result = SOCKET_ERROR then Res.throw Exn.recv_failed s2
          else Res.ok (result, bs, false) s2
      | _ => Res.ok (0, [], false) s1

/-- The loop of `Connection::receive(NetworkDataStream&, int, long, bool*)`;
returns `totalBytes` and `internalTimeout` as they are when the loop is left. -/
def Connection.receive_loop :
    Nat → Connection → StdStream → Int → Int → Int → Bool →
      Res (Int × Bool) (Connection × StdStream)
  | 0, _, _, _, _, _, _ => Res.outOfFuel
  | fuel + 1, c, data, howMany, timeoutMs, totalBytes, internalTimeout =>
    if howMany > 0 && data.good then
      match recv_timeout c.os howMany.toNat timeoutMs with
      | Res.outOfFuel => Res.outOfFuel
      | Res.throw e os1 => Res.throw e ({ c with os := os1 }, data)
      | Res.ok (byteChunkReceived, buf, timedOut) os1 =>
        if byteChunkReceived = SOCKET_ERROR then
          Res.throw Exn.receive_error ({ c with os := os1 }, data)
        else if byteChunkReceived > 0 then
          if (data.write (buf.take byteChunkReceived.toNat)).tellp - data.tellp
              ≠ byteChunkReceived then
            Res.throw Exn.stream_write_failed
              ({ c with os := os1 }, data.write (buf.take byteChunkReceived.toNat))
          else
            Connection.receive_loop fuel { c with os := os1 }
              (data.write (buf.take byteChunkReceived.toNat))
              (howMany - byteChunkReceived) timeoutMs (totalBytes + byteChunkReceived) timedOut
        else if totalBytes = 0 then
          if timedOut && decide (timeoutMs ≠ TIMEOUT_NEVER) then
            Res.ok (totalBytes, timedOut) ({ c with os := os1 }, data)
          else if !timedOut then
            Res.throw Exn.disconnected ({ c with os := os1 }, data)
          else
            Connection.receive_loop fuel { c with os := os1 } data howMany timeoutMs
              totalBytes timedOut
        else
          Connection.receive_loop fuel { c with os := os1 } data howMany timeoutMs
            totalBytes timedOut
    else Res.ok (totalBytes, internalTimeout) (c, data)

/-- The function `int Connection::receive(NetworkDataStream& data, int howMany,
long timeoutMs, bool* timedOut)`: the count returned and the value stored in
`*timedOut`. -/
def Connection.receive_stream (fuel : Nat) (c : Connection) (data : StdStream) (howMany : Int)
    (timeoutMs : Int) : Res (Int × Bool) (Connection × StdStream) :=
  match Connection.receive_loop fuel c data howMany timeoutMs 0 false with
  | Res.ok (totalBytes, internalTimeout) (c1, data1) =>
    if !data1.good then Res.throw Exn.receive_failed (c1, data1)
    else Res.ok (totalBytes, internalTimeout) (c1, data1)
  | r => r

/-- What `Connection::receive(Message*, long, bool*)` leaves behind: the
connection, `*pMsg` and `*usertimedOut`. -/
structure Received where
  conn : Connection
  msg : Message
  timedOut : Bool
  deriving DecidableEq, Repr

/-- The function `int Connection::receive(Message* pMsg, long timeoutMs,
bool* usertimedOut)`. -/
def Connection.receive (fuel : Nat) (c : Connection) (timeoutMs : Int) : Res Int Received :=
  match Connection.receive_stream fuel c StdStream.empty (MESSAGE_BYTE_LEN : Int) timeoutMs with
  | Res.outOfFuel => Res.outOfFuel
  | Res.throw e (c1, _) => Res.throw e { conn := c1, msg := ZERO_MSG, timedOut := false }
  | Res.ok (bytesReceived, timedOut) (c1, ds) =>
    if decide (timeoutMs ≠ TIMEOUT_NEVER) && timedOut then
      Res.ok 0 { conn := c1, msg := ZERO_MSG, timedOut := timedOut }
    else if bytesReceived ≠ (MESSAGE_BYTE_LEN : Int) then
      Res.throw Exn.unexpected_header { conn := c1, msg := ZERO_MSG, timedOut := timedOut }
    else
      match NetworkDataStream.get_MSGID ds with
      | (msgid, ds1) =>
        match NetworkDataStream.get_u16 ds1 with
        | (msglen, ds2) =>
          match Connection.receive_stream fuel c1 ds2 ((msglen : Int) - bytesReceived)
              TIMEOUT_NEVER with
          | Res.outOfFuel => Res.outOfFuel
          | Res.throw e (c2, _) =>
            Res.throw e
              { conn := c2, msg := { ZERO_MSG with msgid := msgid, msglen := msglen },
                timedOut := timedOut }
          | Res.ok (moreBytesReceived, _) (c2, ds3) =>
            if bytesReceived + moreBytesReceived ≠ (msglen : Int) then
              Res.throw Exn.length_mismatch { conn := c2, msg := ZERO_MSG, timedOut := timedOut }
            else
              match NetworkDataStream.get_u64 ds3 with
              | (datalen, ds4) =>
                match NetworkDataStream.get_u16 ds4 with
                | (port, ds5) =>
                  match NetworkDataStream.read_str ds5
                      (Int.toNat (((msglen : Int) - (MESSAGE_BYTE_LEN : Int)) % 2 ^ 16)) with
                  | (payload, _) =>
                    Res.ok (bytesReceived + moreBytesReceived)
                      { conn := c2,
                        msg := { msgid := msgid, msglen := msglen, datalen := datalen,
                                 port := port, payload := payload },
                        timedOut := timedOut }

/-- The system call `::shutdown(fd, SD_SEND)`. -/
def Sock.shutdownSend (s : Sock) (fd : Int) : Sock :=
  { s with trace := s.trace ++ [Op.shutdown fd] }

/-- The call `closesocket(fd)`. -/
def Sock.close (s : Sock) (fd : Int) : Sock :=
  { s with trace := s.trace ++ [Op.close fd] }

/-- The drain loop of `Connection::shutdown` inside its `try`:
`while ((bytes = recv_timeout(...)) != SOCKET_ERROR && bytes > 0)`. A
`ConnectionException` is caught and leaves `bytes` as it was. Returns `bytes`. -/
def Connection.drain : Nat → Sock → Int → Res Int Sock
  | 0, _, _ => Res.outOfFuel
  | fuel + 1, os, bytes =>
    match recv_timeout os 1024 SHUTDOWN_TIMEOUT_MS with
    | Res.outOfFuel => Res.outOfFuel
    | Res.throw e os1 =>
      if e.isConnectionException then Res.ok bytes os1 else Res.throw e os1
    | Res.ok (n, _, _) os1 =>
      if n ≠ SOCKET_ERROR && n > 0 then Connection.drain fuel os1 n else Res.ok n os1

/-- The function `void Connection::shutdown()`. -/
def Connection.shutdown (fuel : Nat) (c : Connection) : Res Unit Connection :=
  if c.socket_ = INVALID_SOCKET then Res.ok () c
  else
    match Connection.drain fuel (c.os.shutdownSend c.socket_) 0 with
    | Res.outOfFuel => Res.outOfFuel
    | Res.throw e os1 => Res.throw e { c with os := os1 }
    | Res.ok bytes os1 =>
      if bytes = SOCKET_ERROR then
        Res.throw Exn.shutdown_failed { socket_ := INVALID_SOCKET, os := os1.close c.socket_ }
      else Res.ok () { socket_ := INVALID_SOCKET, os := os1.close c.socket_ }

/-- The destructor `Connection::~Connection()`:
`if (socket_ != INVALID_SOCKET) { shutdown(); closesocket(socket_); }`. -/
def Connection.destroy (fuel : Nat) (c : Connection) : Res Unit Connection :=
  if c.socket_ ≠ INVALID_SOCKET then
    match Connection.shutdown fuel c with
    | Res.ok _ c1 => Res.ok () { c1 with os := c1.os.close c1.socket_ }
    | r => r
  else Res.ok () c

/-- Whether a write event lets a whole chunk through. -/
def WriteEvent.acceptsChunk : WriteEvent → Bool
  | WriteEvent.fail => false
  | WriteEvent.room k => decide (CHUNK_SIZE ≤ k)

/-- The value a call returned, if it returned. -/
def Res.value? {α σ : Type} : Res α σ → Option α
  | Res.ok a _ => some a
  | _ => none

/-- Whether a logged system call belongs to receiving (`select` or `recv`). -/
def Op.isReceive : Op → Bool
  | Op.select _ => true
  | Op.recv _ _ => true
  | _ => false

/-- Whether a logged system call closes a descriptor. -/
def Op.isClose : Op → Bool
  | Op.close _ => true
  | _ => false

/-! ## Connection::welcome -/

/-- A `Connection::Ptr` as `welcome` and `connect` make it: the connection with
the constant identity fields of the class. -/
structure Ptr where
  conn : Connection
  hostName_ : String
  remoteName_ : String
  hostPort_ : Nat
  remotePort_ : Nat
  deriving DecidableEq, Repr

def PORT_ANY : Nat := 0

/-- The four callbacks handed to `welcome`, acting on the caller's state `U`;
all but the stop query may throw. -/
structure Callbacks (U : Type) where
  stopListeningQuery : U → Bool × U
  onCreate : U → String → Nat → Except Exn U
  onConnection : U → Ptr → Except Exn U
  onAcceptFailure : U → Exn → Except Exn (Bool × U)

/-- How the system calls that set the listening socket up go: the value
`socket` returns, whether `setsockopt`, `bind`, `listen`, `getsockname` and
`inet_ntop` succeed, and the address and port the socket got. -/
structure ListenSetup where
  welcomeSocket : Int
  setsockoptOk : Bool
  bindOk : Bool
  listenOk : Bool
  getsocknameOk : Bool
  inet_ntopOk : Bool
  hostName : String
  srcPort : Nat
  deriving DecidableEq, Repr

/-- What `getpeername` and `inet_ntop` give for an accepted socket. -/
inductive PeerInfo where
  | getpeernameFail
  | inet_ntopFail
  | resolved (remoteName : String) (destPort : Nat)
  deriving DecidableEq, Repr

/-- What one round of the accept loop meets after its clock reading:
`select` fails, `select` returns 0, `select` reports a descriptor that is not
the listening one, or `accept` returns `acceptSocket` (`INVALID_SOCKET` when
it fails) for a peer described by `peer` and `os`. -/
inductive ListenEvent where
  | selectFail
  | selectTimeout
  | notSet
  | accepted (acceptSocket : Int) (peer : PeerInfo) (os : Sock)
  deriving DecidableEq, Repr

/-- The log of what `welcome` does: system calls on the listening and accepted
sockets and callback invocations, in order. -/
inductive WelcomeOp where
  | socket (ret : Int)
  | onCreate (hostName : String) (port : Nat)
  | stopQuery (ret : Bool)
  | select (ret : Int)
  | accept (ret : Int)
  | onAcceptFailure (e : Exn)
  | onConnection (fd : Int)
  | close (fd : Int)
  deriving DecidableEq, Repr

/-- How a run of `welcome` ends: it returns, it throws, or it is still
listening when the script of events is used up. -/
inductive WelcomeEnd where
  | returned
  | threw (e : Exn)
  | listening
  deriving DecidableEq, Repr

/-- A run of `welcome`: the caller's state, the log and the way it ended. -/
structure WelcomeRun (U : Type) where
  user : U
  log : List WelcomeOp
  outcome : WelcomeEnd
  deriving DecidableEq, Repr

/-- Whether `getpeername` fails: always on `INVALID_SOCKET`. -/
def getpeernameFails (acceptSocket : Int) (peer : PeerInfo) : Bool :=
  decide (acceptSocket = INVALID_SOCKET) || decide (peer = PeerInfo.getpeernameFail)

/-- The part of the loop body of `welcome` from `getpeername` on; `k` is the
rest of the loop. -/
def welcome_peer {U : Type} (cb : Callbacks U) (singleShot : Bool) (welcomeSocket : Int)
    (hostName : String) (srcPort : Nat) (acceptSocket : Int) (peer : PeerInfo) (os : Sock)
    (u : U) (log : List WelcomeOp) (k : U → List WelcomeOp → WelcomeRun U) : WelcomeRun U :=
  if getpeernameFails acceptSocket peer then
    match cb.onAcceptFailure u Exn.getpeername_failed with
    | Except.error e =>
      { user := u,
        log := log ++ [WelcomeOp.close acceptSocket,
                       WelcomeOp.onAcceptFailure Exn.getpeername_failed],
        outcome := WelcomeEnd.threw e }
    | Except.ok (_, u1) =>
      k u1 (log ++ [WelcomeOp.close acceptSocket,
                    WelcomeOp.onAcceptFailure Exn.getpeername_failed])
  else
    match peer with
    | PeerInfo.resolved remoteName destPort =>
      match cb.onConnection u
          { conn := { socket_ := acceptSocket, os := os }, hostName_ := hostName,
            remoteName_ := remoteName, hostPort_ := srcPort, remotePort_ := destPort } with
      | Except.error e =>
        { user := u, log := log ++ [WelcomeOp.onConnection acceptSocket],
          outcome := WelcomeEnd.threw e }
      | Except.ok u1 =>
        if singleShot then
          { user := u1,
            log := log ++ [WelcomeOp.onConnection acceptSocket, WelcomeOp.close welcomeSocket],
            outcome := WelcomeEnd.returned }
        else k u1 (log ++ [WelcomeOp.onConnection acceptSocket])
    | _ =>
      { user := u,
        log := log ++ [WelcomeOp.close welcomeSocket, WelcomeOp.close acceptSocket],
        outcome := WelcomeEnd.threw Exn.peer_convert_failed }

/-- The accept loop of `welcome`, `while (!stopListeningQuery())`, one script
entry (clock reading in ms since the loop began, event) per round. -/
def welcome_loop {U : Type} (cb : Callbacks U) (singleShot : Bool) (timeoutMs : Int)
    (welcomeSocket : Int) (hostName : String) (srcPort : Nat) :
    List (Int × ListenEvent) → U → List WelcomeOp → WelcomeRun U
  | [], u, log =>
    match cb.stopListeningQuery u with
    | (true, u1) =>
      { user := u1, log := log ++ [WelcomeOp.stopQuery true, WelcomeOp.close welcomeSocket],
        outcome := WelcomeEnd.returned }
    | (false, u1) =>
      { user := u1, log := log ++ [WelcomeOp.stopQuery false], outcome := WelcomeEnd.listening }
  | (elapsed, ev) :: rest, u, log =>
    match cb.stopListeningQuery u with
    | (true, u1) =>
      { user := u1, log := log ++ [WelcomeOp.stopQuery true, WelcomeOp.close welcomeSocket],
        outcome := WelcomeEnd.returned }
    | (false, u1) =>
      if timeoutMs ≠ TIMEOUT_NEVER ∧ elapsed > timeoutMs then
        { user := u1, log := log ++ [WelcomeOp.stopQuery false, WelcomeOp.close welcomeSocket],
          outcome := WelcomeEnd.returned }
      else
        match ev with
        | ListenEvent.selectFail =>
          { user := u1,
            log := log ++ [WelcomeOp.stopQuery false, WelcomeOp.select (-1),
                           WelcomeOp.close welcomeSocket],
            outcome := WelcomeEnd.threw Exn.welcome_select_failed }
        | ListenEvent.selectTimeout =>
          welcome_loop cb singleShot timeoutMs welcomeSocket hostName srcPort rest u1
            (log ++ [WelcomeOp.stopQuery false, WelcomeOp.select 0])
        | ListenEvent.notSet =>
          welcome_loop cb singleShot timeoutMs welcomeSocket hostName srcPort rest u1
            (log ++ [WelcomeOp.stopQuery false, WelcomeOp.select 1])
        | ListenEvent.accepted acceptSocket peer os =>
          if acceptSocket = INVALID_SOCKET then
            match cb.onAcceptFailure u1 Exn.accept_failed with
            | Except.error e =>
              { user := u1,
                log := log ++ [WelcomeOp.stopQuery false, WelcomeOp.select 1,
                               WelcomeOp.accept acceptSocket,
                               WelcomeOp.onAcceptFailure Exn.accept_failed],
                outcome := WelcomeEnd.threw e }
            | Except.ok (false, u2) =>
              { user := u2,
                log := log ++ [WelcomeOp.stopQuery false, WelcomeOp.select 1,
                               WelcomeOp.accept acceptSocket,
                               WelcomeOp.onAcceptFailure Exn.accept_failed,
                               WelcomeOp.close welcomeSocket],
                outcome := WelcomeEnd.returned }
            | Except.ok (true, u2) =>
              welcome_peer cb singleShot welcomeSocket hostName srcPort acceptSocket peer os u2
                (log ++ [WelcomeOp.stopQuery false, WelcomeOp.select 1,
                         WelcomeOp.accept acceptSocket,
                         WelcomeOp.onAcceptFailure Exn.accept_failed])
                (welcome_loop cb singleShot timeoutMs welcomeSocket hostName srcPort rest)
          else
            welcome_peer cb singleShot welcomeSocket hostName srcPort acceptSocket peer os u1
              (log ++ [WelcomeOp.stopQuery false, WelcomeOp.select 1,
                       WelcomeOp.accept acceptSocket])
              (welcome_loop cb singleShot timeoutMs welcomeSocket hostName srcPort rest)

/-- The function `Connection::welcome`. -/
def Connection.welcome {U : Type} (port : Nat) (cb : Callbacks U) (singleShot : Bool)
    (timeoutMs : Int) (setup : ListenSetup) (script : List (Int × ListenEvent)) (u : U) :
    WelcomeRun U :=
  if setup.welcomeSocket = INVALID_SOCKET then
    { user := u, log := [WelcomeOp.socket setup.welcomeSocket],
      outcome := WelcomeEnd.threw Exn.welcome_socket_failed }
  else if port ≠ PORT_ANY ∧ setup.setsockoptOk = false then
    { user := u, log := [WelcomeOp.socket setup.welcomeSocket],
      outcome := WelcomeEnd.threw Exn.reuse_failed }
  else if setup.bindOk = false then
    { user := u, log := [WelcomeOp.socket setup.welcomeSocket, WelcomeOp.close setup.welcomeSocket],
      outcome := WelcomeEnd.threw Exn.bind_failed }
  else if setup.listenOk = false then
    { user := u, log := [WelcomeOp.socket setup.welcomeSocket, WelcomeOp.close setup.welcomeSocket],
      outcome := WelcomeEnd.threw Exn.listen_failed }
  else if setup.getsocknameOk = false then
    { user := u, log := [WelcomeOp.socket setup.welcomeSocket, WelcomeOp.close setup.welcomeSocket],
      outcome := WelcomeEnd.threw Exn.getsockname_failed }
  else if setup.inet_ntopOk = false then
    { user := u, log := [WelcomeOp.socket setup.welcomeSocket, WelcomeOp.close setup.welcomeSocket],
      outcome := WelcomeEnd.threw Exn.convert_address_failed }
  else
    match cb.onCreate u setup.hostName setup.srcPort with
    | Except.error e =>
      { user := u,
        log := [WelcomeOp.socket setup.welcomeSocket,
                WelcomeOp.onCreate setup.hostName setup.srcPort],
        outcome := WelcomeEnd.threw e }
    | Except.ok u1 =>
      welcome_loop cb singleShot timeoutMs setup.welcomeSocket setup.hostName setup.srcPort
        script u1
        [WelcomeOp.socket setup.welcomeSocket, WelcomeOp.onCreate setup.hostName setup.srcPort]

/-- Whether a log entry is the `onCreate` callback. -/
def WelcomeOp.isOnCreate : WelcomeOp → Bool
  | WelcomeOp.onCreate _ _ => true
  | _ => false

/-- Whether a log entry is the `onConnection` callback. -/
def WelcomeOp.isOnConnection : WelcomeOp → Bool
  | WelcomeOp.onConnection _ => true
  | _ => false

/-- Whether a log entry is an `accept` call. -/
def WelcomeOp.isAccept : WelcomeOp → Bool
  | WelcomeOp.accept _ => true
  | _ => false

/-- Whether a log entry is the `onAcceptFailure` callback. -/
def WelcomeOp.isOnAcceptFailure : WelcomeOp → Bool
  | WelcomeOp.onAcceptFailure _ => true
  | _ => false

/-- Whether every system call of the set-up of `welcome` succeeds for `port`. -/
def ListenSetup.succeeds (setup : ListenSetup) (port : Nat) : Bool :=
  decide (setup.welcomeSocket ≠ INVALID_SOCKET)
    && (decide (port = PORT_ANY) || setup.setsockoptOk)
    && setup.bindOk && setup.listenOk && setup.getsocknameOk && setup.inet_ntopOk

/-- Callbacks like the ones `Server.cpp` hands to `welcome`: the stop query
says no, `onCreate` does nothing, `onConnection` counts the connection and
`onAcceptFailure` answers `keep` (`accept_error` answers `true`). -/
def serverCallbacks (keep : Bool) : Callbacks Nat :=
  { stopListeningQuery := fun u => (false, u),
    onCreate := fun u _ _ => Except.ok u,
    onConnection := fun u _ => Except.ok (u + 1),
    onAcceptFailure := fun u _ => Except.ok (keep, u) }

/-- A set-up in which every system call succeeds: descriptor 5 on port 4000. -/
def goodSetup : ListenSetup :=
  { welcomeSocket := 5, setsockoptOk := true, bindOk := true, listenOk := true,
    getsocknameOk := true, inet_ntopOk := true, hostName := "0.0.0.0", srcPort := 4000 }

/-- A socket on which nothing is scripted. -/
def idleSock : Sock := { incoming := [], outgoing := [], wire := [], trace := [] }

/-! ## The collaborators of a session: filesystem and network -/

def ERR_UNKNOWN : Nat := 255
def ERR_FAILED_TO_OPEN : Nat := 1
def ERR_DOES_NOT_EXIST : Nat := 2
def ERR_INVALID_FILENAME : Nat := 3
def ERR_NOT_A_FILE : Nat := 4
def ERR_ALREADY_EXISTS : Nat := 5
def ERR_UNRECOGNIZED_COMMAND : Nat := 6

/-- The function `MAKE_MSG(MSGID, uint32_t datalen, port_t portOrEcode, payload)`. -/
def MAKE_MSG (msgid datalen portOrEcode : Nat) (payload : List Byte) : Message :=
  { msgid := msgid,
    msglen := Message.length
      { msgid := msgid, msglen := 0, datalen := datalen % 2 ^ 32, port := portOrEcode % 2 ^ 16,
        payload := payload },
    datalen := datalen % 2 ^ 32, port := portOrEcode % 2 ^ 16, payload := payload }

/-- The function `MAKE_EMSG(code)`: `MAKE_MSG(MESSAGE_ERROR, "")` with `ecode = code`. -/
def MAKE_EMSG (code : Nat) : Message :=
  { MAKE_MSG MESSAGE_ERROR 0 0 [] with port := code }

/-- The bytes of a string literal of the source. -/
def str (s : String) : List Byte := s.toList.map (fun ch => byteOf ch.toNat)

/-- The character `/`. -/
def SLASH : Byte := 47
/-- The character `\`. -/
def BACKSLASH : Byte := 92
/-- The single quote the diagnostic texts put around a name. -/
def QUOTE : Byte := 39

/-- What a name stands for in the server's directory: a regular file with its
content, whether an `fstream` opens on it and whether its size can be found by
seeking, or something that is not a regular file. -/
inductive Node where
  | file (content : List Byte) (opens : Bool) (sizeKnown : Bool)
  | directory
  deriving DecidableEq, Repr

/-- A call to the filesystem, as logged in `FileSystem.log`. -/
inductive FsOp where
  | exists (name : List Byte)
  | is_regular_file (name : List Byte)
  | open (name : List Byte)
  | create (name : List Byte)
  | store (name : List Byte)
  | list
  deriving DecidableEq, Repr

/-- The filesystem collaborator: the names in the server's directory, whether a
new file can be created there, what the directory enumeration of LS renders,
and the log of the calls made. -/
structure FileSystem where
  nodes : List (List Byte × Node)
  creatable : Bool
  listing : List Byte
  log : List FsOp
  deriving DecidableEq, Repr

/-- The call `fs::exists(name)`. -/
def FileSystem.exists (fs : FileSystem) (name : List Byte) : Bool × FileSystem :=
  ((fs.nodes.lookup name).isSome, { fs with log := fs.log ++ [FsOp.exists name] })

/-- The call `fs::is_regular_file(name)`. -/
def FileSystem.is_regular_file (fs : FileSystem) (name : List Byte) : Bool × FileSystem :=
  (match fs.nodes.lookup name with
    | some (Node.file _ _ _) => true
    | _ => false,
   { fs with log := fs.log ++ [FsOp.is_regular_file name] })

/-- A stream on which `open` has failed. -/
def StdStream.failed : StdStream := { StdStream.empty with failbit := true }

/-- The call `input.open(name, binary | in | out)`: the stream, whether seeking
to the end of it will work, and the filesystem afterwards. -/
def FileSystem.open (fs : FileSystem) (name : List Byte) : StdStream × Bool × FileSystem :=
  match fs.nodes.lookup name with
  | some (Node.file content true sizeKnown) =>
    (StdStream.ofBytes content, sizeKnown, { fs with log := fs.log ++ [FsOp.open name] })
  | _ => (StdStream.failed, false, { fs with log := fs.log ++ [FsOp.open name] })

/-- The call `output.open(name, binary | in | out | trunc)`: whether the
stream is open, and the filesystem afterwards (the file is created or emptied). -/
def FileSystem.create (fs : FileSystem) (name : List Byte) : Bool × FileSystem :=
  if fs.creatable then
    (true, { fs with nodes := (name, Node.file [] true true)
                       :: fs.nodes.filter (fun p => !(p.1 == name)),
                     log := fs.log ++ [FsOp.create name] })
  else (false, { fs with log := fs.log ++ [FsOp.create name] })

/-- The content the stream `output` has delivered to the file `name` by the
time the stream is closed. -/
def FileSystem.store (fs : FileSystem) (name : List Byte) (content : List Byte) : FileSystem :=
  { fs with nodes := (name, Node.file content true true)
              :: fs.nodes.filter (fun p => !(p.1 == name)),
            log := fs.log ++ [FsOp.store name] }

/-- The enumeration of the current directory by `handle_ls`: the text that
goes into `lsData`. -/
def FileSystem.list (fs : FileSystem) : List Byte × FileSystem :=
  (fs.listing, { fs with log := fs.log ++ [FsOp.list] })

/-- The calls `seekg(0, end); tellg(); seekg(0, beg)` on `input`: the size found
and the stream afterwards. On a stream that is not good nothing is done and
`tellg` gives `-1`. -/
def seek_size (input : StdStream) (sizeKnown : Bool) : Int × StdStream :=
  if input.good && sizeKnown then ((input.buf.length : Int), input)
  else (-1, { input with failbit := true })

/-- The network as a session sees it: what each coming `Connection::connect`
obtains (`none`: no address can be connected to), the log of the calls to
`connect` (host, port), and the data connections already destroyed, in their
final state. -/
structure Network where
  script : List (Option (Int × Sock))
  connects : List (String × Nat)
  closed : List Connection
  deriving DecidableEq, Repr

/-- The function `Connection::connect(remoteName, destPort)`; `none` stands for
the `ConnectionException` it throws. -/
def Connection.connect (net : Network) (remoteName : String) (destPort : Nat) :
    Option Connection × Network :=
  match net.script with
  | some (fd, os) :: r =>
    (some { socket_ := fd, os := os },
      { net with script := r, connects := net.connects ++ [(remoteName, destPort)] })
  | none :: r =>
    (none, { net with script := r, connects := net.connects ++ [(remoteName, destPort)] })
  | [] => (none, { net with connects := net.connects ++ [(remoteName, destPort)] })

/-- The end of the scope of a local `Connection::Ptr dataChannel`: the
destructor runs and the connection is recorded in its final state. -/
def Network.release (net : Network) (fuel : Nat) (dataChannel : Connection) : Res Unit Network :=
  match Connection.destroy fuel dataChannel with
  | Res.ok _ c1 => Res.ok () { net with closed := net.closed ++ [c1] }
  | Res.throw e c1 => Res.throw e { net with closed := net.closed ++ [c1] }
  | Res.outOfFuel => Res.outOfFuel

/-! ## ClientSession.cpp -/

def TIMEOUT_HELLO_MS : Int := 10000
def TIMEOUT_CLIENT_COMMAND_RESPONSE : Int := 10000
def TIMEOUT_IDLE : Int := 60000

/-- What a `ClientSession` works on: its control connection `control_`, the
name `control_->remote_name()` of the client, the filesystem, the network, and
the log of the message ids `serve` has dispatched to a handler. -/
structure World where
  control : Connection
  remoteName : String
  fs : FileSystem
  net : Network
  dispatched : List Nat
  deriving DecidableEq, Repr

/-- The message `MAKE_MSG(MESSAGE_HELLO, MAKE_VERSION("Server", "welcome"))`
(the build without WIN32). -/
def HELLO_MSG : Message := MAKE_MSG MESSAGE_HELLO 0 0 (str "Server/1.0/linux: welcome")

/-- The function `bool ClientSession::greeting()`. -/
def ClientSession.greeting (fuel : Nat) (w : World) : Res Bool World :=
  match w.control.send fuel HELLO_MSG with
  | Res.outOfFuel => Res.outOfFuel
  | Res.throw e c1 => Res.throw e { w with control := c1 }
  | Res.ok n c1 =>
    if n ≠ (HELLO_MSG.length : Int) then Res.ok false { w with control := c1 }
    else
      match c1.receive fuel TIMEOUT_HELLO_MS with
      | Res.outOfFuel => Res.outOfFuel
      | Res.throw e r => Res.throw e { w with control := r.conn }
      | Res.ok bytesReceived r =>
        if r.timedOut then Res.ok false { w with control := r.conn }
        else if r.msg.msgid ≠ MESSAGE_HELLO ∨ bytesReceived < (MESSAGE_BYTE_LEN : Int) then
          Res.ok false { w with control := r.conn }
        else Res.ok true { w with control := r.conn }

/-- A `catch (const ConnectionException&)` that only prints: the exception
ends there when it is a `ConnectionException` and goes on otherwise. -/
def caught (e : Exn) (w : World) : Res Unit World :=
  if e.isConnectionException then Res.ok () w else Res.throw e w

/-- The end of the scope of `dataChannel`, leaving normally (`none`) or with an
exception on its way to the `catch` of the handler (`some e`). -/
def ClientSession.leave (fuel : Nat) (w : World) (dataChannel : Connection)
    (onExit : Option Exn → World → Res Unit World) (e : Option Exn) : Res Unit World :=
  match w.net.release fuel dataChannel with
  | Res.outOfFuel => Res.outOfFuel
  | Res.throw e1 net1 => Res.throw e1 { w with net := net1 }
  | Res.ok _ net1 => onExit e { w with net := net1 }

/-- What a handler does with the way its `try` block ended: `handle_get` and
`handle_put` print and return. -/
def swallow : Option Exn → World → Res Unit World
  | none, w => Res.ok () w
  | some e, w => caught e w

/-- What `handle_ls` does with the way its `try` block ended: it prints and
throws the exception again. -/
def rethrow : Option Exn → World → Res Unit World
  | none, w => Res.ok () w
  | some e, w => Res.throw e w

/-- The checks of `handle_get` (the block of failure scenarios): the response,
the stream `input`, `fileSize` and the filesystem afterwards. `response` is
what the local `Message response;` holds before any assignment. -/
def ClientSession.get_checks (fs : FileSystem) (clientCommand : Message) (response : Message) :
    Message × StdStream × Int × FileSystem :=
  if clientCommand.payload.isEmpty then
    (MAKE_EMSG ERR_INVALID_FILENAME, StdStream.empty, 0, fs)
  else if SLASH ∈ clientCommand.payload ∨ BACKSLASH ∈ clientCommand.payload then
    ({ MAKE_EMSG ERR_INVALID_FILENAME with
        payload := [QUOTE] ++ clientCommand.payload ++ [QUOTE]
          ++ str " contains a path which is not permitted" },
      StdStream.empty, 0, fs)
  else
    match fs.exists clientCommand.payload with
    | (false, fs1) =>
      ({ MAKE_EMSG ERR_DOES_NOT_EXIST with
          payload := str "File " ++ [QUOTE] ++ clientCommand.payload ++ [QUOTE]
            ++ str " not found on server" },
        StdStream.empty, 0, fs1)
    | (true, fs1) =>
      match fs1.is_regular_file clientCommand.payload with
      | (false, fs2) =>
        ({ MAKE_EMSG ERR_NOT_A_FILE with
            payload := [QUOTE] ++ clientCommand.payload ++ [QUOTE] ++ str " is not a file" },
          StdStream.empty, 0, fs2)
      | (true, fs2) =>
        match fs2.open clientCommand.payload with
        | (input, sizeKnown, fs3) =>
          match seek_size input sizeKnown with
          | (fileSize, input1) =>
            if !input1.good then
              ({ MAKE_EMSG ERR_UNKNOWN with payload := str "could not determine length of file" },
                input1, fileSize, fs3)
            else
              (if !input.good then MAKE_EMSG ERR_FAILED_TO_OPEN else response,
                input1, fileSize, fs3)

/-- The function `void ClientSession::handle_get(const Message& clientCommand)`.
The local `Message response;` is not initialised (`MAKE_EMSG(ERR_UNKNOWN);`
after it is an expression whose value is dropped): `uninit` gives the fields
it happens to hold, its payload being the empty string. -/
def ClientSession.handle_get (fuel : Nat) (w : World) (clientCommand : Message)
    (uninit : Message) : Res Unit World :=
  match ClientSession.get_checks w.fs clientCommand { uninit with payload := [] } with
  | (response, input, fileSize, fs1) =>
    if response.msgid = MESSAGE_ERROR then
      match w.control.send fuel response with
      | Res.outOfFuel => Res.outOfFuel
      | Res.throw e c1 => caught e { w with control := c1, fs := fs1 }
      | Res.ok _ c1 => Res.ok () { w with control := c1, fs := fs1 }
    else
      match Connection.connect w.net w.remoteName clientCommand.port with
      | (none, net1) => caught Exn.connect_failed { w with fs := fs1, net := net1 }
      | (some dataChannel, net1) =>
        match w.control.send fuel
            { MAKE_MSG MESSAGE_OK 0 0 [] with datalen := Int.toNat (fileSize % 2 ^ 64) } with
        | Res.outOfFuel => Res.outOfFuel
        | Res.throw e c1 =>
          ClientSession.leave fuel { w with control := c1, fs := fs1, net := net1 } dataChannel
            swallow (some e)
        | Res.ok _ c1 =>
          match dataChannel.send_stream fuel input with
          | Res.outOfFuel => Res.outOfFuel
          | Res.throw e (dc1, _) =>
            ClientSession.leave fuel { w with control := c1, fs := fs1, net := net1 } dc1
              swallow (some e)
          | Res.ok _ (dc1, _) =>
            match dc1.shutdown fuel with
            | Res.outOfFuel => Res.outOfFuel
            | Res.throw e dc2 =>
              ClientSession.leave fuel { w with control := c1, fs := fs1, net := net1 } dc2
                swallow (some e)
            | Res.ok _ dc2 =>
              ClientSession.leave fuel { w with control := c1, fs := fs1, net := net1 } dc2
                swallow none

/-- A step of the receive loop of `handle_put`: a call
`dataChannel->receive(ds, n)` or a call `output.flush()`. -/
inductive PutStep where
  | request (n : Nat)
  | flush
  deriving DecidableEq, Repr

/-- The loop `while (bytesLeft > 0)` of `handle_put`: `bytesLeft` when it ends
and the steps taken. `bytesLeft` is a `uint64_t`, `received` the `int` result
converted to `uint64_t`. -/
def ClientSession.put_loop : Nat → Connection → StdStream → Nat → List PutStep →
    Res (Nat × List PutStep) (Connection × StdStream)
  | 0, _, _, _, _ => Res.outOfFuel
  | fuel + 1, dataChannel, output, bytesLeft, steps =>
    if bytesLeft > 0 then
      match dataChannel.receive_stream fuel output
          (if bytesLeft > CHUNK_SIZE then (CHUNK_SIZE : Int) else wrapInt32 (bytesLeft : Int))
          TIMEOUT_NEVER with
      | Res.outOfFuel => Res.outOfFuel
      | Res.throw e s => Res.throw e s
      | Res.ok (received, _) (dc1, output1) =>
        ClientSession.put_loop fuel dc1 output1
          (Int.toNat (((bytesLeft : Int) - received % 2 ^ 64) % 2 ^ 64))
          (steps ++
            [PutStep.request
              (Int.toNat
                (if bytesLeft > CHUNK_SIZE then (CHUNK_SIZE : Int)
                 else wrapInt32 (bytesLeft : Int))),
             PutStep.flush])
    else Res.ok (bytesLeft, steps) (dataChannel, output)

/-- The checks of `handle_put`: the response, whether `output` is open, and
the filesystem afterwards. -/
def ClientSession.put_checks (fs : FileSystem) (clientCommand : Message) :
    Message × Bool × FileSystem :=
  match fs.exists clientCommand.payload with
  | (true, fs1) => (MAKE_EMSG ERR_ALREADY_EXISTS, false, fs1)
  | (false, fs1) =>
    if clientCommand.payload.isEmpty ∨ SLASH ∈ clientCommand.payload
        ∨ BACKSLASH ∈ clientCommand.payload then
      (MAKE_EMSG ERR_INVALID_FILENAME, false, fs1)
    else
      match fs1.create clientCommand.payload with
      | (false, fs2) => (MAKE_EMSG ERR_FAILED_TO_OPEN, false, fs2)
      | (true, fs2) => (MAKE_MSG MESSAGE_OK 0 0 [], true, fs2)

/-- The function `void ClientSession::handle_put(const Message& clientCommand)`. -/
def ClientSession.handle_put (fuel : Nat) (w : World) (clientCommand : Message) :
    Res Unit World :=
  match ClientSession.put_checks w.fs clientCommand with
  | (response, _, fs1) =>
    match w.control.send fuel response with
    | Res.outOfFuel => Res.outOfFuel
    | Res.throw e c1 => Res.throw e { w with control := c1, fs := fs1 }
    | Res.ok _ c1 =>
      if response.msgid ≠ MESSAGE_OK then Res.ok () { w with control := c1, fs := fs1 }
      else
        match Connection.connect w.net w.remoteName clientCommand.port with
        | (none, net1) =>
          Res.throw Exn.connect_failed { w with control := c1, fs := fs1, net := net1 }
        | (some dataChannel, net1) =>
          match ClientSession.put_loop fuel dataChannel StdStream.empty clientCommand.datalen []
            with
          | Res.outOfFuel => Res.outOfFuel
          | Res.throw e (dc1, output1) =>
            ClientSession.leave fuel
              { w with control := c1, fs := fs1.store clientCommand.payload output1.buf,
                       net := net1 }
              dc1 swallow (some e)
          | Res.ok _ (dc1, output1) =>
            match dc1.shutdown fuel with
            | Res.outOfFuel => Res.outOfFuel
            | Res.throw e dc2 =>
              ClientSession.leave fuel
                { w with control := c1, fs := fs1.store clientCommand.payload output1.buf,
                         net := net1 }
                dc2 swallow (some e)
            | Res.ok _ dc2 =>
              ClientSession.leave fuel
                { w with control := c1, fs := fs1.store clientCommand.payload output1.buf,
                         net := net1 }
                dc2 swallow none

/-- The reply of `handle_ls` for the listing `lsData`:
`MAKE_MSG(MSGID::MESSAGE_OK, static_cast<uint32_t>(dataLen), 0, "")`. -/
def ClientSession.ls_reply (lsData : List Byte) : Message :=
  MAKE_MSG MESSAGE_OK (lsData.length % 2 ^ 32) 0 []

/-- The function `void ClientSession::handle_ls(const Message& clientCommand)`. -/
def ClientSession.handle_ls (fuel : Nat) (w : World) (clientCommand : Message) :
    Res Unit World :=
  match Connection.connect w.net w.remoteName clientCommand.port with
  | (none, net1) => Res.throw Exn.connect_failed { w with net := net1 }
  | (some dataChannel, net1) =>
    match w.fs.list with
    | (lsData, fs1) =>
      match w.control.send fuel (ClientSession.ls_reply lsData) with
      | Res.outOfFuel => Res.outOfFuel
      | Res.throw e c1 =>
        ClientSession.leave fuel { w with control := c1, fs := fs1, net := net1 } dataChannel
          rethrow (some e)
      | Res.ok _ c1 =>
        match dataChannel.send_stream fuel (StdStream.ofBytes lsData) with
        | Res.outOfFuel => Res.outOfFuel
        | Res.throw e (dc1, _) =>
          ClientSession.leave fuel { w with control := c1, fs := fs1, net := net1 } dc1
            rethrow (some e)
        | Res.ok n (dc1, _) =>
          if n ≠ (lsData.length : Int) then
            ClientSession.leave fuel { w with control := c1, fs := fs1, net := net1 } dc1
              rethrow (some Exn.send_incomplete)
          else
            match dc1.shutdown fuel with
            | Res.outOfFuel => Res.outOfFuel
            | Res.throw e dc2 =>
              ClientSession.leave fuel { w with control := c1, fs := fs1, net := net1 } dc2
                rethrow (some e)
            | Res.ok _ dc2 =>
              ClientSession.leave fuel { w with control := c1, fs := fs1, net := net1 } dc2
                rethrow none

/-- The function `void ClientSession::handle_quit(const Message& clientCommand)`. -/
def ClientSession.handle_quit (fuel : Nat) (w : World) : Res Unit World :=
  match w.control.shutdown fuel with
  | Res.outOfFuel => Res.outOfFuel
  | Res.throw e c1 => Res.throw e { w with control := c1 }
  | Res.ok _ c1 => Res.ok () { w with control := c1 }

/-- The loop `while (true)` of `ClientSession::serve`. -/
def ClientSession.serve_loop : Nat → World → Message → Res Unit World
  | 0, _, _ => Res.outOfFuel
  | fuel + 1, w, uninit =>
    match w.control.receive fuel TIMEOUT_IDLE with
    | Res.outOfFuel => Res.outOfFuel
    | Res.throw e r => Res.throw e { w with control := r.conn }
    | Res.ok _ r =>
      if r.timedOut then Res.ok () { w with control := r.conn }
      else if r.msg.msgid = MESSAGE_LS then
        match ClientSession.handle_ls fuel
            { w with control := r.conn, dispatched := w.dispatched ++ [r.msg.msgid] } r.msg with
        | Res.ok _ w1 => ClientSession.serve_loop fuel w1 uninit
        | other => other
      else if r.msg.msgid = MESSAGE_GET then
        match ClientSession.handle_get fuel
            { w with control := r.conn, dispatched := w.dispatched ++ [r.msg.msgid] } r.msg
            uninit with
        | Res.ok _ w1 => ClientSession.serve_loop fuel w1 uninit
        | other => other
      else if r.msg.msgid = MESSAGE_PUT then
        match ClientSession.handle_put fuel
            { w with control := r.conn, dispatched := w.dispatched ++ [r.msg.msgid] } r.msg with
        | Res.ok _ w1 => ClientSession.serve_loop fuel w1 uninit
        | other => other
      else if r.msg.msgid = MESSAGE_QUIT then
        ClientSession.handle_quit fuel
          { w with control := r.conn, dispatched := w.dispatched ++ [r.msg.msgid] }
      else Res.ok () { w with control := r.conn }

/-- The function `void ClientSession::serve()`. -/
def ClientSession.serve (fuel : Nat) (w : World) (uninit : Message) : Res Unit World :=
  match ClientSession.greeting fuel w with
  | Res.outOfFuel => Res.outOfFuel
  | Res.throw e w1 => Res.throw e w1
  | Res.ok false w1 => Res.ok () w1
  | Res.ok true w1 => ClientSession.serve_loop fuel w1 uninit

/-- A server directory with a regular file `a` of three bytes, a directory `d`
and a regular file `x` that cannot be opened. -/
def exampleFs : FileSystem :=
  { nodes := [([97], Node.file [1, 2, 3] true true), ([100], Node.directory),
              ([120], Node.file [4] false false)],
    creatable := true, listing := [97, 10, 120, 10], log := [] }

/-- A network in which the next `connect` succeeds, on descriptor 9, with a
peer that sends `incoming`. -/
def exampleNet (incoming : List Event) : Network :=
  { script := [some (9, { idleSock with incoming := incoming })], connects := [], closed := [] }

/-- A session on descriptor 7 with the client `client`, whose control
connection will deliver `control` and whose data connection `data`. -/
def exampleWorld (control data : List Event) : World :=
  { control := { socket_ := 7, os := { idleSock with incoming := control } },
    remoteName := "client", fs := exampleFs, net := exampleNet data, dispatched := [] }

/-- The chunk sizes the description of PUT gives for `D` bytes: 32768 for
each full chunk, then what remains, if anything. -/
def chunkRequests (D : Nat) : List Nat :=
  List.replicate (D / CHUNK_SIZE) CHUNK_SIZE
    ++ (if D % CHUNK_SIZE = 0 then [] else [D % CHUNK_SIZE])

/-- One request followed by one flush for each chunk size. -/
def stepsOf : List Nat → List PutStep
  | [] => []
  | n :: r => PutStep.request n :: PutStep.flush :: stepsOf r

/-- The example session on a network in which no connection can be made. -/
def unreachableWorld (control : List Event) : World :=
  { exampleWorld control [] with net := { script := [none], connects := [], closed := [] } }

/-! ## Message.h: comparison -/

/-- The call `a.compare(b)` of `std::string`: negative, zero or positive as
`a` is before, equal to or after `b` (characters compared as unsigned, a
proper prefix first). -/
def string_compare : List Byte → List Byte → Int
  | [], [] => 0
  | [], _ :: _ => -1
  | _ :: _, [] => 1
  | a :: as, b :: bs =>
    if a.val < b.val then -1 else if b.val < a.val then 1 else string_compare as bs

/-- The operator `bool Message::operator==(const Message& other)`. -/
def Message.op_eq (m other : Message) : Bool :=
  m.msgid == other.msgid && m.msglen == other.msglen && m.port == other.port
    && string_compare m.payload other.payload == 0

/-- The operator `bool Message::operator!=(const Message& other)`. -/
def Message.op_ne (m other : Message) : Bool := !(m.op_eq other)

/-- The number of bytes the `::send` calls of a trace report as taken (the sum
of their return values). -/
def bytesTaken : List Op → Int
  | [] => 0
  | Op.send _ ret :: r => ret + bytesTaken r
  | _ :: r => bytesTaken r

/-! # Proofs -/

/-! ## Reading from a stream -/

theorem StdStream.good_iff (s : StdStream) :
    s.good = true ↔ s.eofbit = false ∧ s.failbit = false := by
  unfold StdStream.good; cases s.eofbit <;> cases s.failbit <;> simp

theorem StdStream.read_fst (s : StdStream) (n : Nat) (h : s.good = true) :
    (s.read n).1 = s.unread.take n := by
  unfold StdStream.read; simp only [h, if_true]; split <;> rfl

theorem drop_add_min {α : Type} (l : List α) (g n : Nat) :
    l.drop (g + min n (l.drop g).length) = (l.drop g).drop n := by
  rw [List.drop_drop]
  rcases Nat.le_total n (l.drop g).length with h | h
  · rw [Nat.min_eq_left h, Nat.add_comm]
  · rw [Nat.min_eq_right h]
    rw [List.drop_eq_nil_of_le, List.drop_eq_nil_of_le]
    · simp only [List.length_drop] at h; omega
    · simp only [List.length_drop]; omega

theorem StdStream.read_unread (s : StdStream) (n : Nat) (h : s.good = true) :
    (s.read n).2.unread = s.unread.drop n := by
  unfold StdStream.read; simp only [h, if_true]
  split <;> simp only [StdStream.unread, List.length_take] <;> exact drop_add_min _ _ _

theorem StdStream.read_good (s : StdStream) (n : Nat) (h : s.good = true) :
    (s.read n).2.good = decide (n ≤ s.unread.length) := by
  have hg := (StdStream.good_iff s).1 h
  unfold StdStream.read; simp only [h, if_true]
  split
  · rename_i hlt
    simp only [List.length_take] at hlt
    simp only [StdStream.good, Bool.not_true, Bool.and_self]
    symm; rw [decide_eq_false_iff_not]; omega
  · rename_i hlt
    simp only [List.length_take] at hlt
    simp only [StdStream.good, hg.1, hg.2, Bool.not_false, Bool.and_self]
    symm; rw [decide_eq_true_iff]; omega

theorem StdStream.read_eofbit (s : StdStream) (n : Nat) (h : s.good = true) :
    (s.read n).2.eofbit = decide (s.unread.length < n) := by
  have hg := (StdStream.good_iff s).1 h
  unfold StdStream.read; simp only [h, if_true]
  split
  · rename_i hlt
    simp only [List.length_take] at hlt
    symm; rw [decide_eq_true_iff]; omega
  · rename_i hlt
    simp only [List.length_take] at hlt
    simp only [hg.1]
    symm; rw [decide_eq_false_iff_not]; omega

theorem StdStream.read_reads (s : StdStream) (n : Nat) (h : s.good = true) :
    (s.read n).2.reads = s.reads ++ [min n s.unread.length] := by
  unfold StdStream.read; simp only [h, if_true]
  split <;> simp only [List.length_take]


/-! ## The `int` accumulator -/

theorem wrapInt32_of_range {x : Int} (h1 : -2 ^ 31 ≤ x) (h2 : x < 2 ^ 31) : wrapInt32 x = x := by
  unfold wrapInt32; omega

theorem wrapInt32_range (x : Int) : -2 ^ 31 ≤ wrapInt32 x ∧ wrapInt32 x < 2 ^ 31 := by
  unfold wrapInt32; omega

theorem wrapInt32_add_left (a b : Int) : wrapInt32 (wrapInt32 a + b) = wrapInt32 (a + b) := by
  unfold wrapInt32; omega

/-! ## Sending a stream -/

theorem send_chunk_succ (fuel : Nat) (c : Connection) (buf : List Byte) (bytesLeft total : Int) :
    Connection.send_chunk (fuel + 1) c buf bytesLeft total =
      if bytesLeft > 0 then
        if (c.os.send (buf.take bytesLeft.toNat)).1 = SOCKET_ERROR then
          Res.throw Exn.send_failed { c with os := (c.os.send (buf.take bytesLeft.toNat)).2 }
        else
          Connection.send_chunk fuel { c with os := (c.os.send (buf.take bytesLeft.toNat)).2 } buf
            (bytesLeft - (c.os.send (buf.take bytesLeft.toNat)).1)
            (wrapInt32 (total + (c.os.send (buf.take bytesLeft.toNat)).1))
      else Res.ok total c := rfl

theorem Sock.send_nil (s : Sock) (data : List Byte) (h : s.outgoing = []) :
    s.send data = ((data.length : Int),
      { s with wire := s.wire ++ data, trace := s.trace ++ [Op.send data.length data.length] }) := by
  unfold Sock.send; rw [h]

theorem Sock.send_room (s : Sock) (data : List Byte) (k : Nat) (r : List WriteEvent)
    (h : s.outgoing = WriteEvent.room k :: r) :
    s.send data = (((min k data.length : Nat) : Int),
      { s with outgoing := r, wire := s.wire ++ data.take (min k data.length),
               trace := s.trace ++ [Op.send data.length (min k data.length : Nat)] }) := by
  unfold Sock.send; rw [h]

theorem send_chunk_ok (buf : List Byte) :
    ∀ (out : List WriteEvent) (fuel : Nat) (c : Connection) (n : Nat) (total : Int),
      c.os.outgoing = out → (∀ e ∈ out, e ≠ WriteEvent.fail) → n ≤ buf.length →
      out.length + 2 ≤ fuel → -2 ^ 31 ≤ total → total < 2 ^ 31 →
      ∃ c', Connection.send_chunk fuel c buf (n : Int) total
              = Res.ok (wrapInt32 (total + n)) c'
        ∧ c'.socket_ = c.socket_ ∧ c'.os.incoming = c.os.incoming
        ∧ (∃ k, c'.os.outgoing = out.drop k)
        ∧ (∃ ops, c'.os.trace = c.os.trace ++ ops
            ∧ ∀ op ∈ ops, ∃ req ret, op = Op.send req ret ∧ req ≤ buf.length)
        ∧ (n = 0 → c' = c)
        ∧ (n = buf.length → (∀ e ∈ out, e.acceptsChunk = true) → buf.length ≤ CHUNK_SIZE →
            c'.os.wire = c.os.wire ++ buf) := by
  intro out
  induction out with
  | nil =>
    intro fuel c n total hout _ hn hfuel h1 h2
    obtain ⟨f, rfl⟩ : ∃ f, fuel = f + 2 := ⟨fuel - 2, by simp at hfuel; omega⟩
    rcases Nat.eq_zero_or_pos n with h0 | hpos
    · subst h0
      refine ⟨c, ?_, rfl, rfl, ⟨0, by simpa using hout⟩, ⟨[], by simp, by simp⟩, fun _ => rfl, ?_⟩
      · rw [send_chunk_succ]; simp [wrapInt32_of_range h1 h2]
      · intro hb _ _
        have : buf = [] := List.length_eq_zero.1 hb.symm
        simp [this]
    · have hlen : (buf.take n).length = n := by simp [List.length_take]; omega
      have hp : (n : Int) > 0 := by exact_mod_cast hpos
      have hne : ¬ ((n : Int) = SOCKET_ERROR) := by unfold SOCKET_ERROR; omega
      refine ⟨{ c with os := (c.os.send (buf.take n)).2 }, ?_, rfl, ?_, ⟨0, ?_⟩,
        ⟨[Op.send n n], ?_, ?_⟩, ?_, ?_⟩
      · rw [send_chunk_succ, if_pos hp, Int.toNat_ofNat, Sock.send_nil _ _ hout, hlen]
        simp only [hne, if_false, sub_self]
        rw [send_chunk_succ]; simp
      · rw [Sock.send_nil _ _ hout]
      · rw [Sock.send_nil _ _ hout]; simpa using hout
      · rw [Sock.send_nil _ _ hout, hlen]
      · intro op hop
        simp at hop
        exact ⟨n, n, hop, hn⟩
      · intro h; omega
      · intro hb _ _
        rw [Sock.send_nil _ _ hout, hb, List.take_length]
  | cons e r ih =>
    intro fuel c n total hout hnf hn hfuel h1 h2
    obtain ⟨f, rfl⟩ : ∃ f, fuel = f + 1 := ⟨fuel - 1, by simp at hfuel; omega⟩
    rcases Nat.eq_zero_or_pos n with h0 | hpos
    · subst h0
      refine ⟨c, ?_, rfl, rfl, ⟨0, by simpa using hout⟩, ⟨[], by simp, by simp⟩, fun _ => rfl, ?_⟩
      · rw [send_chunk_succ]; simp [wrapInt32_of_range h1 h2]
      · intro hb _ _
        have : buf = [] := List.length_eq_zero.1 hb.symm
        simp [this]
    · cases e with
      | fail => exact absurd rfl (hnf _ (List.mem_cons_self _ _))
      | room k =>
        have hlen : (buf.take n).length = n := by simp [List.length_take]; omega
        have hw := wrapInt32_range (total + ((min k n : Nat) : Int))
        have hp : (n : Int) > 0 := by exact_mod_cast hpos
        have hne : ¬ (((min k n : Nat) : Int) = SOCKET_ERROR) := by unfold SOCKET_ERROR; omega
        have hsend := Sock.send_room c.os (buf.take n) k r hout
        rw [hlen] at hsend
        obtain ⟨c', hres, hs, hi, ⟨j, hj⟩, ⟨ops, hops, hall⟩, hzero, _⟩ :=
          ih f { c with os := (c.os.send (buf.take n)).2 } (n - min k n)
            (wrapInt32 (total + ((min k n : Nat) : Int)))
            (by rw [hsend])
            (fun e he => hnf e (List.mem_cons_of_mem _ he))
            (by omega) (by simp at hfuel ⊢; omega) hw.1 hw.2
        refine ⟨c', ?_, hs, ?_, ⟨j + 1, by simpa using hj⟩,
          ⟨Op.send n (min k n : Nat) :: ops, ?_, ?_⟩, ?_, ?_⟩
        · rw [send_chunk_succ, if_pos hp, Int.toNat_ofNat]
          have h1' : (c.os.send (buf.take n)).1 = ((min k n : Nat) : Int) := by rw [hsend]
          rw [h1', if_neg hne]
          have hsub : (n : Int) - ((min k n : Nat) : Int) = ((n - min k n : Nat) : Int) := by omega
          rw [hsub, hres, wrapInt32_add_left]
          congr 2; omega
        · rw [hi, hsend]
        · rw [hops, hsend]; simp
        · intro op hop
          rcases List.mem_cons.1 hop with h | h
          · exact ⟨n, (min k n : Nat), h, hn⟩
          · exact hall op h
        · intro h; omega
        · intro hb hacc hC
          have hk : CHUNK_SIZE ≤ k := by
            have := hacc _ (List.mem_cons_self _ _)
            simpa [WriteEvent.acceptsChunk] using this
          have hmin : min k n = n := by omega
          rw [hzero (by omega), hsend, hmin, hb, List.take_length, List.take_length]

theorem send_loop_succ (fuel : Nat) (c : Connection) (data : StdStream) (total : Int) :
    Connection.send_loop (fuel + 1) c data total =
      if data.good then
        if !(data.read CHUNK_SIZE).2.good && (data.read CHUNK_SIZE).1.length == 0 then
          Res.ok total (c, (data.read CHUNK_SIZE).2)
        else
          match Connection.send_chunk fuel c (data.read CHUNK_SIZE).1
              ((data.read CHUNK_SIZE).1.length : Int) total with
          | Res.ok total c1 => Connection.send_loop fuel c1 (data.read CHUNK_SIZE).2 total
          | Res.throw e c1 => Res.throw e (c1, (data.read CHUNK_SIZE).2)
          | Res.outOfFuel => Res.outOfFuel
      else Res.ok total (c, data) := rfl

theorem CHUNK_SIZE_pos : 0 < CHUNK_SIZE := by decide

theorem send_loop_ok :
    ∀ (fuel : Nat) (c : Connection) (data : StdStream) (total : Int),
      data.good = true → (∀ e ∈ c.os.outgoing, e ≠ WriteEvent.fail) →
      data.unread.length + c.os.outgoing.length + 3 ≤ fuel →
      -2 ^ 31 ≤ total → total < 2 ^ 31 →
      ∃ c' data', Connection.send_loop fuel c data total
              = Res.ok (wrapInt32 (total + data.unread.length)) (c', data')
        ∧ data'.eofbit = true
        ∧ c'.socket_ = c.socket_ ∧ c'.os.incoming = c.os.incoming
        ∧ (∃ k, c'.os.outgoing = c.os.outgoing.drop k)
        ∧ (∃ ops, c'.os.trace = c.os.trace ++ ops
            ∧ ∀ op ∈ ops, ∃ req ret, op = Op.send req ret ∧ req ≤ CHUNK_SIZE)
        ∧ (∃ rs, data'.reads = data.reads ++ rs ∧ ∀ r ∈ rs, r ≤ CHUNK_SIZE)
        ∧ (data.unread = [] → c' = c)
        ∧ ((∀ e ∈ c.os.outgoing, e.acceptsChunk = true) →
            c'.os.wire = c.os.wire ++ data.unread) := by
  intro fuel
  induction fuel with
  | zero => intro c data total _ _ hf; omega
  | succ f ih =>
    intro c data total hgood hnf hf h1 h2
    have hC := CHUNK_SIZE_pos
    have hfst := StdStream.read_fst data CHUNK_SIZE hgood
    have hun := StdStream.read_unread data CHUNK_SIZE hgood
    have hgd := StdStream.read_good data CHUNK_SIZE hgood
    have heof := StdStream.read_eofbit data CHUNK_SIZE hgood
    have hrd := StdStream.read_reads data CHUNK_SIZE hgood
    rw [send_loop_succ, if_pos hgood]
    by_cases hshort : data.unread.length < CHUNK_SIZE
    · -- the last, short chunk
      have hgd' : (data.read CHUNK_SIZE).2.good = false := by
        rw [hgd, decide_eq_false_iff_not]; omega
      have heof' : (data.read CHUNK_SIZE).2.eofbit = true := by
        rw [heof, decide_eq_true_iff]; exact hshort
      have htake : (data.read CHUNK_SIZE).1 = data.unread := by
        rw [hfst, List.take_of_length_le (by omega)]
      have hrs : ∀ r ∈ [min CHUNK_SIZE data.unread.length], r ≤ CHUNK_SIZE := by
        intro r hr; simp at hr; omega
      by_cases hnil : data.unread = []
      · refine ⟨c, (data.read CHUNK_SIZE).2, ?_, heof', rfl, rfl, ⟨0, rfl⟩, ⟨[], by simp, by simp⟩,
          ⟨_, hrd, hrs⟩, fun _ => rfl, fun _ => by simp [hnil]⟩
        rw [htake, hgd', hnil]
        simp [wrapInt32_of_range h1 h2]
      · have hlenpos : 0 < data.unread.length := List.length_pos.2 hnil
        obtain ⟨c1, hres, hs, hi, ⟨k, hk⟩, ⟨ops, hops, hall⟩, _, hwire⟩ :=
          send_chunk_ok data.unread c.os.outgoing f c data.unread.length total rfl hnf
            (Nat.le_refl _) (by omega) h1 h2
        obtain ⟨f', rfl⟩ : ∃ f', f = f' + 1 := ⟨f - 1, by omega⟩
        refine ⟨c1, (data.read CHUNK_SIZE).2, ?_, heof', hs, hi, ⟨k, hk⟩, ⟨ops, hops, ?_⟩,
          ⟨_, hrd, hrs⟩, fun h => absurd h hnil, fun hacc => hwire rfl hacc (by omega)⟩
        · rw [htake, hgd']
          have hne : (data.unread.length == 0) = false := by
            rw [beq_eq_false_iff_ne]; omega
          simp only [hne, Bool.and_false, Bool.not_false]
          rw [hres]
          simp only [Bool.false_eq_true, if_false]
          rw [send_loop_succ, hgd']
          simp
        · intro op hop
          obtain ⟨req, ret, h, hle⟩ := hall op hop
          exact ⟨req, ret, h, by omega⟩
    · -- a full chunk
      have hge : CHUNK_SIZE ≤ data.unread.length := by omega
      have hgd' : (data.read CHUNK_SIZE).2.good = true := by
        rw [hgd, decide_eq_true_iff]; exact hge
      have hlen : (data.read CHUNK_SIZE).1.length = CHUNK_SIZE := by
        rw [hfst, List.length_take]; omega
      have hrs : ∀ r ∈ [min CHUNK_SIZE data.unread.length], r ≤ CHUNK_SIZE := by
        intro r hr; simp at hr; omega
      obtain ⟨c1, hres, hs, hi, ⟨k, hk⟩, ⟨ops, hops, hall⟩, _, hwire⟩ :=
        send_chunk_ok (data.read CHUNK_SIZE).1 c.os.outgoing f c CHUNK_SIZE total rfl hnf
          (by omega) (by omega) h1 h2
      have hw := wrapInt32_range (total + (CHUNK_SIZE : Int))
      have hlen1 : c1.os.outgoing.length ≤ c.os.outgoing.length := by
        rw [hk, List.length_drop]; omega
      have hul : (data.read CHUNK_SIZE).2.unread.length = data.unread.length - CHUNK_SIZE := by
        rw [hun, List.length_drop]
      obtain ⟨c2, d2, hres2, heof2, hs2, hi2, ⟨k2, hk2⟩, ⟨ops2, hops2, hall2⟩, ⟨rs2, hrs2, hrall2⟩,
          _, hwire2⟩ :=
        ih c1 (data.read CHUNK_SIZE).2 (wrapInt32 (total + (CHUNK_SIZE : Int))) hgd'
          (by intro e he; rw [hk] at he; exact hnf e (List.mem_of_mem_drop he))
          (by omega) hw.1 hw.2
      refine ⟨c2, d2, ?_, heof2, by rw [hs2, hs], by rw [hi2, hi], ⟨k + k2, ?_⟩,
        ⟨ops ++ ops2, ?_, ?_⟩, ⟨min CHUNK_SIZE data.unread.length :: rs2, ?_, ?_⟩, ?_, ?_⟩
      · rw [hgd', hlen]
        have hne : (CHUNK_SIZE == 0) = false := by decide
        simp only [hne, Bool.and_false, Bool.false_eq_true, if_false]
        rw [hres]
        simp only []
        rw [hres2, wrapInt32_add_left, hul]
        congr 2
        omega
      · rw [hk2, hk, List.drop_drop, Nat.add_comm]
      · rw [hops2, hops, List.append_assoc]
      · intro op hop
        rcases List.mem_append.1 hop with h | h
        · obtain ⟨req, ret, h', hle⟩ := hall op h
          exact ⟨req, ret, h', by omega⟩
        · exact hall2 op h
      · rw [hrs2, hrd]; simp
      · intro r hr
        rcases List.mem_cons.1 hr with h | h
        · omega
        · exact hrall2 r h
      · intro h; rw [h] at hge; simp at hge; omega
      · intro hacc
        rw [hwire2 (by intro e he; rw [hk] at he; exact hacc e (List.mem_of_mem_drop he)),
          hwire hlen.symm hacc (by omega), hun, hfst, List.append_assoc, List.take_append_drop]

/-! ## Encoding a message -/

theorem encode_good (m : Message) : (encode m).good = true := by
  simp [encode, NetworkDataStream.write_str, NetworkDataStream.put_u16, NetworkDataStream.put_u64,
    NetworkDataStream.put_MSGID, NetworkDataStream.put_u8, StdStream.write, StdStream.good,
    StdStream.empty]
  split <;> simp

theorem encode_unread (m : Message) :
    (encode m).unread =
      [byteOf m.msgid, byteOf (m.length / 256), byteOf m.length,
       byteOf (m.datalen / 256 ^ 7), byteOf (m.datalen / 256 ^ 6), byteOf (m.datalen / 256 ^ 5),
       byteOf (m.datalen / 256 ^ 4), byteOf (m.datalen / 256 ^ 3), byteOf (m.datalen / 256 ^ 2),
       byteOf (m.datalen / 256), byteOf m.datalen,
       byteOf (m.port / 256), byteOf m.port] ++ m.payload := by
  simp [encode, NetworkDataStream.write_str, NetworkDataStream.put_u16, NetworkDataStream.put_u64,
    NetworkDataStream.put_MSGID, NetworkDataStream.put_u8, StdStream.write, StdStream.good,
    StdStream.empty, StdStream.unread]
  split <;> simp_all

theorem length_of_le (m : Message) (h : m.payload.length ≤ MAX_PAYLOAD_LEN) :
    m.length = 13 + m.payload.length := by
  unfold Message.length MESSAGE_BYTE_LEN
  unfold MAX_PAYLOAD_LEN at h
  omega

theorem send_chunk_throw :
    ∀ (fuel : Nat) (c : Connection) (buf : List Byte) (n total : Int) (e : Exn) (s : Connection),
      Connection.send_chunk fuel c buf n total = Res.throw e s → e = Exn.send_failed := by
  intro fuel
  induction fuel with
  | zero => intro c buf n total e s h; simp [Connection.send_chunk] at h
  | succ f ih =>
    intro c buf n total e s h
    rw [send_chunk_succ] at h
    split at h
    · split at h
      · injection h with h1 _; exact h1.symm
      · exact ih _ _ _ _ _ _ h
    · simp at h

theorem send_loop_throw :
    ∀ (fuel : Nat) (c : Connection) (data : StdStream) (total : Int) (e : Exn)
      (s : Connection × StdStream),
      Connection.send_loop fuel c data total = Res.throw e s → e = Exn.send_failed := by
  intro fuel
  induction fuel with
  | zero => intro c data total e s h; simp [Connection.send_loop] at h
  | succ f ih =>
    intro c data total e s h
    rw [send_loop_succ] at h
    split at h
    · split at h
      · simp at h
      · split at h
        · exact ih _ _ _ _ _ h
        · rename_i e1 c1 heq
          injection h with h1 _
          rw [← h1]; exact send_chunk_throw _ _ _ _ _ _ _ heq
        · simp at h
    · simp at h

theorem send_stream_throw (fuel : Nat) (c : Connection) (data : StdStream) (e : Exn)
    (s : Connection × StdStream) (h : Connection.send_stream fuel c data = Res.throw e s) :
    e = Exn.send_failed ∨ e = Exn.not_all_sent := by
  unfold Connection.send_stream at h
  split at h
  · split at h
    · simp at h
    · injection h with h1 _; exact Or.inr h1.symm
  · rename_i r hr
    exact Or.inl (send_loop_throw _ _ _ _ _ _ h)

/-- The count `send(NetworkDataStream&)` returns for a good source when no
write fails: the number of bytes of the source as an `int`. -/
theorem send_stream_wrap (fuel : Nat) (c : Connection) (data : StdStream)
    (hgood : data.good = true) (hnf : ∀ e ∈ c.os.outgoing, e ≠ WriteEvent.fail)
    (hfuel : data.unread.length + c.os.outgoing.length + 3 ≤ fuel) :
    ∃ c' data', Connection.send_stream fuel c data
            = Res.ok (wrapInt32 (data.unread.length : Int)) (c', data')
      ∧ c'.socket_ = c.socket_ ∧ c'.os.incoming = c.os.incoming
      ∧ (∃ k, c'.os.outgoing = c.os.outgoing.drop k)
      ∧ (∃ ops, c'.os.trace = c.os.trace ++ ops
          ∧ ∀ op ∈ ops, ∃ req ret, op = Op.send req ret ∧ req ≤ CHUNK_SIZE)
      ∧ (∃ rs, data'.reads = data.reads ++ rs ∧ ∀ r ∈ rs, r ≤ CHUNK_SIZE)
      ∧ (data.unread = [] → c' = c)
      ∧ ((∀ e ∈ c.os.outgoing, e.acceptsChunk = true) →
          c'.os.wire = c.os.wire ++ data.unread) := by
  obtain ⟨c', d', hres, heof, rest⟩ :=
    send_loop_ok fuel c data 0 hgood hnf hfuel (by norm_num) (by norm_num)
  refine ⟨c', d', ?_, rest⟩
  unfold Connection.send_stream
  rw [hres]
  simp [StdStream.eof, heof]

theorem beVal_two (v : Nat) (h : v < 2 ^ 16) : beVal [byteOf (v / 256), byteOf v] = v := by
  simp only [beVal, byteOf, List.foldl]
  omega

theorem beVal_eight (v : Nat) (h : v < 2 ^ 64) :
    beVal [byteOf (v / 256 ^ 7), byteOf (v / 256 ^ 6), byteOf (v / 256 ^ 5),
      byteOf (v / 256 ^ 4), byteOf (v / 256 ^ 3), byteOf (v / 256 ^ 2),
      byteOf (v / 256), byteOf v] = v := by
  simp only [beVal, byteOf, List.foldl]
  norm_num at h ⊢
  omega

/-- C2. `Connection::send(const Message&)` throws the `std::invalid_argument` of
the length check for every payload longer than `MAX_PAYLOAD_LEN` = 1024 bytes
and leaves the connection as it was (no byte written, no system call); for a
payload of at most 1024 bytes that check passes, the message is encoded into a
good stream of 13 + length bytes, and `send` never throws that error. -/
theorem send_payload_limit (fuel : Nat) (c : Connection) (m : Message) :
    MAX_PAYLOAD_LEN = 1024 ∧
    (1024 < m.payload.length →
      Connection.send fuel c m = Res.throw Exn.payload_too_long c) ∧
    (m.payload.length ≤ 1024 →
      (encode m).good = true ∧ (encode m).unread.length = 13 + m.payload.length ∧
      ∀ s, Connection.send fuel c m ≠ Res.throw Exn.payload_too_long s) := by
  refine ⟨rfl, ?_, ?_⟩
  · intro h
    unfold Connection.send
    rw [if_pos (by unfold MAX_PAYLOAD_LEN; exact h)]
  · intro h
    refine ⟨encode_good m, by rw [encode_unread]; simp; omega, ?_⟩
    intro s hs
    unfold Connection.send at hs
    rw [if_neg (by unfold MAX_PAYLOAD_LEN; omega)] at hs
    split at hs
    · simp at hs
    · rename_i e c1 d1 heq
      injection hs with h1 _
      rcases send_stream_throw _ _ _ _ _ heq with h2 | h2 <;> rw [h2] at h1 <;> simp at h1
    · simp at hs

/-- Witness for C2: a payload of 1025 bytes is refused, one of 1024 bytes is encoded. -/
theorem send_payload_limit_witness :
    Connection.send 5 { socket_ := 3, os := { incoming := [], outgoing := [], wire := [], trace := [] } }
        { msgid := 2, msglen := 1038, datalen := 0, port := 0, payload := List.replicate 1025 0 }
      = Res.throw Exn.payload_too_long
          { socket_ := 3, os := { incoming := [], outgoing := [], wire := [], trace := [] } } ∧
    (encode { msgid := 2, msglen := 1037, datalen := 0, port := 0,
              payload := List.replicate 1024 0 }).good = true :=
  ⟨(send_payload_limit 5 _ _).2.1
      (by show 1024 < (List.replicate 1025 (0 : Byte)).length
          rw [List.length_replicate]; decide),
    ((send_payload_limit 5
      { socket_ := 3, os := { incoming := [], outgoing := [], wire := [], trace := [] } }
      { msgid := 2, msglen := 1037, datalen := 0, port := 0,
        payload := List.replicate 1024 0 }).2.2
      (by show (List.replicate 1024 (0 : Byte)).length ≤ 1024
          rw [List.length_replicate])).1⟩

theorem noFail_of_acceptsChunk (out : List WriteEvent)
    (h : ∀ e ∈ out, e.acceptsChunk = true) : ∀ e ∈ out, e ≠ WriteEvent.fail := by
  intro e he hfail
  have := h e he
  rw [hfail] at this
  simp [WriteEvent.acceptsChunk] at this

/-- C3. When every `::send` call takes the chunk it is given, the bytes
`Connection::send(const Message&)` puts on the wire for a message with a
payload of `L ≤ 1024` bytes are 13 + `L` bytes: byte 0 is `msgid`, bytes 1..2
are 13 + `L` in big-endian order (whatever `msglen` holds), bytes 3..10 are
`datalen` in big-endian order (`datalen = 1` gives `00 00 00 00 00 00 00 01`),
bytes 11..12 are the port or error code in big-endian order, and the rest is
the payload unchanged; the call returns 13 + `L`. The message codes are
LS=1, GET=2, PUT=3, QUIT=4, HELLO=32, OK=128, ERROR=200. -/
theorem send_wire_layout (fuel : Nat) (c : Connection) (m : Message)
    (hL : m.payload.length ≤ 1024)
    (hid : m.msgid < 2 ^ 8) (hd : m.datalen < 2 ^ 64) (hp : m.port < 2 ^ 16)
    (hfull : ∀ e ∈ c.os.outgoing, e.acceptsChunk = true)
    (hfuel : m.payload.length + c.os.outgoing.length + 16 ≤ fuel) :
    ∃ c' w, Connection.send fuel c m = Res.ok ((13 + m.payload.length : Nat) : Int) c'
      ∧ c'.os.wire = c.os.wire ++ w
      ∧ w.length = 13 + m.payload.length
      ∧ (w.take 1).map Fin.val = [m.msgid]
      ∧ beVal ((w.drop 1).take 2) = 13 + m.payload.length
      ∧ beVal ((w.drop 3).take 8) = m.datalen
      ∧ beVal ((w.drop 11).take 2) = m.port
      ∧ w.drop 13 = m.payload
      ∧ (m.datalen = 1 → (w.drop 3).take 8 = [0, 0, 0, 0, 0, 0, 0, 1])
      ∧ [MESSAGE_LS, MESSAGE_GET, MESSAGE_PUT, MESSAGE_QUIT, MESSAGE_HELLO, MESSAGE_OK,
          MESSAGE_ERROR] = [1, 2, 3, 4, 32, 128, 200] := by
  have hun := encode_unread m
  have hlen := length_of_le m (by unfold MAX_PAYLOAD_LEN; exact hL)
  have hlenu : (encode m).unread.length = 13 + m.payload.length := by
    rw [hun]; simp; omega
  obtain ⟨c', d', hres, _, _, _, _, _, _, hwire⟩ :=
    send_stream_wrap fuel c (encode m) (encode_good m)
      (noFail_of_acceptsChunk _ hfull) (by rw [hlenu]; omega)
  refine ⟨c', (encode m).unread, ?_, hwire hfull, hlenu, ?_, ?_, ?_, ?_, ?_,
    ?_, rfl⟩
  · unfold Connection.send
    rw [if_neg (by unfold MAX_PAYLOAD_LEN; omega), hres, hlenu]
    simp only []
    rw [wrapInt32_of_range (by omega) (by omega)]
  · rw [hun]; simp [byteOf]; omega
  · rw [hun, hlen]
    exact beVal_two _ (by omega)
  · rw [hun]
    exact beVal_eight _ hd
  · rw [hun]
    exact beVal_two _ hp
  · rw [hun]; simp
  · intro h1
    rw [hun, h1]
    rfl

/-- Witness for C3: a GET message with `datalen = 1` and a three-byte payload. -/
theorem send_wire_layout_witness :
    ∃ c' w, Connection.send 20
          { socket_ := 3, os := { incoming := [], outgoing := [], wire := [], trace := [] } }
          { msgid := 2, msglen := 0, datalen := 1, port := 258, payload := [7, 8, 9] }
        = Res.ok ((13 + 3 : Nat) : Int) c'
      ∧ c'.os.wire = [] ++ w
      ∧ w.length = 13 + 3
      ∧ (w.take 1).map Fin.val = [2]
      ∧ beVal ((w.drop 1).take 2) = 13 + 3
      ∧ beVal ((w.drop 3).take 8) = 1
      ∧ beVal ((w.drop 11).take 2) = 258
      ∧ w.drop 13 = [7, 8, 9]
      ∧ (1 = 1 → (w.drop 3).take 8 = [0, 0, 0, 0, 0, 0, 0, 1])
      ∧ [MESSAGE_LS, MESSAGE_GET, MESSAGE_PUT, MESSAGE_QUIT, MESSAGE_HELLO, MESSAGE_OK,
          MESSAGE_ERROR] = [1, 2, 3, 4, 32, 128, 200] :=
  send_wire_layout 20
    { socket_ := 3, os := { incoming := [], outgoing := [], wire := [], trace := [] } }
    { msgid := 2, msglen := 0, datalen := 1, port := 258, payload := [7, 8, 9] }
    (by decide) (by decide) (by decide) (by decide) (by simp) (by decide)

/-- C4 (the code at the failing input). A source of the four bytes 1 2 3 4 and a
socket whose first `::send` call takes only two bytes: the second call is given
the start of the buffer again, so the wire holds 1 2 1 2 while the call
returns 4. -/
theorem send_stream_short_write :
    Connection.send_stream 10
        { socket_ := 3,
          os := { incoming := [], outgoing := [WriteEvent.room 2], wire := [], trace := [] } }
        (StdStream.ofBytes [1, 2, 3, 4])
      = Res.ok 4
          ({ socket_ := 3,
             os := { incoming := [], outgoing := [], wire := [1, 2, 1, 2],
                     trace := [Op.send 4 2, Op.send 2 2] } },
           { buf := [1, 2, 3, 4], gpos := 4, eofbit := true, failbit := true, reads := [4] }) := by
  decide

/-! ## What the socket takes -/

theorem bytesTaken_append (a b : List Op) : bytesTaken (a ++ b) = bytesTaken a + bytesTaken b := by
  induction a with
  | nil => simp [bytesTaken]
  | cons x r ih =>
    have ih2 : bytesTaken (r.append b) = bytesTaken r + bytesTaken b := ih
    cases x <;> simp only [List.cons_append, bytesTaken] <;> omega

theorem Sock.send_wire (s : Sock) (data : List Byte) :
    (s.send data).1 = SOCKET_ERROR
    ∨ (0 ≤ (s.send data).1 ∧ (s.send data).1 ≤ (data.length : Int)
        ∧ (((s.send data).2.wire.length : Nat) : Int) = (s.wire.length : Int) + (s.send data).1
        ∧ (s.send data).2.trace = s.trace ++ [Op.send data.length (s.send data).1]) := by
  unfold Sock.send
  cases h : s.outgoing with
  | nil =>
    right
    simp
  | cons e r =>
    cases e with
    | fail => left; rfl
    | room k =>
      right
      simp only [List.length_append, List.length_take]
      refine ⟨by omega, by omega, by push_cast; omega, trivial⟩

/-- Whenever the inner loop of `send` returns, the socket has taken exactly
`bytesLeft` bytes more, and the `::send` calls made report that many. -/
theorem send_chunk_wire :
    ∀ (fuel : Nat) (c : Connection) (buf : List Byte) (n : Nat) (total r : Int)
      (c1 : Connection), n ≤ buf.length →
      Connection.send_chunk fuel c buf (n : Int) total = Res.ok r c1 →
      c1.os.wire.length = c.os.wire.length + n
        ∧ ∃ ops, c1.os.trace = c.os.trace ++ ops ∧ bytesTaken ops = (n : Int)
            ∧ (0 < n → ops ≠ []) := by
  intro fuel
  induction fuel with
  | zero => intro c buf n total r c1 _ h; simp [Connection.send_chunk] at h
  | succ f ih =>
    intro c buf n total r c1 hn h
    rw [send_chunk_succ] at h
    by_cases hpos : (n : Int) > 0
    · rw [if_pos hpos, Int.toNat_ofNat] at h
      have hlen : (buf.take n).length = n := by rw [List.length_take]; omega
      rcases Sock.send_wire c.os (buf.take n) with hf | ⟨h0, h1, h2, h3⟩
      · rw [if_pos hf] at h; simp at h
      · rw [hlen] at h1
        have hne : ¬ ((c.os.send (buf.take n)).1 = SOCKET_ERROR) := by
          unfold SOCKET_ERROR; omega
        rw [if_neg hne] at h
        obtain ⟨k, hk⟩ : ∃ k : Nat, (c.os.send (buf.take n)).1 = (k : Int) :=
          ⟨(c.os.send (buf.take n)).1.toNat, by omega⟩
        rw [hk] at h h1 h2 h3
        have hsub : (n : Int) - (k : Int) = ((n - k : Nat) : Int) := by omega
        rw [hsub] at h
        obtain ⟨i1, ops, i2, i3, _⟩ := ih _ buf (n - k) _ r c1 (by omega) h
        simp only [] at i1 i2
        refine ⟨by omega, Op.send (buf.take n).length (k : Int) :: ops, ?_, ?_, ?_⟩
        · rw [i2, h3, List.append_assoc]; rfl
        · show (k : Int) + bytesTaken ops = (n : Int)
          rw [i3]; omega
        · intro _; exact List.cons_ne_nil _ _
    · rw [if_neg hpos] at h
      simp only [Res.ok.injEq] at h
      rw [← h.2]
      refine ⟨by omega, [], by simp, ?_, by omega⟩
      show (0 : Int) = (n : Int)
      omega

/-- Whenever `send(NetworkDataStream&)` returns, the source has been read to
its end, the reads add up to what the source had, the socket has taken exactly
that many bytes and the `::send` calls made report that many. -/
theorem send_loop_wire :
    ∀ (fuel : Nat) (c : Connection) (data : StdStream) (total r : Int) (c1 : Connection)
      (data1 : StdStream), data.good = true →
      Connection.send_loop fuel c data total = Res.ok r (c1, data1) →
      c1.os.wire.length = c.os.wire.length + data.unread.length ∧ data1.unread = []
        ∧ (∃ ops, c1.os.trace = c.os.trace ++ ops
            ∧ bytesTaken ops = (data.unread.length : Int)
            ∧ (data.unread ≠ [] → ops ≠ []))
        ∧ (∃ rs, data1.reads = data.reads ++ rs ∧ rs.sum = data.unread.length) := by
  intro fuel
  induction fuel with
  | zero => intro c data total r c1 data1 _ h; simp [Connection.send_loop] at h
  | succ f ih =>
    intro c data total r c1 data1 hgood h
    have hC := CHUNK_SIZE_pos
    have hfst := StdStream.read_fst data CHUNK_SIZE hgood
    have hun := StdStream.read_unread data CHUNK_SIZE hgood
    have hg1 := StdStream.read_good data CHUNK_SIZE hgood
    have hrd := StdStream.read_reads data CHUNK_SIZE hgood
    rw [send_loop_succ, if_pos hgood] at h
    split at h
    · rename_i hstop
      simp only [Bool.and_eq_true, Bool.not_eq_true', beq_iff_eq] at hstop
      simp only [Res.ok.injEq, Prod.mk.injEq] at h
      obtain ⟨_, hc, hd⟩ := h
      rw [hfst, List.length_take] at hstop
      have h0 : data.unread.length = 0 := by omega
      rw [← hc, ← hd, hun, h0]
      refine ⟨rfl, by rw [List.drop_eq_nil_of_le (by omega)], ⟨[], by simp, rfl, ?_⟩, ?_⟩
      · intro hne; exact absurd (List.length_eq_zero.mp h0) hne
      · rw [hrd, h0]
        exact ⟨[min CHUNK_SIZE 0], rfl, by simp⟩
    · cases hs : Connection.send_chunk f c (data.read CHUNK_SIZE).1
          ((data.read CHUNK_SIZE).1.length : Int) total with
      | outOfFuel => rw [hs] at h; simp at h
      | throw e c2 => rw [hs] at h; simp at h
      | ok t2 c2 =>
        rw [hs] at h
        simp only [] at h
        obtain ⟨hw, ops1, ho1, ho2, ho3⟩ := send_chunk_wire f c _ _ total t2 c2 (le_refl _) hs
        rw [hfst, List.length_take] at hw ho2 ho3
        by_cases hg : (data.read CHUNK_SIZE).2.good = true
        · obtain ⟨i1, i2, ⟨ops2, j1, j2, _⟩, ⟨rs2, k1, k2⟩⟩ := ih c2 _ t2 r c1 data1 hg h
          rw [hg1, decide_eq_true_iff] at hg
          rw [hun, List.length_drop] at i1 j2 k2
          refine ⟨by omega, i2, ⟨ops1 ++ ops2, ?_, ?_, ?_⟩,
            ⟨min CHUNK_SIZE data.unread.length :: rs2, ?_, ?_⟩⟩
          · rw [j1, ho1, List.append_assoc]
          · rw [bytesTaken_append, ho2, j2]; omega
          · intro _ hnil
            have := (List.append_eq_nil.mp hnil).1
            exact ho3 (by omega) this
          · rw [k1, hrd, List.append_assoc]; rfl
          · rw [List.sum_cons, k2]; omega
        · -- the stream is at its end: the next round returns at once
          have hbad : (data.read CHUNK_SIZE).2.good = false := by simpa using hg
          rw [hg1, decide_eq_false_iff_not] at hbad
          cases f with
          | zero => simp [Connection.send_loop] at h
          | succ f2 =>
            rw [send_loop_succ, if_neg hg] at h
            simp only [Res.ok.injEq, Prod.mk.injEq] at h
            obtain ⟨_, hc, hd⟩ := h
            rw [← hc, ← hd, hun]
            refine ⟨by omega, by rw [List.drop_eq_nil_of_le (by omega)], ⟨ops1, ho1, ?_, ?_⟩,
              ⟨[min CHUNK_SIZE data.unread.length], hrd, ?_⟩⟩
            · rw [ho2]; omega
            · intro hne
              have : 0 < data.unread.length := List.length_pos.mpr hne
              exact ho3 (by omega)
            · simp only [List.sum_cons, List.sum_nil]; omega

theorem send_stream_wire (fuel : Nat) (c : Connection) (data : StdStream) (r : Int)
    (c1 : Connection) (data1 : StdStream) (hgood : data.good = true)
    (h : Connection.send_stream fuel c data = Res.ok r (c1, data1)) :
    c1.os.wire.length = c.os.wire.length + data.unread.length ∧ data1.unread = []
      ∧ data1.eofbit = true
      ∧ (∃ ops, c1.os.trace = c.os.trace ++ ops
            ∧ bytesTaken ops = (data.unread.length : Int)
            ∧ (data.unread ≠ [] → ops ≠ []))
      ∧ (∃ rs, data1.reads = data.reads ++ rs ∧ rs.sum = data.unread.length) := by
  unfold Connection.send_stream at h
  cases hl : Connection.send_loop fuel c data 0 with
  | outOfFuel => rw [hl] at h; simp at h
  | throw e s => rw [hl] at h; simp at h
  | ok t s =>
    obtain ⟨c2, d2⟩ := s
    rw [hl] at h
    simp only [] at h
    split at h
    · rename_i heof
      simp only [Res.ok.injEq, Prod.mk.injEq] at h
      obtain ⟨_, hc, hd⟩ := h
      obtain ⟨i1, i2, i3, i4⟩ := send_loop_wire fuel c data 0 t c2 d2 hgood hl
      rw [← hc, ← hd]
      exact ⟨i1, i2, by simpa [StdStream.eof] using heof, i3, i4⟩
    · simp at h

/-- C5 (amended). For a good byte source of `N < 2^31` unread bytes and a socket
on which no `::send` call fails, `Connection::send(NetworkDataStream&)` returns
`N`. It reads the source to its end: every `read` yields at most `CHUNK_SIZE` =
32768 bytes and the reads add up to `N`. It writes to the socket: every `::send`
call asks for at most 32768 bytes, the counts the calls report add up to `N`
(so at least one call is made when `N > 0`), and the socket has taken exactly
`N` bytes more; when each call takes all it is given, what the socket has taken
is the source, byte for byte. For `N = 0` it returns 0 and leaves the
connection untouched (no `::send` call at all). -/
theorem send_stream_count (fuel : Nat) (c : Connection) (data : StdStream)
    (hgood : data.good = true) (hnf : ∀ e ∈ c.os.outgoing, e ≠ WriteEvent.fail)
    (hN : data.unread.length < 2 ^ 31)
    (hfuel : data.unread.length + c.os.outgoing.length + 3 ≤ fuel) :
    CHUNK_SIZE = 32768 ∧
    ∃ c' data', Connection.send_stream fuel c data
            = Res.ok (data.unread.length : Int) (c', data')
      ∧ data'.unread = [] ∧ data'.eofbit = true
      ∧ (∃ rs, data'.reads = data.reads ++ rs ∧ (∀ r ∈ rs, r ≤ 32768)
          ∧ rs.sum = data.unread.length)
      ∧ (∃ ops, c'.os.trace = c.os.trace ++ ops
          ∧ (∀ op ∈ ops, ∃ req ret, op = Op.send req ret ∧ req ≤ 32768)
          ∧ bytesTaken ops = (data.unread.length : Int)
          ∧ (data.unread ≠ [] → ops ≠ []))
      ∧ c'.os.wire.length = c.os.wire.length + data.unread.length
      ∧ ((∀ e ∈ c.os.outgoing, e.acceptsChunk = true) →
          c'.os.wire = c.os.wire ++ data.unread)
      ∧ (data.unread = [] → c' = c) := by
  obtain ⟨c', d', hres, _, _, _, ⟨ops, hops, hreq⟩, ⟨rs, hrs, hle⟩, hnil, hfull⟩ :=
    send_stream_wrap fuel c data hgood hnf hfuel
  obtain ⟨hlen, hun, heof, ⟨ops2, hops2, hsum, hne⟩, ⟨rs2, hrs2, hrsum⟩⟩ :=
    send_stream_wire fuel c data _ c' d' hgood hres
  have e1 : ops2 = ops := List.append_cancel_left (hops2.symm.trans hops)
  have e2 : rs2 = rs := List.append_cancel_left (hrs2.symm.trans hrs)
  rw [e1] at hsum hne
  rw [e2] at hrsum
  rw [wrapInt32_of_range (by omega) (by omega)] at hres
  exact ⟨rfl, c', d', hres, hun, heof, ⟨rs, hrs, hle, hrsum⟩, ⟨ops, hops, hreq, hsum, hne⟩,
    hlen, hfull, hnil⟩

/-- Witness for C5: five bytes through a socket that takes them two at a time
at first, and five bytes through a socket that takes all it is given. -/
theorem send_stream_count_witness :
    (CHUNK_SIZE = 32768 ∧
    ∃ c' data', Connection.send_stream 10
          { socket_ := 3,
            os := { incoming := [], outgoing := [WriteEvent.room 2, WriteEvent.room 0],
                    wire := [], trace := [] } }
          (StdStream.ofBytes [1, 2, 3, 4, 5])
        = Res.ok ((StdStream.ofBytes [1, 2, 3, 4, 5]).unread.length : Int) (c', data')
      ∧ data'.unread = [] ∧ data'.eofbit = true
      ∧ (∃ rs, data'.reads = [] ++ rs ∧ (∀ r ∈ rs, r ≤ 32768)
          ∧ rs.sum = (StdStream.ofBytes [1, 2, 3, 4, 5]).unread.length)
      ∧ (∃ ops, c'.os.trace = [] ++ ops
          ∧ (∀ op ∈ ops, ∃ req ret, op = Op.send req ret ∧ req ≤ 32768)
          ∧ bytesTaken ops = ((StdStream.ofBytes [1, 2, 3, 4, 5]).unread.length : Int)
          ∧ ((StdStream.ofBytes [1, 2, 3, 4, 5]).unread ≠ [] → ops ≠ []))
      ∧ c'.os.wire.length = 0 + (StdStream.ofBytes [1, 2, 3, 4, 5]).unread.length
      ∧ ((∀ e ∈ [WriteEvent.room 2, WriteEvent.room 0], e.acceptsChunk = true) →
          c'.os.wire = [] ++ (StdStream.ofBytes [1, 2, 3, 4, 5]).unread)
      ∧ ((StdStream.ofBytes [1, 2, 3, 4, 5]).unread = [] → c' =
          { socket_ := 3,
            os := { incoming := [], outgoing := [WriteEvent.room 2, WriteEvent.room 0],
                    wire := [], trace := [] } }))
    ∧ ∃ c' data', Connection.send_stream 10
          { socket_ := 3, os := { incoming := [], outgoing := [], wire := [9], trace := [] } }
          (StdStream.ofBytes [1, 2, 3, 4, 5])
        = Res.ok 5 (c', data')
      ∧ c'.os.wire = [9, 1, 2, 3, 4, 5]
      ∧ (∃ ops, c'.os.trace = [] ++ ops ∧ bytesTaken ops = 5 ∧ ops ≠ []) := by
  refine ⟨?_, ?_⟩
  · exact
      send_stream_count 10
        { socket_ := 3,
          os := { incoming := [], outgoing := [WriteEvent.room 2, WriteEvent.room 0],
                  wire := [], trace := [] } }
        (StdStream.ofBytes [1, 2, 3, 4, 5]) (by decide) (by decide) (by decide) (by decide)
  · obtain ⟨_, c', d', h1, _, _, _, ⟨ops, ho, _, hb, hn⟩, _, hw, _⟩ :=
      send_stream_count 10
        { socket_ := 3, os := { incoming := [], outgoing := [], wire := [9], trace := [] } }
        (StdStream.ofBytes [1, 2, 3, 4, 5]) (by decide) (by decide) (by decide) (by decide)
    exact ⟨c', d', h1, hw (by decide), ops, ho, hb, hn (by decide)⟩

/-- C5 (counterexample). A source of `2^31` bytes on a socket that takes every
chunk: the call returns, and the `int` it returns is `-2^31`, not `2^31`. -/
theorem send_stream_count_overflow :
    (Connection.send_stream (2 ^ 31 + 3)
        { socket_ := 3, os := { incoming := [], outgoing := [], wire := [], trace := [] } }
        (StdStream.ofBytes (List.replicate (2 ^ 31) 0))).value? = some (-2147483648) := by
  have hlen : (StdStream.ofBytes (List.replicate (2 ^ 31) 0)).unread.length = 2 ^ 31 := by
    show ((List.replicate (2 ^ 31) (0 : Byte)).drop 0).length = 2 ^ 31
    rw [List.drop_zero, List.length_replicate]
  obtain ⟨c', d', hres, _⟩ :=
    send_stream_wrap (2 ^ 31 + 3)
      { socket_ := 3, os := { incoming := [], outgoing := [], wire := [], trace := [] } }
      (StdStream.ofBytes (List.replicate (2 ^ 31) 0)) rfl (by simp)
      (by rw [hlen]; simp)
  rw [hres, hlen]
  show some (wrapInt32 ((2 ^ 31 : Nat) : Int)) = some (-2147483648)
  unfold wrapInt32
  norm_num

/-! ## `select` and `recv` -/

theorem pending_selectEvents (b : Bool) (evs : List Event) :
    pending (selectEvents b evs).2 = pending evs := by
  induction evs with
  | nil => rfl
  | cons e r ih =>
    cases e <;> simp only [selectEvents, pending]
    · split
      · rfl
      · exact ih

theorem selectEvents_timeout (b : Bool) (evs : List Event)
    (h : (selectEvents b evs).1 = SelectResult.timeout) : b = true := by
  induction evs with
  | nil => simp [selectEvents] at h
  | cons e r ih =>
    cases e <;> simp only [selectEvents] at h
    · split at h
      · assumption
      · exact ih h
    all_goals simp at h

theorem recvEvents_spec (len : Nat) (evs : List Event) :
    (recvEvents len evs).1 = -1 ∨
      ((recvEvents len evs).1 = ((recvEvents len evs).2.1.length : Int)
        ∧ (recvEvents len evs).2.1.length ≤ len
        ∧ pending evs = (recvEvents len evs).2.1 ++ pending (recvEvents len evs).2.2) := by
  induction evs with
  | nil => right; simp [recvEvents, pending]
  | cons e r ih =>
    cases e with
    | quiet => simpa only [recvEvents, pending] using ih
    | selectFail => simpa only [recvEvents, pending] using ih
    | notSet => simpa only [recvEvents, pending] using ih
    | recvFail => left; simp [recvEvents]
    | bytes bs =>
      right
      simp only [recvEvents, pending]
      refine ⟨trivial, by simp [List.length_take], ?_⟩
      split
      · rename_i h
        congr 1
        conv_lhs => rw [← List.take_append_drop len bs]
        rw [h, List.append_nil]
      · simp only [pending]
        rw [← List.append_assoc, List.take_append_drop]

/-- With a timeout whose timeval `select` takes (or none at all) the call is
the one the script describes. -/
theorem selectCall_valid (s : Sock) (t : Int) (hv : t * 1000 < 2 ^ 31) :
    s.selectCall (if t > 0 then some (tv_usec t) else none) = s.select (decide (t > 0)) := by
  by_cases ht : t > 0
  · have hval : timevalValid (tv_usec t) = true := by
      unfold timevalValid tv_usec
      simp only [Bool.and_eq_true, decide_eq_true_eq]
      omega
    rw [if_pos ht]
    simp only [Sock.selectCall, hval, if_true]
    simp [ht]
  · rw [if_neg ht]
    simp only [Sock.selectCall]
    simp [ht]

/-- With a timeval that `select` does not take, `recv_timeout` throws at once
and the socket keeps what it holds. -/
theorem recv_timeout_invalid (s : Sock) (len : Nat) (t : Int) (hv : 2 ^ 31 ≤ t * 1000) :
    recv_timeout s len t
      = Res.throw Exn.select_failed { s with trace := s.trace ++ [Op.select (-1)] } := by
  have ht : t > 0 := by omega
  have hval : timevalValid (tv_usec t) = false := by
    unfold timevalValid tv_usec
    simp only [Bool.and_eq_false_imp, decide_eq_true_eq, decide_eq_false_iff_not]
    omega
  unfold recv_timeout
  rw [if_pos ht]
  simp only [Sock.selectCall, hval]
  rfl

theorem recv_timeout_eq (s : Sock) (len : Nat) (t : Int) (hv : t * 1000 < 2 ^ 31) :
    recv_timeout s len t =
      if (s.select (decide (t > 0))).1.numReady = SOCKET_ERROR then
        Res.throw Exn.select_failed (s.select (decide (t > 0))).2
      else if (s.select (decide (t > 0))).1.numReady = 0 then
        Res.ok (0, [], true) (s.select (decide (t > 0))).2
      else
        match (s.select (decide (t > 0))).1 with
        | SelectResult.ready true =>
          if (recv (s.select (decide (t > 0))).2 len).1 = SOCKET_ERROR then
            Res.throw Exn.recv_failed (recv (s.select (decide (t > 0))).2 len).2.2
          else
            Res.ok ((recv (s.select (decide (t > 0))).2 len).1,
                    (recv (s.select (decide (t > 0))).2 len).2.1, false)
              (recv (s.select (decide (t > 0))).2 len).2.2
        | _ => Res.ok (0, [], false) (s.select (decide (t > 0))).2 := by
  unfold recv_timeout
  rw [selectCall_valid s t hv]

theorem Sock.select_fst (s : Sock) (b : Bool) : (s.select b).1 = (selectEvents b s.incoming).1 := rfl

theorem Sock.select_snd (s : Sock) (b : Bool) :
    (s.select b).2 = { s with incoming := (selectEvents b s.incoming).2,
                              trace := s.trace ++ [Op.select (selectEvents b s.incoming).1.numReady] } :=
  rfl

theorem recv_spec (s : Sock) (len : Nat) :
    ((recv s len).1 = -1 ∨
      ((recv s len).1 = ((recv s len).2.1.length : Int)
        ∧ (recv s len).2.1.length ≤ len
        ∧ pending s.incoming = (recv s len).2.1 ++ pending (recv s len).2.2.incoming))
    ∧ (recv s len).2.2.outgoing = s.outgoing ∧ (recv s len).2.2.wire = s.wire
    ∧ ∃ ops, (recv s len).2.2.trace = s.trace ++ ops ∧ ∀ op ∈ ops, op.isReceive = true := by
  unfold recv
  split
  · exact ⟨Or.inr ⟨rfl, by simp, by simp⟩, rfl, rfl, [], by simp, by simp⟩
  · refine ⟨recvEvents_spec len s.incoming, rfl, rfl, [Op.recv len (recvEvents len s.incoming).1],
      rfl, ?_⟩
    intro op hop
    simp at hop
    rw [hop]; rfl

theorem recv_timeout_spec (s : Sock) (len : Nat) (t : Int) :
    (∃ buf timedOut s', recv_timeout s len t = Res.ok ((buf.length : Int), buf, timedOut) s'
        ∧ buf.length ≤ len
        ∧ pending s.incoming = buf ++ pending s'.incoming
        ∧ (timedOut = true → buf = [] ∧ 0 < t)
        ∧ s'.outgoing = s.outgoing ∧ s'.wire = s.wire
        ∧ ∃ ops, s'.trace = s.trace ++ ops ∧ ∀ op ∈ ops, op.isReceive = true)
    ∨ (∃ e s', recv_timeout s len t = Res.throw e s'
        ∧ e.isConnectionException = true
        ∧ s'.outgoing = s.outgoing ∧ s'.wire = s.wire
        ∧ ∃ ops, s'.trace = s.trace ++ ops ∧ ∀ op ∈ ops, op.isReceive = true) := by
  have hsel : ∀ op ∈ [Op.select (selectEvents (decide (t > 0)) s.incoming).1.numReady],
      op.isReceive = true := by
    intro op hop; simp at hop; rw [hop]; rfl
  have hpend := pending_selectEvents (decide (t > 0)) s.incoming
  have htr : (s.select (decide (t > 0))).2.trace
      = s.trace ++ [Op.select (selectEvents (decide (t > 0)) s.incoming).1.numReady] := rfl
  have hin : pending (s.select (decide (t > 0))).2.incoming = pending s.incoming := hpend
  by_cases hv : t * 1000 < 2 ^ 31
  swap
  · right
    rw [recv_timeout_invalid s len t (by omega)]
    exact ⟨Exn.select_failed, _, rfl, rfl, rfl, rfl, [Op.select (-1)], rfl,
      by intro op hop; simp at hop; rw [hop]; rfl⟩
  rw [recv_timeout_eq s len t hv]
  rcases hres : (s.select (decide (t > 0))).1 with _ | _ | b
  · -- select failed
    right
    exact ⟨Exn.select_failed, (s.select (decide (t > 0))).2,
      by simp [SelectResult.numReady, SOCKET_ERROR], rfl, rfl, rfl, _, htr, hsel⟩
  · -- select timed out
    left
    have hb : decide (t > 0) = true :=
      selectEvents_timeout _ _ (by rw [← Sock.select_fst]; exact hres)
    exact ⟨[], true, (s.select (decide (t > 0))).2,
      by simp [SelectResult.numReady, SOCKET_ERROR], by simp, by rw [hin]; simp,
      fun _ => ⟨rfl, by simpa using hb⟩, rfl, rfl, _, htr, hsel⟩
  · cases b
    · left
      exact ⟨[], false, (s.select (decide (t > 0))).2,
        by simp [SelectResult.numReady, SOCKET_ERROR], by simp, by rw [hin]; simp,
        fun h => by simp at h, rfl, rfl, _, htr, hsel⟩
    · obtain ⟨hr, ho, hw, ops, hops, hall⟩ := recv_spec (s.select (decide (t > 0))).2 len
      have hall2 : ∀ op ∈ [Op.select (selectEvents (decide (t > 0)) s.incoming).1.numReady] ++ ops,
          op.isReceive = true := by
        intro op hop
        rcases List.mem_append.1 hop with h | h
        · exact hsel op h
        · exact hall op h
      have htr2 : (recv (s.select (decide (t > 0))).2 len).2.2.trace
          = s.trace ++ ([Op.select (selectEvents (decide (t > 0)) s.incoming).1.numReady] ++ ops) := by
        rw [hops, htr, List.append_assoc]
      rcases hr with hr | ⟨hr1, hr2, hr3⟩
      · right
        exact ⟨Exn.recv_failed, (recv (s.select (decide (t > 0))).2 len).2.2,
          by simp [SelectResult.numReady, SOCKET_ERROR, hr], rfl, ho, hw, _, htr2, hall2⟩
      · left
        have hne : ¬ ((recv (s.select (decide (t > 0))).2 len).1 = SOCKET_ERROR) := by
          rw [hr1]; unfold SOCKET_ERROR; omega
        refine ⟨(recv (s.select (decide (t > 0))).2 len).2.1, false,
          (recv (s.select (decide (t > 0))).2 len).2.2, ?_, hr2, by rw [← hr3, hin],
          fun h => by simp at h, ho, hw, _, htr2, hall2⟩
        simp only [SelectResult.numReady, SOCKET_ERROR] at hne ⊢
        simp [hne, hr1]

/-! ## Receiving into a stream -/

theorem receive_loop_succ (fuel : Nat) (c : Connection) (data : StdStream)
    (howMany timeoutMs totalBytes : Int) (internalTimeout : Bool) :
    Connection.receive_loop (fuel + 1) c data howMany timeoutMs totalBytes internalTimeout =
      if howMany > 0 && data.good then
        match recv_timeout c.os howMany.toNat timeoutMs with
        | Res.outOfFuel => Res.outOfFuel
        | Res.throw e os1 => Res.throw e ({ c with os := os1 }, data)
        | Res.ok (byteChunkReceived, buf, timedOut) os1 =>
          if byteChunkReceived = SOCKET_ERROR then
            Res.throw Exn.receive_error ({ c with os := os1 }, data)
          else if byteChunkReceived > 0 then
            if (data.write (buf.take byteChunkReceived.toNat)).tellp - data.tellp
                ≠ byteChunkReceived then
              Res.throw Exn.stream_write_failed
                ({ c with os := os1 }, data.write (buf.take byteChunkReceived.toNat))
            else
              Connection.receive_loop fuel { c with os := os1 }
                (data.write (buf.take byteChunkReceived.toNat))
                (howMany - byteChunkReceived) timeoutMs (totalBytes + byteChunkReceived) timedOut
          else if totalBytes = 0 then
            if timedOut && decide (timeoutMs ≠ TIMEOUT_NEVER) then
              Res.ok (totalBytes, timedOut) ({ c with os := os1 }, data)
            else if !timedOut then
              Res.throw Exn.disconnected ({ c with os := os1 }, data)
            else
              Connection.receive_loop fuel { c with os := os1 } data howMany timeoutMs
                totalBytes timedOut
          else
            Connection.receive_loop fuel { c with os := os1 } data howMany timeoutMs
              totalBytes timedOut
      else Res.ok (totalBytes, internalTimeout) (c, data) := rfl

theorem StdStream.write_good (d : StdStream) (bs : List Byte) (h : d.good = true) :
    d.write bs = { d with buf := d.buf ++ bs } ∧ (d.write bs).good = true
      ∧ (d.write bs).tellp - d.tellp = (bs.length : Int) := by
  have hg := (StdStream.good_iff d).1 h
  have h1 : d.write bs = { d with buf := d.buf ++ bs } := by
    unfold StdStream.write; rw [if_pos h]
  refine ⟨h1, ?_, ?_⟩
  · rw [h1]; simpa [StdStream.good] using h
  · rw [h1]
    simp only [StdStream.tellp, hg.2]
    simp

theorem receive_loop_spec :
    ∀ (fuel : Nat) (c : Connection) (data : StdStream) (howMany t total : Int) (flag : Bool)
      (n : Int) (timedOut : Bool) (c' : Connection) (data' : StdStream),
      data.good = true → 0 ≤ total →
      Connection.receive_loop fuel c data howMany t total flag = Res.ok (n, timedOut) (c', data') →
      ∃ bs, data' = { data with buf := data.buf ++ bs }
        ∧ pending c.os.incoming = bs ++ pending c'.os.incoming
        ∧ n = total + (bs.length : Int)
        ∧ c'.socket_ = c.socket_ ∧ c'.os.outgoing = c.os.outgoing ∧ c'.os.wire = c.os.wire
        ∧ ((howMany ≤ 0 ∧ bs = [] ∧ timedOut = flag ∧ c' = c)
            ∨ (0 < howMany ∧ (bs.length : Int) = howMany ∧ timedOut = false)
            ∨ (0 < howMany ∧ n = 0 ∧ bs = [] ∧ timedOut = true ∧ t ≠ TIMEOUT_NEVER)) := by
  intro fuel
  induction fuel with
  | zero => intro c data howMany t total flag n timedOut c' data' _ _ h; simp [Connection.receive_loop] at h
  | succ f ih =>
    intro c data howMany t total flag n timedOut c' data' hgood htot h
    rw [receive_loop_succ] at h
    by_cases hpos : howMany > 0
    · have hguard : (decide (howMany > 0) && data.good) = true := by simp [hpos, hgood]
      rw [if_pos hguard] at h
      rcases recv_timeout_spec c.os howMany.toNat t with
        ⟨buf, to1, s', hrt, hlen, hpend, hto, hout, hwire, _⟩ | ⟨e, s', hrt, _⟩
      · rw [hrt] at h
        simp only [] at h
        have hne : ¬ ((buf.length : Int) = SOCKET_ERROR) := by unfold SOCKET_ERROR; omega
        rw [if_neg hne] at h
        by_cases hb : (buf.length : Int) > 0
        · rw [if_pos hb, Int.toNat_ofNat, List.take_length] at h
          obtain ⟨hw1, hw2, hw3⟩ := StdStream.write_good data buf hgood
          rw [if_neg (by rw [hw3]; simp)] at h
          have hto1 : to1 = false := by
            cases to1
            · rfl
            · have := (hto rfl).1; rw [this] at hb; simp at hb
          obtain ⟨bs2, hd, hp, hn, hs, ho, hwi, hcase⟩ :=
            ih _ _ _ _ _ _ _ _ _ _ hw2 (by omega) h
          refine ⟨buf ++ bs2, ?_, ?_, ?_, hs, by rw [ho, hout], by rw [hwi, hwire], ?_⟩
          · rw [hd, hw1]; simp
          · rw [hpend]; simp only [] at hp; rw [hp, List.append_assoc]
          · rw [hn]; simp; omega
          · right
            rcases hcase with ⟨h1, h2, h3, _⟩ | ⟨h1, h2, h3⟩ | ⟨h1, h2, h3, _⟩
            · left
              refine ⟨hpos, ?_, by rw [h3, hto1]⟩
              rw [h2]; simp; omega
            · left
              refine ⟨hpos, ?_, h3⟩
              simp; omega
            · exfalso; omega
        · rw [if_neg hb] at h
          have hnil : buf = [] := by
            cases buf with
            | nil => rfl
            | cons a r => simp at hb
          by_cases ht0 : total = 0
          · rw [if_pos ht0] at h
            by_cases hbrk : (to1 && decide (t ≠ TIMEOUT_NEVER)) = true
            · rw [if_pos hbrk] at h
              simp only [Res.ok.injEq, Prod.mk.injEq] at h
              obtain ⟨⟨hn, hto'⟩, hc, hd⟩ := h
              simp only [Bool.and_eq_true, decide_eq_true_eq] at hbrk
              refine ⟨[], by rw [← hd]; simp, by rw [← hc, hpend, hnil], by rw [← hn]; simp,
                by rw [← hc], by rw [← hc]; exact hout, by rw [← hc]; exact hwire, ?_⟩
              right; right
              exact ⟨hpos, by rw [← hn, ht0], rfl, by rw [← hto', hbrk.1], hbrk.2⟩
            · rw [if_neg hbrk] at h
              split at h
              · simp at h
              · obtain ⟨bs2, hd, hp, hn, hs, ho, hwi, hcase⟩ :=
                  ih _ _ _ _ _ _ _ _ _ _ hgood htot h
                refine ⟨bs2, hd, by rw [hpend, hnil]; exact hp, hn, hs, by rw [ho, hout],
                  by rw [hwi, hwire], ?_⟩
                rcases hcase with ⟨h1, _⟩ | h2 | h3
                · exfalso; omega
                · exact Or.inr (Or.inl h2)
                · exact Or.inr (Or.inr h3)
          · rw [if_neg ht0] at h
            obtain ⟨bs2, hd, hp, hn, hs, ho, hwi, hcase⟩ :=
              ih _ _ _ _ _ _ _ _ _ _ hgood htot h
            refine ⟨bs2, hd, by rw [hpend, hnil]; exact hp, hn, hs, by rw [ho, hout],
              by rw [hwi, hwire], ?_⟩
            rcases hcase with ⟨h1, _⟩ | h2 | h3
            · exfalso; omega
            · exact Or.inr (Or.inl h2)
            · exact Or.inr (Or.inr h3)
      · rw [hrt] at h
        simp at h
    · have hguard : ¬ ((decide (howMany > 0) && data.good) = true) := by simp [hpos]
      rw [if_neg hguard] at h
      simp only [Res.ok.injEq, Prod.mk.injEq] at h
      obtain ⟨⟨hn, hto'⟩, hc, hd⟩ := h
      refine ⟨[], by rw [← hd]; simp, by rw [← hc]; simp, by rw [← hn]; simp, by rw [← hc],
        by rw [← hc], by rw [← hc], Or.inl ⟨by omega, rfl, hto'.symm, hc.symm⟩⟩

theorem receive_loop_not_good (fuel : Nat) (c : Connection) (data : StdStream)
    (howMany t total : Int) (flag : Bool) (x : Int × Bool) (c1 : Connection) (d1 : StdStream)
    (hbad : data.good = false)
    (h : Connection.receive_loop fuel c data howMany t total flag = Res.ok x (c1, d1)) :
    d1 = data := by
  cases fuel with
  | zero => simp [Connection.receive_loop] at h
  | succ f =>
    rw [receive_loop_succ, hbad] at h
    simp at h
    exact h.2.2.symm

theorem receive_stream_spec (fuel : Nat) (c : Connection) (data : StdStream) (howMany t : Int)
    (n : Int) (timedOut : Bool) (c' : Connection) (data' : StdStream)
    (h : Connection.receive_stream fuel c data howMany t = Res.ok (n, timedOut) (c', data')) :
    data.good = true ∧
    ∃ bs, data' = { data with buf := data.buf ++ bs }
      ∧ pending c.os.incoming = bs ++ pending c'.os.incoming
      ∧ n = (bs.length : Int)
      ∧ c'.socket_ = c.socket_ ∧ c'.os.outgoing = c.os.outgoing ∧ c'.os.wire = c.os.wire
      ∧ ((howMany ≤ 0 ∧ bs = [] ∧ timedOut = false ∧ c' = c)
          ∨ (0 < howMany ∧ (bs.length : Int) = howMany ∧ timedOut = false)
          ∨ (0 < howMany ∧ n = 0 ∧ bs = [] ∧ timedOut = true ∧ t ≠ TIMEOUT_NEVER)) := by
  unfold Connection.receive_stream at h
  split at h
  · rename_i totalBytes internalTimeout c1 data1 hloop
    split at h
    · simp at h
    · rename_i hg
      simp only [Res.ok.injEq, Prod.mk.injEq] at h
      obtain ⟨⟨hn, hto⟩, hc, hd⟩ := h
      subst hn hto hc hd
      have hgood1 : data1.good = true := by simpa using hg
      have hgood : data.good = true := by
        by_cases hgd : data.good = true
        · exact hgd
        · have hbad : data.good = false := by simpa using hgd
          have := receive_loop_not_good _ _ _ _ _ _ _ _ _ _ hbad hloop
          rw [this] at hgood1; rw [hgood1] at hbad; simp at hbad
      refine ⟨hgood, ?_⟩
      have := receive_loop_spec _ _ _ _ _ _ _ _ _ _ _ hgood (le_refl 0) hloop
      simpa using this
  · rename_i r hr
    exact (hr _ _ _ _ h).elim

theorem recv_timeout_bytes (s : Sock) (len : Nat) (t : Int) (ch : List Byte) (r : List Event)
    (hlen : 0 < len) (hv : t * 1000 < 2 ^ 31) (hin : s.incoming = Event.bytes ch :: r) :
    recv_timeout s len t = Res.ok (((ch.take len).length : Int), ch.take len, false)
      { s with incoming := if ch.drop len = [] then r else Event.bytes (ch.drop len) :: r,
               trace := s.trace ++ [Op.select 1, Op.recv len ((ch.take len).length : Int)] } := by
  have hne : len ≠ 0 := by omega
  have hne2 : ¬ (((ch.take len).length : Int) = SOCKET_ERROR) := by unfold SOCKET_ERROR; omega
  cases s
  simp only at hin
  subst hin
  rw [recv_timeout_eq _ len t hv]
  simp only [Sock.select, selectEvents, SelectResult.numReady, recv, Sock.recv, recvEvents, hne,
    if_false, hne2]
  simp [SOCKET_ERROR]

theorem recv_timeout_quiet (s : Sock) (len : Nat) (t : Int) (rest : List Event)
    (ht : 0 < t) (hv : t * 1000 < 2 ^ 31) (hq : s.incoming = Event.quiet :: rest) :
    recv_timeout s len t = Res.ok (0, [], true)
      { s with incoming := rest, trace := s.trace ++ [Op.select 0] } := by
  have hd : decide (t > 0) = true := by simpa using ht
  rw [recv_timeout_eq s len t hv]
  simp [Sock.select, selectEvents, hq, hd, SelectResult.numReady, SOCKET_ERROR]

theorem recv_timeout_closed (s : Sock) (len : Nat) (t : Int) (hlen : 0 < len)
    (hv : t * 1000 < 2 ^ 31) (hq : s.incoming = []) :
    recv_timeout s len t = Res.ok (0, [], false)
      { s with trace := s.trace ++ [Op.select 1, Op.recv len 0] } := by
  have hne : len ≠ 0 := by omega
  cases s
  simp only at hq
  subst hq
  rw [recv_timeout_eq _ len t hv]
  simp [Sock.select, selectEvents, SelectResult.numReady, SOCKET_ERROR, recv,
    Sock.recv, recvEvents, hne]

/-- After at least one byte, a peer that has closed keeps the loop of
`receive` going for ever: every `recv` returns zero and nothing is thrown. -/
theorem receive_loop_closed_diverges :
    ∀ (fuel : Nat) (c : Connection) (data : StdStream) (howMany t total : Int) (flag : Bool),
      t * 1000 < 2 ^ 31 →
      c.os.incoming = [] → 0 < howMany → data.good = true → total ≠ 0 →
      Connection.receive_loop fuel c data howMany t total flag = Res.outOfFuel := by
  intro fuel
  induction fuel with
  | zero => intro c data howMany t total flag _ _ _ _ _; rfl
  | succ f ih =>
    intro c data howMany t total flag hv hin hpos hgood htot
    have hguard : (decide (howMany > 0) && data.good) = true := by simp [hpos, hgood]
    rw [receive_loop_succ, if_pos hguard,
      recv_timeout_closed c.os howMany.toNat t (by omega) hv hin]
    simp only []
    rw [if_neg (by unfold SOCKET_ERROR; omega), if_neg (by omega), if_neg htot]
    exact ih _ _ _ _ _ _ hv hin hpos hgood htot

/-- C8 (the code at the failing input). Two bytes are asked for, one byte
arrives and then the peer closes: whatever the timeout (none, or one whose
timeval `select` takes) and however long the call is run,
`Connection::receive(NetworkDataStream&, ...)` neither throws nor returns. With
no byte received the same close is reported by the
"client has disconnected unexpectedly" exception. -/
theorem receive_stream_close_after_bytes (fuel : Nat) (timeoutMs : Int)
    (hfit : timeoutMs * 1000 < 2 ^ 31) :
    Connection.receive_stream fuel
        { socket_ := 3,
          os := { incoming := [Event.bytes [7]], outgoing := [], wire := [], trace := [] } }
        StdStream.empty 2 timeoutMs = Res.outOfFuel
    ∧ Connection.receive_stream (fuel + 1)
        { socket_ := 3, os := { incoming := [], outgoing := [], wire := [], trace := [] } }
        StdStream.empty 2 timeoutMs
      = Res.throw Exn.disconnected
          ({ socket_ := 3,
             os := { incoming := [], outgoing := [], wire := [],
                     trace := [Op.select 1, Op.recv 2 0] } }, StdStream.empty) := by
  constructor
  · unfold Connection.receive_stream
    cases fuel with
    | zero => rfl
    | succ f =>
      have h1 : recv_timeout
          { incoming := [Event.bytes [7]], outgoing := [], wire := [], trace := [] } 2 timeoutMs
          = Res.ok (1, [7], false)
              { incoming := [], outgoing := [], wire := [],
                trace := [Op.select 1, Op.recv 2 1] } :=
        recv_timeout_bytes
          { incoming := [Event.bytes [7]], outgoing := [], wire := [], trace := [] } 2 timeoutMs
          [7] [] (by decide) hfit rfl
      rw [receive_loop_succ]
      simp only [StdStream.empty, StdStream.good, Bool.not_false, Bool.and_self, gt_iff_lt,
        Nat.ofNat_pos, decide_True, if_true]
      have h2 : (2 : Int).toNat = 2 := rfl
      rw [h2, h1]
      simp only []
      rw [if_neg (by decide), if_pos (by decide), if_neg (by decide)]
      rw [receive_loop_closed_diverges _ _ _ _ _ _ _ hfit rfl (by decide) (by decide)
        (by decide)]
  · unfold Connection.receive_stream
    rw [receive_loop_succ]
    have h1 := recv_timeout_closed
      { incoming := [], outgoing := [], wire := [], trace := [] } 2 timeoutMs (by decide) hfit
      rfl
    simp only [StdStream.empty, StdStream.good, Bool.not_false, Bool.and_self, gt_iff_lt,
      Nat.ofNat_pos, decide_True, if_true]
    have h2 : (2 : Int).toNat = 2 := rfl
    rw [h2, h1]
    simp [SOCKET_ERROR]

/-- Witness for C8: a timeout of 10 s and fuel for five rounds. -/
theorem receive_stream_close_after_bytes_witness :
    Connection.receive_stream 5
        { socket_ := 3,
          os := { incoming := [Event.bytes [7]], outgoing := [], wire := [], trace := [] } }
        StdStream.empty 2 10000 = Res.outOfFuel
    ∧ Connection.receive_stream (5 + 1)
        { socket_ := 3, os := { incoming := [], outgoing := [], wire := [], trace := [] } }
        StdStream.empty 2 10000
      = Res.throw Exn.disconnected
          ({ socket_ := 3,
             os := { incoming := [], outgoing := [], wire := [],
                     trace := [Op.select 1, Op.recv 2 0] } }, StdStream.empty) :=
  receive_stream_close_after_bytes 5 10000 (by decide)

/-- C9. Whenever `Connection::receive(NetworkDataStream&, maxBytes, timeoutMs,
&timedOut)` with `maxBytes ≥ 0` returns normally, either it returns exactly
`maxBytes` with `timedOut = false`, having appended to the sink exactly the
next `maxBytes` bytes of the connection in order, or it returns 0 with
`timedOut = true`, the sink and the bytes still to arrive unchanged, and
`timeoutMs` is not `TIMEOUT_NEVER`. Inside the loop a timeout that comes after
at least one byte does not end the call: the loop goes on to the next round. -/
theorem receive_stream_never_short (fuel : Nat) (c : Connection) (data : StdStream)
    (maxBytes timeoutMs n : Int) (timedOut : Bool) (c' : Connection) (data' : StdStream)
    (hmax : 0 ≤ maxBytes)
    (hret : Connection.receive_stream fuel c data maxBytes timeoutMs
              = Res.ok (n, timedOut) (c', data')) :
    ((n = maxBytes ∧ timedOut = false
        ∧ ∃ bs, (bs.length : Int) = maxBytes ∧ data' = { data with buf := data.buf ++ bs }
            ∧ pending c.os.incoming = bs ++ pending c'.os.incoming)
      ∨ (n = 0 ∧ timedOut = true ∧ data' = data ∧ timeoutMs ≠ TIMEOUT_NEVER
          ∧ pending c'.os.incoming = pending c.os.incoming))
    ∧ (∀ (f : Nat) (cc : Connection) (d : StdStream) (howMany total : Int) (flag : Bool)
        (rest : List Event),
        0 < total → 0 < howMany → d.good = true → 0 < timeoutMs →
        timeoutMs * 1000 < 2 ^ 31 →
        cc.os.incoming = Event.quiet :: rest →
        Connection.receive_loop (f + 1) cc d howMany timeoutMs total flag
          = Connection.receive_loop f
              { cc with os := { cc.os with incoming := rest,
                                           trace := cc.os.trace ++ [Op.select 0] } }
              d howMany timeoutMs total true) := by
  constructor
  · obtain ⟨_, bs, hd, hp, hn, _, _, _, hcase⟩ := receive_stream_spec _ _ _ _ _ _ _ _ _ hret
    rcases hcase with ⟨h1, h2, h3, _⟩ | ⟨h1, h2, h3⟩ | ⟨h1, h2, h3, h4, h5⟩
    · left
      have h0 : maxBytes = 0 := by omega
      refine ⟨by rw [hn, h2, h0]; rfl, h3, bs, by rw [h2, h0]; rfl, hd, hp⟩
    · left
      exact ⟨by rw [hn, h2], h3, bs, h2, hd, hp⟩
    · right
      refine ⟨h2, h4, ?_, h5, ?_⟩
      · rw [hd, h3]; simp
      · rw [hp, h3]; rfl
  · intro f cc d howMany total flag rest htot hpos hgood ht hfit hq
    have hguard : (decide (howMany > 0) && d.good) = true := by simp [hpos, hgood]
    rw [receive_loop_succ, if_pos hguard, recv_timeout_quiet cc.os _ timeoutMs rest ht hfit hq]
    simp only []
    rw [if_neg (by unfold SOCKET_ERROR; omega), if_neg (by omega), if_neg (by omega)]

/-- Witness for C9: two bytes asked for, delivered one at a time around a quiet period. -/
theorem receive_stream_never_short_witness :
    ((2 : Int) = 2 ∧ false = false
        ∧ ∃ bs : List Byte, (bs.length : Int) = 2
            ∧ ({ buf := [1, 2], gpos := 0, eofbit := false, failbit := false, reads := [] }
                : StdStream) = { StdStream.empty with buf := StdStream.empty.buf ++ bs }
            ∧ pending [Event.bytes [1], Event.quiet, Event.bytes [2, 3]]
                = bs ++ pending [Event.bytes [3]])
      ∨ ((2 : Int) = 0 ∧ false = true
          ∧ ({ buf := [1, 2], gpos := 0, eofbit := false, failbit := false, reads := [] }
                : StdStream) = StdStream.empty
          ∧ (100 : Int) ≠ TIMEOUT_NEVER
          ∧ pending [Event.bytes [3]] = pending [Event.bytes [1], Event.quiet, Event.bytes [2, 3]]) :=
  (receive_stream_never_short 5
    { socket_ := 3,
      os := { incoming := [Event.bytes [1], Event.quiet, Event.bytes [2, 3]], outgoing := [],
              wire := [], trace := [] } }
    StdStream.empty 2 100 2 false
    { socket_ := 3,
      os := { incoming := [Event.bytes [3]], outgoing := [], wire := [],
              trace := [Op.select 1, Op.recv 2 1, Op.select 0, Op.select 1, Op.recv 1 1] } }
    { buf := [1, 2], gpos := 0, eofbit := false, failbit := false, reads := [] }
    (by decide) (by decide)).1

theorem receive_stream_never_timeout (fuel : Nat) (c : Connection) (data : StdStream)
    (howMany : Int) (n : Int) (timedOut : Bool) (s : Connection × StdStream)
    (h : Connection.receive_stream fuel c data howMany TIMEOUT_NEVER = Res.ok (n, timedOut) s) :
    timedOut = false := by
  obtain ⟨c', d'⟩ := s
  obtain ⟨_, bs, _, _, _, _, _, _, hcase⟩ := receive_stream_spec _ _ _ _ _ _ _ _ _ h
  rcases hcase with ⟨_, _, h3, _⟩ | ⟨_, _, h3⟩ | ⟨_, _, _, _, h5⟩
  · exact h3
  · exact h3
  · exact absurd rfl h5

theorem receive_timedOut_never (fuel : Nat) (c : Connection) :
    match Connection.receive fuel c TIMEOUT_NEVER with
    | Res.ok _ r => r.timedOut = false
    | Res.throw _ r => r.timedOut = false
    | Res.outOfFuel => True := by
  unfold Connection.receive
  cases h1 : Connection.receive_stream fuel c StdStream.empty (MESSAGE_BYTE_LEN : Int)
      TIMEOUT_NEVER with
  | outOfFuel => trivial
  | throw e s => rfl
  | ok a s =>
    obtain ⟨n, timedOut⟩ := a
    obtain ⟨c1, ds⟩ := s
    have hto := receive_stream_never_timeout _ _ _ _ _ _ _ h1
    subst hto
    simp only [Bool.and_false, Bool.false_eq_true, if_false]
    by_cases hn : n ≠ (MESSAGE_BYTE_LEN : Int)
    · rw [if_pos hn]
    · rw [if_neg hn]
      rcases hg1 : NetworkDataStream.get_MSGID ds with ⟨msgid, ds1⟩
      simp only []
      rcases hg2 : NetworkDataStream.get_u16 ds1 with ⟨msglen, ds2⟩
      simp only []
      cases h2 : Connection.receive_stream fuel c1 ds2 ((msglen : Int) - n) TIMEOUT_NEVER with
      | outOfFuel => trivial
      | throw e s => rfl
      | ok a s =>
        simp only []
        by_cases hm : n + a.1 ≠ (msglen : Int)
        · rw [if_pos hm]
        · rw [if_neg hm]

/-- A silent wait at the start of `receive(Message*)`, with a timeout whose
timeval `select` takes: the call returns 0 with `timedOut = true`. -/
theorem receive_times_out (fuel : Nat) (c : Connection) (timeoutMs : Int) (rest : List Event)
    (hpos : 0 < timeoutMs) (hfit : timeoutMs * 1000 < 2 ^ 31)
    (hquiet : c.os.incoming = Event.quiet :: rest) :
    Connection.receive (fuel + 1) c timeoutMs
      = Res.ok 0
          { conn := { c with os := { c.os with incoming := rest,
                                               trace := c.os.trace ++ [Op.select 0] } },
            msg := ZERO_MSG, timedOut := true } := by
  have hne : timeoutMs ≠ TIMEOUT_NEVER := by unfold TIMEOUT_NEVER; omega
  have hloop : Connection.receive_loop (fuel + 1) c StdStream.empty (MESSAGE_BYTE_LEN : Int)
      timeoutMs 0 false
      = Res.ok (0, true)
          ({ c with os := { c.os with incoming := rest, trace := c.os.trace ++ [Op.select 0] } },
            StdStream.empty) := by
    have hguard : (decide ((MESSAGE_BYTE_LEN : Int) > 0) && StdStream.empty.good) = true := by
      decide
    rw [receive_loop_succ, if_pos hguard,
      recv_timeout_quiet c.os _ timeoutMs rest hpos hfit hquiet]
    simp only []
    rw [if_neg (by unfold SOCKET_ERROR; omega), if_neg (by omega)]
    simp [hne]
  unfold Connection.receive Connection.receive_stream
  rw [hloop]
  simp [StdStream.empty, StdStream.good, hne]

/-- A timeout whose timeval `select` does not take (`timeoutMs * 1000` of
2^31 or more): `receive(Message*)` throws at the first `select`, whatever the
socket holds. -/
theorem receive_timeval_rejected (fuel : Nat) (c : Connection) (timeoutMs : Int)
    (hbig : 2 ^ 31 ≤ timeoutMs * 1000) :
    Connection.receive (fuel + 1) c timeoutMs
      = Res.throw Exn.select_failed
          { conn := { c with os := { c.os with trace := c.os.trace ++ [Op.select (-1)] } },
            msg := ZERO_MSG, timedOut := false } := by
  have hguard : (decide ((MESSAGE_BYTE_LEN : Int) > 0) && StdStream.empty.good) = true := by
    decide
  unfold Connection.receive Connection.receive_stream
  rw [receive_loop_succ, if_pos hguard, recv_timeout_invalid c.os _ timeoutMs hbig]

/-- C6 (amended). For every `timeoutMs > 0` whose timeval `select` takes
(`timeoutMs * 1000 < 2^31`, that is `timeoutMs ≤ 2147483`), a wait of `select`
in which nothing arrives makes `Connection::receive(Message*, timeoutMs,
&timedOut)` return 0 with `timedOut = true`, nothing thrown, nothing consumed.
With `TIMEOUT_NEVER` the flag is `false` however the call ends. -/
theorem receive_timeout (fuel : Nat) (c : Connection) (timeoutMs : Int) (rest : List Event)
    (hpos : 0 < timeoutMs) (hfit : timeoutMs * 1000 < 2 ^ 31)
    (hquiet : c.os.incoming = Event.quiet :: rest) :
    Connection.receive (fuel + 1) c timeoutMs
      = Res.ok 0
          { conn := { c with os := { c.os with incoming := rest,
                                               trace := c.os.trace ++ [Op.select 0] } },
            msg := ZERO_MSG, timedOut := true }
    ∧ ∀ (fuel' : Nat) (c' : Connection),
        match Connection.receive fuel' c' TIMEOUT_NEVER with
        | Res.ok _ r => r.timedOut = false
        | Res.throw _ r => r.timedOut = false
        | Res.outOfFuel => True :=
  ⟨receive_times_out fuel c timeoutMs rest hpos hfit hquiet, receive_timedOut_never⟩

/-- Witness for C6: a 10 s timeout and a peer that stays silent for one wait. -/
theorem receive_timeout_witness :
    Connection.receive (0 + 1)
        { socket_ := 3,
          os := { incoming := [Event.quiet, Event.bytes [4]], outgoing := [], wire := [],
                  trace := [] } } 10000
      = Res.ok 0
          { conn := { socket_ := 3,
                      os := { incoming := [Event.bytes [4]], outgoing := [], wire := [],
                              trace := [] ++ [Op.select 0] } },
            msg := ZERO_MSG, timedOut := true } :=
  (receive_timeout 0
    { socket_ := 3,
      os := { incoming := [Event.quiet, Event.bytes [4]], outgoing := [], wire := [],
              trace := [] } } 10000 [Event.bytes [4]] (by decide) (by decide) rfl).1

/-- C6 (counterexample). With `timeoutMs = -1`, which is not `TIMEOUT_NEVER`,
`select` gets no timeout: a wait in which nothing arrives does not end the
call, and the QUIT message that comes later is returned with
`timedOut = false`. -/
theorem receive_negative_timeout :
    (-1 : Int) ≠ TIMEOUT_NEVER ∧
    Connection.receive 5
        { socket_ := 3,
          os := { incoming := [Event.quiet, Event.bytes [4, 0, 13, 0, 0, 0, 0, 0, 0, 0, 0, 0, 0]],
                  outgoing := [], wire := [], trace := [] } } (-1)
      = Res.ok 13
          { conn := { socket_ := 3,
                      os := { incoming := [], outgoing := [], wire := [],
                              trace := [Op.select 1, Op.recv 13 13] } },
            msg := { msgid := 4, msglen := 13, datalen := 0, port := 0, payload := [] },
            timedOut := false } := by
  decide

/-! ## Receiving a message -/

theorem StdStream.read_buf (s : StdStream) (n : Nat) : (s.read n).2.buf = s.buf := by
  unfold StdStream.read
  split
  · simp only []
    split <;> rfl
  · rfl

theorem padTo_of_le (n : Nat) (l : List Byte) (h : n ≤ l.length) : padTo n l = l := by
  unfold padTo
  have : n - l.length = 0 := by omega
  rw [this]; simp

theorem StdStream.read_enough (s : StdStream) (n : Nat) (hg : s.good = true)
    (h : n ≤ s.unread.length) :
    padTo n (s.read n).1 = s.unread.take n ∧ (s.read n).2.good = true
      ∧ (s.read n).2.unread = s.unread.drop n ∧ (s.read n).2.buf = s.buf := by
  refine ⟨?_, ?_, StdStream.read_unread s n hg, StdStream.read_buf s n⟩
  · rw [StdStream.read_fst s n hg, padTo_of_le]
    rw [List.length_take]; omega
  · rw [StdStream.read_good s n hg, decide_eq_true_iff]; exact h

theorem receive_stream_nonpos (fuel : Nat) (c : Connection) (d : StdStream) (howMany t : Int)
    (hle : howMany ≤ 0) (hg : d.good = true) :
    Connection.receive_stream (fuel + 1) c d howMany t = Res.ok (0, false) (c, d) := by
  unfold Connection.receive_stream
  rw [receive_loop_succ]
  have hguard : ¬ ((decide (howMany > 0) && d.good) = true) := by
    simp; intro h; omega
  rw [if_neg hguard]
  simp [hg]

theorem receive_eq (fuel : Nat) (c : Connection) (timeoutMs : Int) (bytesReceived : Int)
    (timedOut : Bool) (c1 : Connection) (ds : StdStream)
    (h1 : Connection.receive_stream fuel c StdStream.empty (MESSAGE_BYTE_LEN : Int) timeoutMs
            = Res.ok (bytesReceived, timedOut) (c1, ds)) :
    Connection.receive fuel c timeoutMs =
      if decide (timeoutMs ≠ TIMEOUT_NEVER) && timedOut then
        Res.ok 0 { conn := c1, msg := ZERO_MSG, timedOut := timedOut }
      else if bytesReceived ≠ (MESSAGE_BYTE_LEN : Int) then
        Res.throw Exn.unexpected_header { conn := c1, msg := ZERO_MSG, timedOut := timedOut }
      else
        match Connection.receive_stream fuel c1
            (NetworkDataStream.get_u16 (NetworkDataStream.get_MSGID ds).2).2
            (((NetworkDataStream.get_u16 (NetworkDataStream.get_MSGID ds).2).1 : Int)
              - bytesReceived) TIMEOUT_NEVER with
        | Res.outOfFuel => Res.outOfFuel
        | Res.throw e (c2, _) =>
          Res.throw e
            { conn := c2,
              msg := { ZERO_MSG with
                        msgid := (NetworkDataStream.get_MSGID ds).1,
                        msglen := (NetworkDataStream.get_u16 (NetworkDataStream.get_MSGID ds).2).1 },
              timedOut := timedOut }
        | Res.ok (moreBytesReceived, _) (c2, ds3) =>
          if bytesReceived + moreBytesReceived
              ≠ ((NetworkDataStream.get_u16 (NetworkDataStream.get_MSGID ds).2).1 : Int) then
            Res.throw Exn.length_mismatch { conn := c2, msg := ZERO_MSG, timedOut := timedOut }
          else
            Res.ok (bytesReceived + moreBytesReceived)
              { conn := c2,
                msg :=
                  { msgid := (NetworkDataStream.get_MSGID ds).1,
                    msglen := (NetworkDataStream.get_u16 (NetworkDataStream.get_MSGID ds).2).1,
                    datalen := (NetworkDataStream.get_u64 ds3).1,
                    port := (NetworkDataStream.get_u16 (NetworkDataStream.get_u64 ds3).2).1,
                    payload :=
                      (NetworkDataStream.read_str
                        (NetworkDataStream.get_u16 (NetworkDataStream.get_u64 ds3).2).2
                        (Int.toNat
                          ((((NetworkDataStream.get_u16 (NetworkDataStream.get_MSGID ds).2).1
                              : Int) - (MESSAGE_BYTE_LEN : Int)) % 2 ^ 16))).1 },
                timedOut := timedOut } := by
  unfold Connection.receive
  rw [h1]

/-- What the header of a message says once its 13 bytes are in the stream. -/
theorem header_reads (ds : StdStream) (hg : ds.good = true) (h : 3 ≤ ds.unread.length) :
    (NetworkDataStream.get_u16 (NetworkDataStream.get_MSGID ds).2).1
        = beVal ((ds.unread.drop 1).take 2)
      ∧ (NetworkDataStream.get_u16 (NetworkDataStream.get_MSGID ds).2).2.good = true
      ∧ (NetworkDataStream.get_u16 (NetworkDataStream.get_MSGID ds).2).2.unread
          = ds.unread.drop 3
      ∧ (NetworkDataStream.get_u16 (NetworkDataStream.get_MSGID ds).2).2.buf = ds.buf
      ∧ (NetworkDataStream.get_MSGID ds).1 = beVal (ds.unread.take 1) := by
  obtain ⟨a1, a2, a3, a4⟩ := StdStream.read_enough ds 1 hg (by omega)
  obtain ⟨b1, b2, b3, b4⟩ := StdStream.read_enough (ds.read 1).2 2 a2
    (by rw [a3, List.length_drop]; omega)
  refine ⟨?_, b2, ?_, ?_, ?_⟩
  · show beVal (padTo 2 (((ds.read 1).2).read 2).1) = _
    rw [b1, a3]
  · show (((ds.read 1).2).read 2).2.unread = _
    rw [b3, a3, List.drop_drop]
  · show (((ds.read 1).2).read 2).2.buf = _
    rw [b4, a4]
  · show beVal (padTo 1 (ds.read 1).1) = _
    rw [a1]

theorem receive_stream_zero_fuel (c : Connection) (d : StdStream) (howMany t : Int) :
    Connection.receive_stream 0 c d howMany t = Res.outOfFuel := rfl

/-- C7. `Connection::receive(Message*, ...)` returns normally either on a
timeout (count 0, flag set, message zeroed, nothing consumed) or with a
message whose `msglen` is the value in bytes 1..2 of the header, is at least 13
and is both the count returned and the number of bytes taken from the
connection. A header that declares `msglen < 13` makes the call throw the
length-mismatch error with the connection exactly as the header read left it
(no further `select` or `recv`, no payload byte taken). -/
theorem receive_frame_length (fuel : Nat) (c : Connection) (timeoutMs : Int) :
    (∀ (n : Int) (r : Received), Connection.receive fuel c timeoutMs = Res.ok n r →
      (n = 0 ∧ r.timedOut = true ∧ r.msg = ZERO_MSG ∧ timeoutMs ≠ TIMEOUT_NEVER
          ∧ pending r.conn.os.incoming = pending c.os.incoming)
      ∨ (n = (r.msg.msglen : Int) ∧ 13 ≤ r.msg.msglen
          ∧ ∃ bs, bs.length = r.msg.msglen
              ∧ pending c.os.incoming = bs ++ pending r.conn.os.incoming
              ∧ beVal ((bs.drop 1).take 2) = r.msg.msglen))
    ∧ (∀ (timedOut : Bool) (c1 : Connection) (ds : StdStream),
        Connection.receive_stream fuel c StdStream.empty 13 timeoutMs
            = Res.ok (13, timedOut) (c1, ds) →
        beVal ((ds.buf.drop 1).take 2) < 13 →
        Connection.receive fuel c timeoutMs
          = Res.throw Exn.length_mismatch { conn := c1, msg := ZERO_MSG, timedOut := timedOut }) := by
  constructor
  · intro n r h
    cases h1 : Connection.receive_stream fuel c StdStream.empty (MESSAGE_BYTE_LEN : Int)
        timeoutMs with
    | outOfFuel => unfold Connection.receive at h; rw [h1] at h; simp at h
    | throw e s => unfold Connection.receive at h; rw [h1] at h; simp at h
    | ok a s =>
      obtain ⟨n1, to1⟩ := a
      obtain ⟨c1, ds⟩ := s
      rw [receive_eq _ _ _ _ _ _ _ h1] at h
      obtain ⟨_, bs1, hd1, hp1, hn1, _, _, _, hcase1⟩ := receive_stream_spec _ _ _ _ _ _ _ _ _ h1
      by_cases hto : (decide (timeoutMs ≠ TIMEOUT_NEVER) && to1) = true
      · rw [if_pos hto] at h
        simp only [Res.ok.injEq] at h
        obtain ⟨hn, hr⟩ := h
        simp only [Bool.and_eq_true, decide_eq_true_eq] at hto
        left
        rcases hcase1 with ⟨hh, _⟩ | ⟨_, _, h3⟩ | ⟨_, _, h3, _, _⟩
        · unfold MESSAGE_BYTE_LEN at hh; omega
        · rw [hto.2] at h3; simp at h3
        · rw [← hr, ← hn]
          refine ⟨rfl, hto.2, rfl, hto.1, ?_⟩
          rw [hp1, h3]; rfl
      · rw [if_neg hto] at h
        by_cases hlen : n1 ≠ (MESSAGE_BYTE_LEN : Int)
        · rw [if_pos hlen] at h; simp at h
        · rw [if_neg hlen] at h
          have hn13 : n1 = 13 := by
            have := not_not.1 hlen; rw [this]; rfl
          have hb1 : bs1.length = 13 := by omega
          have hgood : ds.good = true := by rw [hd1]; rfl
          have hun : ds.unread = bs1 := by rw [hd1]; simp [StdStream.unread, StdStream.empty]
          obtain ⟨hml, hg2, _, _, _⟩ := header_reads ds hgood (by rw [hun]; omega)
          rw [hun] at hml
          cases h2 : Connection.receive_stream fuel c1
              (NetworkDataStream.get_u16 (NetworkDataStream.get_MSGID ds).2).2
              (((NetworkDataStream.get_u16 (NetworkDataStream.get_MSGID ds).2).1 : Int) - n1)
              TIMEOUT_NEVER with
          | outOfFuel => rw [h2] at h; simp at h
          | throw e s => rw [h2] at h; simp at h
          | ok a s =>
            obtain ⟨n2, to2⟩ := a
            obtain ⟨c2, ds3⟩ := s
            rw [h2] at h
            simp only [] at h
            obtain ⟨_, bs2, _, hp2, hn2, _, _, _, _⟩ := receive_stream_spec _ _ _ _ _ _ _ _ _ h2
            by_cases hm : n1 + n2
                ≠ ((NetworkDataStream.get_u16 (NetworkDataStream.get_MSGID ds).2).1 : Int)
            · rw [if_pos hm] at h; simp at h
            · rw [if_neg hm] at h
              have hm' := not_not.1 hm
              simp only [Res.ok.injEq] at h
              obtain ⟨hn, hr⟩ := h
              right
              rw [← hr, ← hn]
              simp only []
              refine ⟨hm', by omega, bs1 ++ bs2, by simp; omega, ?_, ?_⟩
              · rw [hp1, hp2, List.append_assoc]
              · rw [hml, List.drop_append_of_le_length (by omega),
                  List.take_append_of_le_length (by rw [List.length_drop]; omega)]
  · intro timedOut c1 ds h1 hlt
    have h1' : Connection.receive_stream fuel c StdStream.empty (MESSAGE_BYTE_LEN : Int) timeoutMs
        = Res.ok (13, timedOut) (c1, ds) := h1
    obtain ⟨f, rfl⟩ : ∃ f, fuel = f + 1 := by
      cases fuel with
      | zero => rw [receive_stream_zero_fuel] at h1; simp at h1
      | succ f => exact ⟨f, rfl⟩
    obtain ⟨_, bs1, hd1, _, hn1, _, _, _, hcase1⟩ := receive_stream_spec _ _ _ _ _ _ _ _ _ h1
    have hto : timedOut = false := by
      rcases hcase1 with ⟨hh, _⟩ | ⟨_, _, h3⟩ | ⟨_, hh, _⟩
      · omega
      · exact h3
      · omega
    have hb1 : bs1.length = 13 := by omega
    have hgood : ds.good = true := by rw [hd1]; rfl
    have hun : ds.unread = bs1 := by rw [hd1]; simp [StdStream.unread, StdStream.empty]
    have hbuf : ds.buf = bs1 := by rw [hd1]; simp [StdStream.empty]
    obtain ⟨hml, hg2, _, _, _⟩ := header_reads ds hgood (by rw [hun]; omega)
    rw [hun, ← hbuf] at hml
    rw [receive_eq _ _ _ _ _ _ _ h1', hto]
    simp only [Bool.and_false, Bool.false_eq_true, if_false]
    rw [if_neg (by simp [MESSAGE_BYTE_LEN])]
    rw [receive_stream_nonpos f c1 _ _ _ (by rw [hml]; omega) hg2]
    simp only []
    rw [if_pos (by rw [hml]; omega)]

/-! ## Receiving what was sent -/

theorem flatten_eq_nil_of_ne_nil (l : List (List Byte)) (h : ∀ x ∈ l, x ≠ [])
    (hj : l.flatten = []) : l = [] := by
  cases l with
  | nil => rfl
  | cons a r => simp at hj; exact absurd hj.1 (h a (List.mem_cons_self _ _))

theorem receive_loop_done (fuel : Nat) (c : Connection) (data : StdStream) (t total : Int)
    (flag : Bool) :
    Connection.receive_loop (fuel + 1) c data 0 t total flag = Res.ok (total, flag) (c, data) := by
  rw [receive_loop_succ]
  simp

/-- The loop of `receive` on a connection whose next events are the non-empty
pieces `chunks`: with enough fuel it takes exactly the first `howMany` bytes. -/
theorem receive_loop_chunks :
    ∀ (chunks : List (List Byte)) (fuel : Nat) (c : Connection) (data : StdStream)
      (howMany : Nat) (t total : Int) (flag : Bool) (rest : List Event),
      c.os.incoming = chunks.map Event.bytes ++ rest → (∀ ch ∈ chunks, ch ≠ []) →
      data.good = true → howMany ≤ chunks.flatten.length → howMany + 1 ≤ fuel →
      t * 1000 < 2 ^ 31 →
      ∃ (c' : Connection) (chunks' : List (List Byte)),
        Connection.receive_loop fuel c data (howMany : Int) t total flag
          = Res.ok (total + howMany, if howMany = 0 then flag else false)
              (c', { data with buf := data.buf ++ chunks.flatten.take howMany })
        ∧ c'.os.incoming = chunks'.map Event.bytes ++ rest
        ∧ (∀ ch ∈ chunks', ch ≠ [])
        ∧ chunks'.flatten = chunks.flatten.drop howMany
        ∧ c'.socket_ = c.socket_ ∧ c'.os.outgoing = c.os.outgoing ∧ c'.os.wire = c.os.wire := by
  intro chunks
  induction chunks with
  | nil =>
    intro fuel c data howMany t total flag rest hin _ _ hlen hfuel _
    have h0 : howMany = 0 := by simpa using hlen
    subst h0
    obtain ⟨f, rfl⟩ : ∃ f, fuel = f + 1 := ⟨fuel - 1, by omega⟩
    refine ⟨c, [], ?_, hin, by simp, by simp, rfl, rfl, rfl⟩
    simp only [Nat.cast_zero, List.take_zero, List.append_nil, if_true, add_zero]
    exact receive_loop_done _ _ _ _ _ _
  | cons ch tl ih =>
    intro fuel c data howMany t total flag rest hin hne hgood hlen hfuel hv
    obtain ⟨f, rfl⟩ : ∃ f, fuel = f + 1 := ⟨fuel - 1, by omega⟩
    rcases Nat.eq_zero_or_pos howMany with h0 | hpos
    · subst h0
      refine ⟨c, ch :: tl, ?_, hin, hne, by simp, rfl, rfl, rfl⟩
      simp only [Nat.cast_zero, List.take_zero, List.append_nil, if_true, add_zero]
      exact receive_loop_done _ _ _ _ _ _
    · have hch : ch ≠ [] := hne ch (List.mem_cons_self _ _)
      have hchpos : 0 < ch.length := List.length_pos.2 hch
      have hguard : (decide ((howMany : Int) > 0) && data.good) = true := by
        simp [hpos, hgood]
      have hin' : c.os.incoming = Event.bytes ch :: (tl.map Event.bytes ++ rest) := by
        rw [hin]; rfl
      have hrt := recv_timeout_bytes c.os howMany t ch _ hpos hv hin'
      have htl : (List.take howMany ch).length = min howMany ch.length := List.length_take _ _
      have hn0 : ¬ ((((ch.take howMany).length : Nat) : Int) = SOCKET_ERROR) := by
        unfold SOCKET_ERROR; omega
      have hnpos : (((ch.take howMany).length : Nat) : Int) > 0 := by
        rw [htl]; omega
      obtain ⟨hw1, hw2, hw3⟩ := StdStream.write_good data (ch.take howMany) hgood
      rw [receive_loop_succ, if_pos hguard, Int.toNat_ofNat, hrt]
      simp only []
      rw [if_neg hn0, if_pos hnpos, Int.toNat_ofNat, List.take_length, if_neg (by rw [hw3]; simp)]
      by_cases hle : ch.length ≤ howMany
      · -- the whole piece is taken
        have htake : ch.take howMany = ch := List.take_of_length_le hle
        have hdrop : ch.drop howMany = [] := List.drop_eq_nil_of_le hle
        rw [if_pos hdrop, htake]
        rw [htake] at hw1 hw2
        have hsub : (howMany : Int) - (ch.length : Int) = ((howMany - ch.length : Nat) : Int) := by
          omega
        rw [hsub]
        obtain ⟨c', chunks', hres, hin2, hne2, hfl, hs, ho, hwi⟩ :=
          ih f { c with os := { c.os with
                  incoming := tl.map Event.bytes ++ rest,
                  trace := c.os.trace ++ [Op.select 1, Op.recv howMany (ch.length : Int)] } }
            (data.write ch) (howMany - ch.length) t (total + (ch.length : Int)) false rest rfl
            (fun x hx => hne x (List.mem_cons_of_mem _ hx)) hw2
            (by simp only [List.flatten_cons, List.length_append] at hlen; omega) (by omega)
            hv
        refine ⟨c', chunks', ?_, hin2, hne2, ?_, hs, ho, hwi⟩
        · rw [hres]
          have hif : (if howMany = 0 then flag else false) = false := by
            rw [if_neg (by omega)]
          have hif2 : (if howMany - ch.length = 0 then false else false) = false := by simp
          rw [hif, hif2, hw1]
          simp only [Res.ok.injEq, Prod.mk.injEq, and_true, true_and]
          refine ⟨by push_cast [Nat.cast_sub hle]; ring, ?_⟩
          simp only [List.flatten_cons, List.take_append_eq_append_take, htake, List.append_assoc]
        · rw [hfl]
          simp only [List.flatten_cons, List.drop_append_eq_append_drop, hdrop, List.nil_append]
      · -- only the start of the piece is taken
        have hlt : howMany < ch.length := by omega
        have hdrop : ch.drop howMany ≠ [] := by
          intro h
          have := congrArg List.length h
          simp at this; omega
        have hlen2 : (ch.take howMany).length = howMany := by rw [htl]; omega
        rw [if_neg hdrop, hlen2, sub_self]
        obtain ⟨f', rfl⟩ : ∃ f', f = f' + 1 := ⟨f - 1, by omega⟩
        refine ⟨{ c with os := { c.os with
                    incoming := Event.bytes (ch.drop howMany) :: (tl.map Event.bytes ++ rest),
                    trace := c.os.trace ++ [Op.select 1, Op.recv howMany (howMany : Int)] } },
          ch.drop howMany :: tl, ?_, rfl, ?_, ?_, rfl, rfl, rfl⟩
        · rw [receive_loop_done, hw1]
          have hif : (if howMany = 0 then flag else false) = false := by
            rw [if_neg (by omega)]
          rw [hif]
          simp only [List.flatten_cons, List.take_append_of_le_length (Nat.le_of_lt hlt)]
        · intro x hx
          rcases List.mem_cons.1 hx with h | h
          · rw [h]; exact hdrop
          · exact hne x (List.mem_cons_of_mem _ h)
        · simp only [List.flatten_cons, List.drop_append_of_le_length (Nat.le_of_lt hlt)]

theorem receive_stream_chunks (chunks : List (List Byte)) (fuel : Nat) (c : Connection)
    (data : StdStream) (howMany : Nat) (t : Int) (rest : List Event)
    (hin : c.os.incoming = chunks.map Event.bytes ++ rest) (hne : ∀ ch ∈ chunks, ch ≠ [])
    (hgood : data.good = true) (hlen : howMany ≤ chunks.flatten.length)
    (hfuel : howMany + 1 ≤ fuel) (hv : t * 1000 < 2 ^ 31) :
    ∃ (c' : Connection) (chunks' : List (List Byte)),
      Connection.receive_stream fuel c data (howMany : Int) t
        = Res.ok ((howMany : Int), false)
            (c', { data with buf := data.buf ++ chunks.flatten.take howMany })
      ∧ c'.os.incoming = chunks'.map Event.bytes ++ rest
      ∧ (∀ ch ∈ chunks', ch ≠ [])
      ∧ chunks'.flatten = chunks.flatten.drop howMany
      ∧ c'.socket_ = c.socket_ ∧ c'.os.outgoing = c.os.outgoing ∧ c'.os.wire = c.os.wire := by
  obtain ⟨c', chunks', hres, rest'⟩ :=
    receive_loop_chunks chunks fuel c data howMany t 0 false rest hin hne hgood hlen hfuel hv
  refine ⟨c', chunks', ?_, rest'⟩
  unfold Connection.receive_stream
  rw [hres]
  have hg : ({ data with buf := data.buf ++ chunks.flatten.take howMany } : StdStream).good
      = true := hgood
  simp [hg]

/-- Decoding: a connection on which the 13 header bytes `b0 .. b12` and the
payload `p` arrive in any non-empty pieces, the header declaring
`13 + p.length`, yields that message and takes exactly those bytes. -/
theorem receive_decodes (fuel : Nat) (c : Connection) (t : Int) (chunks : List (List Byte))
    (rest : List Event) (b0 b1 b2 b3 b4 b5 b6 b7 b8 b9 b10 b11 b12 : Byte) (p : List Byte)
    (hfl : chunks.flatten = [b0, b1, b2, b3, b4, b5, b6, b7, b8, b9, b10, b11, b12] ++ p)
    (hml : beVal [b1, b2] = 13 + p.length)
    (hne : ∀ ch ∈ chunks, ch ≠ [])
    (hin : c.os.incoming = chunks.map Event.bytes ++ rest)
    (hfuel : p.length + 15 ≤ fuel) (hv : t * 1000 < 2 ^ 31) :
    ∃ r, Connection.receive fuel c t = Res.ok ((13 + p.length : Nat) : Int) r
      ∧ r.msg = { msgid := beVal [b0], msglen := beVal [b1, b2],
                  datalen := beVal [b3, b4, b5, b6, b7, b8, b9, b10],
                  port := beVal [b11, b12], payload := p }
      ∧ r.timedOut = false ∧ r.conn.os.incoming = rest
      ∧ r.conn.socket_ = c.socket_ ∧ r.conn.os.outgoing = c.os.outgoing
      ∧ r.conn.os.wire = c.os.wire := by
  have hflen : chunks.flatten.length = 13 + p.length := by rw [hfl]; simp; omega
  -- the header
  obtain ⟨c1, chunks1, h1, hin1, hne1, hfl1, hs1, ho1, hw1⟩ :=
    receive_stream_chunks chunks fuel c StdStream.empty 13 t rest hin hne rfl (by omega)
      (by omega) hv
  rw [hfl] at h1 hfl1
  have hds : ({ StdStream.empty with
      buf := StdStream.empty.buf
        ++ List.take 13 ([b0, b1, b2, b3, b4, b5, b6, b7, b8, b9, b10, b11, b12] ++ p) }
        : StdStream)
      = { buf := [b0, b1, b2, b3, b4, b5, b6, b7, b8, b9, b10, b11, b12], gpos := 0,
          eofbit := false, failbit := false, reads := [] } := rfl
  rw [hds] at h1
  have hfl1' : chunks1.flatten = p := by rw [hfl1]; rfl
  have h1' : Connection.receive_stream fuel c StdStream.empty (MESSAGE_BYTE_LEN : Int) t
      = Res.ok (((13 : Nat) : Int), false)
          (c1, { buf := [b0, b1, b2, b3, b4, b5, b6, b7, b8, b9, b10, b11, b12], gpos := 0,
                 eofbit := false, failbit := false, reads := [] }) := h1
  have hg2 : NetworkDataStream.get_u16 (NetworkDataStream.get_MSGID
      { buf := [b0, b1, b2, b3, b4, b5, b6, b7, b8, b9, b10, b11, b12], gpos := 0,
        eofbit := false, failbit := false, reads := [] }).2
      = (beVal [b1, b2],
          { buf := [b0, b1, b2, b3, b4, b5, b6, b7, b8, b9, b10, b11, b12], gpos := 3,
            eofbit := false, failbit := false, reads := [1, 2] }) := rfl
  have hg1 : (NetworkDataStream.get_MSGID
      { buf := [b0, b1, b2, b3, b4, b5, b6, b7, b8, b9, b10, b11, b12], gpos := 0,
        eofbit := false, failbit := false, reads := [] }).1 = beVal [b0] := rfl
  -- the payload
  obtain ⟨c2, chunks2, h2, hin2, hne2, hfl2, hs2, ho2, hw2⟩ :=
    receive_stream_chunks chunks1 fuel c1
      { buf := [b0, b1, b2, b3, b4, b5, b6, b7, b8, b9, b10, b11, b12], gpos := 3,
        eofbit := false, failbit := false, reads := [1, 2] }
      p.length TIMEOUT_NEVER rest hin1 hne1 rfl (by rw [hfl1']) (by omega) (by decide)
  have hc2 : chunks2 = [] :=
    flatten_eq_nil_of_ne_nil chunks2 hne2 (by rw [hfl2, hfl1']; simp)
  rw [hc2] at hin2
  rw [hfl1', List.take_length] at h2
  rw [receive_eq _ _ _ _ _ _ _ h1', hg1, hg2]
  simp only [Bool.and_false, Bool.false_eq_true, if_false]
  rw [if_neg (by simp [MESSAGE_BYTE_LEN])]
  have hmore : ((beVal [b1, b2] : Nat) : Int) - ((13 : Nat) : Int) = (p.length : Int) := by
    rw [hml]; push_cast; ring
  rw [hmore, h2]
  simp only []
  rw [if_neg (by rw [hml]; push_cast; simp)]
  have hg3 : NetworkDataStream.get_u16 (NetworkDataStream.get_u64
      { buf := [b0, b1, b2, b3, b4, b5, b6, b7, b8, b9, b10, b11, b12] ++ p, gpos := 3,
        eofbit := false, failbit := false, reads := [1, 2] }).2
      = (beVal [b11, b12],
          { buf := [b0, b1, b2, b3, b4, b5, b6, b7, b8, b9, b10, b11, b12] ++ p, gpos := 13,
            eofbit := false, failbit := false, reads := [1, 2, 8, 2] }) := rfl
  have hg4 : (NetworkDataStream.get_u64
      { buf := [b0, b1, b2, b3, b4, b5, b6, b7, b8, b9, b10, b11, b12] ++ p, gpos := 3,
        eofbit := false, failbit := false, reads := [1, 2] }).1
      = beVal [b3, b4, b5, b6, b7, b8, b9, b10] := rfl
  have hL : Int.toNat ((((beVal [b1, b2] : Nat) : Int) - (MESSAGE_BYTE_LEN : Int)) % 2 ^ 16)
      = p.length := by
    have hb : beVal [b1, b2] < 65536 := by
      simp only [beVal, List.foldl]; omega
    unfold MESSAGE_BYTE_LEN
    omega
  have hstr : (NetworkDataStream.read_str
      { buf := [b0, b1, b2, b3, b4, b5, b6, b7, b8, b9, b10, b11, b12] ++ p, gpos := 13,
        eofbit := false, failbit := false, reads := [1, 2, 8, 2] } p.length).1 = p := by
    unfold NetworkDataStream.read_str
    split
    · rename_i h0
      exact (List.length_eq_zero.1 h0).symm
    · show padTo p.length (StdStream.read _ p.length).1 = p
      rw [StdStream.read_fst
        { buf := [b0, b1, b2, b3, b4, b5, b6, b7, b8, b9, b10, b11, b12] ++ p, gpos := 13,
          eofbit := false, failbit := false, reads := [1, 2, 8, 2] } p.length rfl]
      have hu : (StdStream.unread
          { buf := [b0, b1, b2, b3, b4, b5, b6, b7, b8, b9, b10, b11, b12] ++ p, gpos := 13,
            eofbit := false, failbit := false, reads := [1, 2, 8, 2] }) = p := rfl
      rw [hu, List.take_length, padTo_of_le _ _ (le_refl _)]
  refine ⟨⟨c2, { msgid := beVal [b0], msglen := beVal [b1, b2],
                 datalen := beVal [b3, b4, b5, b6, b7, b8, b9, b10],
                 port := beVal [b11, b12], payload := p }, false⟩,
    ?_, rfl, rfl, hin2, hs2.trans hs1, ho2.trans ho1, hw2.trans hw1⟩
  rw [hg4, hg3, hL, hstr]
  push_cast
  rfl

theorem beVal_one (v : Nat) (h : v < 2 ^ 8) : beVal [byteOf v] = v := by
  simp only [beVal, byteOf, List.foldl]
  omega

/-- C1. Round trip. For every message `m` with an 8-bit `msgid`, a 64-bit
`datalen`, a 16-bit `port`/`ecode`, a payload of at most 1024 bytes and
`msglen = 13 + payload length`: `Connection::send(const Message&)` on a socket
that takes every chunk whole returns 13 + length and puts a byte string `w` on
the wire, and on any connection on which exactly `w` arrives, cut into
non-empty pieces in any way and followed by anything, `Connection::receive
(Message*)` (called with no timeout or with one whose timeval `select` takes)
returns 13 + length with a message equal to `m` in every field, no timeout,
and exactly the bytes of `w` taken from the connection. -/
theorem send_receive_round_trip (fuel : Nat) (c : Connection) (m : Message)
    (hid : m.msgid < 2 ^ 8) (hdl : m.datalen < 2 ^ 64) (hport : m.port < 2 ^ 16)
    (hL : m.payload.length ≤ 1024) (hlen : m.msglen = 13 + m.payload.length)
    (hfull : ∀ e ∈ c.os.outgoing, e.acceptsChunk = true)
    (hfuel : m.payload.length + c.os.outgoing.length + 16 ≤ fuel) :
    ∃ (c' : Connection) (w : List Byte),
      Connection.send fuel c m = Res.ok ((13 + m.payload.length : Nat) : Int) c'
      ∧ c'.os.wire = c.os.wire ++ w
      ∧ ∀ (fuel' : Nat) (peer : Connection) (timeoutMs : Int) (chunks : List (List Byte))
          (rest : List Event),
          (∀ ch ∈ chunks, ch ≠ []) → chunks.flatten = w →
          peer.os.incoming = chunks.map Event.bytes ++ rest →
          m.payload.length + 15 ≤ fuel' →
          timeoutMs * 1000 < 2 ^ 31 →
          ∃ r, Connection.receive fuel' peer timeoutMs
                = Res.ok ((13 + m.payload.length : Nat) : Int) r
            ∧ r.msg = m ∧ r.timedOut = false ∧ r.conn.os.incoming = rest := by
  have hun := encode_unread m
  have hmlen := length_of_le m (by unfold MAX_PAYLOAD_LEN; exact hL)
  have hlenu : (encode m).unread.length = 13 + m.payload.length := by
    rw [hun]; simp; omega
  obtain ⟨c', d', hres, _, _, _, _, _, _, hwire⟩ :=
    send_stream_wrap fuel c (encode m) (encode_good m)
      (noFail_of_acceptsChunk _ hfull) (by rw [hlenu]; omega)
  refine ⟨c', (encode m).unread, ?_, hwire hfull, ?_⟩
  · unfold Connection.send
    rw [if_neg (by unfold MAX_PAYLOAD_LEN; omega), hres, hlenu]
    simp only []
    rw [wrapInt32_of_range (by omega) (by omega)]
  · intro fuel' peer timeoutMs chunks rest hne hfl hin hfuel' hfit
    rw [hun] at hfl
    obtain ⟨r, hr, hmsg, hto, hrest, _⟩ :=
      receive_decodes fuel' peer timeoutMs chunks rest _ _ _ _ _ _ _ _ _ _ _ _ _ _ hfl
        (by rw [hmlen]; exact beVal_two _ (by omega)) hne hin hfuel' hfit
    refine ⟨r, hr, ?_, hto, hrest⟩
    rw [hmsg, beVal_one _ hid, beVal_two _ (by rw [hmlen]; omega), beVal_eight _ hdl,
      beVal_two _ hport, hmlen, ← hlen]

/-- Witness for C1: a GET message with a three-byte payload. -/
theorem send_receive_round_trip_witness :
    ∃ (c' : Connection) (w : List Byte),
      Connection.send 20
          { socket_ := 3, os := { incoming := [], outgoing := [], wire := [], trace := [] } }
          { msgid := 2, msglen := 16, datalen := 1, port := 258, payload := [7, 8, 9] }
        = Res.ok ((13 + 3 : Nat) : Int) c'
      ∧ c'.os.wire = [] ++ w
      ∧ ∀ (fuel' : Nat) (peer : Connection) (timeoutMs : Int) (chunks : List (List Byte))
          (rest : List Event),
          (∀ ch ∈ chunks, ch ≠ []) → chunks.flatten = w →
          peer.os.incoming = chunks.map Event.bytes ++ rest →
          3 + 15 ≤ fuel' →
          timeoutMs * 1000 < 2 ^ 31 →
          ∃ r, Connection.receive fuel' peer timeoutMs = Res.ok ((13 + 3 : Nat) : Int) r
            ∧ r.msg = { msgid := 2, msglen := 16, datalen := 1, port := 258,
                        payload := [7, 8, 9] }
            ∧ r.timedOut = false ∧ r.conn.os.incoming = rest :=
  send_receive_round_trip 20
    { socket_ := 3, os := { incoming := [], outgoing := [], wire := [], trace := [] } }
    { msgid := 2, msglen := 16, datalen := 1, port := 258, payload := [7, 8, 9] }
    (by decide) (by decide) (by decide) (by decide) (by decide) (by simp) (by decide)

/-- Witness for C7: a well-framed QUIT message is returned with count 13, and a
header that declares 3 bytes is refused with nothing more read. -/
theorem receive_frame_length_witness :
    (((13 : Int) = 0 ∧ false = true
        ∧ ({ msgid := 4, msglen := 13, datalen := 0, port := 0, payload := [] } : Message)
            = ZERO_MSG
        ∧ (0 : Int) ≠ TIMEOUT_NEVER
        ∧ pending [Event.bytes [9]] =
            pending [Event.bytes [4, 0, 13, 0, 0, 0, 0, 0, 0, 0, 0, 0, 0, 9]])
      ∨ ((13 : Int) = ((13 : Nat) : Int) ∧ 13 ≤ 13
          ∧ ∃ bs : List Byte, bs.length = 13
              ∧ pending [Event.bytes [4, 0, 13, 0, 0, 0, 0, 0, 0, 0, 0, 0, 0, 9]]
                  = bs ++ pending [Event.bytes [9]]
              ∧ beVal ((bs.drop 1).take 2) = 13))
    ∧ Connection.receive 5
        { socket_ := 3,
          os := { incoming := [Event.bytes [4, 0, 3, 0, 0, 0, 0, 0, 0, 0, 0, 0, 0, 9]],
                  outgoing := [], wire := [], trace := [] } } 0
      = Res.throw Exn.length_mismatch
          { conn := { socket_ := 3,
                      os := { incoming := [Event.bytes [9]], outgoing := [], wire := [],
                              trace := [Op.select 1, Op.recv 13 13] } },
            msg := ZERO_MSG, timedOut := false } :=
  ⟨(receive_frame_length 5
      { socket_ := 3,
        os := { incoming := [Event.bytes [4, 0, 13, 0, 0, 0, 0, 0, 0, 0, 0, 0, 0, 9]],
                outgoing := [], wire := [], trace := [] } } 0).1 13
      { conn := { socket_ := 3,
                  os := { incoming := [Event.bytes [9]], outgoing := [], wire := [],
                          trace := [Op.select 1, Op.recv 13 13] } },
        msg := { msgid := 4, msglen := 13, datalen := 0, port := 0, payload := [] },
        timedOut := false } (by decide),
   (receive_frame_length 5
      { socket_ := 3,
        os := { incoming := [Event.bytes [4, 0, 3, 0, 0, 0, 0, 0, 0, 0, 0, 0, 0, 9]],
                outgoing := [], wire := [], trace := [] } } 0).2 false
      { socket_ := 3,
        os := { incoming := [Event.bytes [9]], outgoing := [], wire := [],
                trace := [Op.select 1, Op.recv 13 13] } }
      { buf := [4, 0, 3, 0, 0, 0, 0, 0, 0, 0, 0, 0, 0], gpos := 0, eofbit := false,
        failbit := false, reads := [] } (by decide) (by decide)⟩

/-! ## Shutdown -/

theorem drain_succ (fuel : Nat) (os : Sock) (bytes : Int) :
    Connection.drain (fuel + 1) os bytes =
      match recv_timeout os 1024 SHUTDOWN_TIMEOUT_MS with
      | Res.outOfFuel => Res.outOfFuel
      | Res.throw e os1 =>
        if e.isConnectionException then Res.ok bytes os1 else Res.throw e os1
      | Res.ok (n, _, _) os1 =>
        if n ≠ SOCKET_ERROR && n > 0 then Connection.drain fuel os1 n else Res.ok n os1 := rfl

/-- The drain loop of `shutdown` ends on every finite script of events, with
`bytes ≥ 0`, and issues only `select` and `recv` calls. -/
theorem drain_ok :
    ∀ (fuel : Nat) (os : Sock) (bytes : Int),
      (pending os.incoming).length + 1 ≤ fuel → 0 ≤ bytes →
      ∃ (b : Int) (os' : Sock), Connection.drain fuel os bytes = Res.ok b os'
        ∧ 0 ≤ b ∧ os'.outgoing = os.outgoing ∧ os'.wire = os.wire
        ∧ ∃ ops, os'.trace = os.trace ++ ops ∧ ∀ op ∈ ops, op.isReceive = true := by
  intro fuel
  induction fuel with
  | zero => intro os bytes h; omega
  | succ f ih =>
    intro os bytes hfuel hb
    rw [drain_succ]
    rcases recv_timeout_spec os 1024 SHUTDOWN_TIMEOUT_MS with
      ⟨buf, to1, s', hrt, _, hpend, _, hout, hwire, ops, hops, hall⟩
      | ⟨e, s', hrt, he, hout, hwire, ops, hops, hall⟩
    · rw [hrt]
      simp only []
      by_cases hn : (buf.length : Int) > 0
      · have hcond : (decide ((buf.length : Int) ≠ SOCKET_ERROR) && decide ((buf.length : Int) > 0))
            = true := by
          simp [SOCKET_ERROR, hn]
        rw [if_pos hcond]
        have hlen : (pending os.incoming).length = buf.length + (pending s'.incoming).length := by
          rw [hpend, List.length_append]
        obtain ⟨b, os', hres, hb', ho, hw, ops2, hops2, hall2⟩ :=
          ih s' (buf.length : Int) (by omega) (by omega)
        refine ⟨b, os', hres, hb', by rw [ho, hout], by rw [hw, hwire], ops ++ ops2,
          by rw [hops2, hops, List.append_assoc], ?_⟩
        intro op hop
        rcases List.mem_append.1 hop with h | h
        · exact hall op h
        · exact hall2 op h
      · have hcond : ¬ ((decide ((buf.length : Int) ≠ SOCKET_ERROR)
            && decide ((buf.length : Int) > 0)) = true) := by
          simp [hn]
        rw [if_neg hcond]
        exact ⟨_, s', rfl, by omega, hout, hwire, ops, hops, hall⟩
    · rw [hrt]
      simp only [he, if_true]
      exact ⟨bytes, s', rfl, hb, hout, hwire, ops, hops, hall⟩

theorem countP_isClose_of_isReceive (ops : List Op) (h : ∀ op ∈ ops, op.isReceive = true) :
    ops.countP Op.isClose = 0 := by
  rw [List.countP_eq_zero]
  intro op hop
  have := h op hop
  cases op <;> simp [Op.isReceive, Op.isClose] at this ⊢

/-- C10. On an open connection whose peer sends finitely much, `shutdown()`
returns normally, however the drain ends (a read of zero bytes, the drain
timeout, a `select` or `recv` error): the connection is marked closed
(`socket_ = INVALID_SOCKET`) and the system calls it issued are one
`::shutdown`, then only `select`/`recv` calls, then one `closesocket` of the
handle, so the handle is closed exactly once. On the closed connection every
further `shutdown()`, and the destructor, returns normally and leaves the
whole state, the log of system calls included, unchanged. -/
theorem shutdown_idempotent (fuel : Nat) (c : Connection)
    (hopen : c.socket_ ≠ INVALID_SOCKET)
    (hfuel : (pending c.os.incoming).length + 1 ≤ fuel) :
    ∃ (c' : Connection) (ops : List Op), Connection.shutdown fuel c = Res.ok () c'
      ∧ c'.socket_ = INVALID_SOCKET
      ∧ c'.os.trace = c.os.trace ++ ([Op.shutdown c.socket_] ++ ops ++ [Op.close c.socket_])
      ∧ (∀ op ∈ ops, op.isReceive = true)
      ∧ ([Op.shutdown c.socket_] ++ ops ++ [Op.close c.socket_]).countP Op.isClose = 1
      ∧ c'.os.wire = c.os.wire ∧ c'.os.outgoing = c.os.outgoing
      ∧ (∀ fuel', Connection.shutdown fuel' c' = Res.ok () c')
      ∧ (∀ fuel', Connection.destroy fuel' c' = Res.ok () c') := by
  obtain ⟨b, os', hres, hb, ho, hw, ops, hops, hall⟩ :=
    drain_ok fuel (c.os.shutdownSend c.socket_) 0 hfuel (le_refl 0)
  have hne : ¬ (b = SOCKET_ERROR) := by unfold SOCKET_ERROR; omega
  refine ⟨{ socket_ := INVALID_SOCKET, os := os'.close c.socket_ }, ops, ?_, rfl, ?_, hall, ?_,
    hw, ho, ?_, ?_⟩
  · unfold Connection.shutdown
    rw [if_neg hopen, hres]
    simp only []
    rw [if_neg hne]
  · show os'.trace ++ [Op.close c.socket_] = _
    rw [hops]
    simp [Sock.shutdownSend]
  · rw [List.countP_append, List.countP_append, countP_isClose_of_isReceive ops hall]
    rfl
  · intro fuel'
    unfold Connection.shutdown
    rw [if_pos rfl]
  · intro fuel'
    unfold Connection.destroy
    rw [if_neg (by simp)]

/-- Witness for C10: a peer that sends two more bytes and then falls silent. -/
theorem shutdown_idempotent_witness :
    ∃ (c' : Connection) (ops : List Op),
      Connection.shutdown 5
          { socket_ := 3,
            os := { incoming := [Event.bytes [1, 2], Event.quiet], outgoing := [], wire := [],
                    trace := [] } }
        = Res.ok () c'
      ∧ c'.socket_ = INVALID_SOCKET
      ∧ c'.os.trace = [] ++ ([Op.shutdown 3] ++ ops ++ [Op.close 3])
      ∧ (∀ op ∈ ops, op.isReceive = true)
      ∧ ([Op.shutdown 3] ++ ops ++ [Op.close 3]).countP Op.isClose = 1
      ∧ c'.os.wire = [] ∧ c'.os.outgoing = []
      ∧ (∀ fuel', Connection.shutdown fuel' c' = Res.ok () c')
      ∧ (∀ fuel', Connection.destroy fuel' c' = Res.ok () c') :=
  shutdown_idempotent 5
    { socket_ := 3,
      os := { incoming := [Event.bytes [1, 2], Event.quiet], outgoing := [], wire := [],
              trace := [] } }
    (by decide) (by decide)

/-- The drain loop of `shutdown` never lets an exception out and never ends
with a negative `bytes`: the exceptions of `recv_timeout` are all caught. -/
theorem drain_no_throw :
    ∀ (fuel : Nat) (os : Sock) (bytes : Int), 0 ≤ bytes →
      Connection.drain fuel os bytes = Res.outOfFuel
        ∨ ∃ (b : Int) (os' : Sock), Connection.drain fuel os bytes = Res.ok b os' ∧ 0 ≤ b := by
  intro fuel
  induction fuel with
  | zero => intro os bytes _; exact Or.inl rfl
  | succ f ih =>
    intro os bytes hb
    rw [drain_succ]
    rcases recv_timeout_spec os 1024 SHUTDOWN_TIMEOUT_MS with
      ⟨buf, to1, s', hrt, _⟩ | ⟨e, s', hrt, he, _⟩
    · rw [hrt]
      simp only []
      by_cases hn : (buf.length : Int) > 0
      · have hcond : (decide ((buf.length : Int) ≠ SOCKET_ERROR) && decide ((buf.length : Int) > 0))
            = true := by
          simp [SOCKET_ERROR, hn]
        rw [if_pos hcond]
        exact ih s' _ (by omega)
      · have hcond : ¬ ((decide ((buf.length : Int) ≠ SOCKET_ERROR)
            && decide ((buf.length : Int) > 0)) = true) := by
          simp [hn]
        rw [if_neg hcond]
        exact Or.inr ⟨_, s', rfl, by omega⟩
    · rw [hrt]
      simp only [he, if_true]
      exact Or.inr ⟨bytes, s', rfl, hb⟩

/-- C11 (the code at the failing input). The first `recv` of the drain fails:
`recv_timeout` throws, `shutdown()` swallows the exception, closes the socket
and returns normally. More generally no run of `shutdown()` ends with an
exception: the test `bytes == SOCKET_ERROR` after the drain is never true. -/
theorem shutdown_swallows_receive_error :
    Connection.shutdown 5
        { socket_ := 3,
          os := { incoming := [Event.recvFail], outgoing := [], wire := [], trace := [] } }
      = Res.ok ()
          { socket_ := INVALID_SOCKET,
            os := { incoming := [], outgoing := [], wire := [],
                    trace := [Op.shutdown 3, Op.select 1, Op.recv 1024 (-1), Op.close 3] } }
    ∧ ∀ (fuel : Nat) (c : Connection) (e : Exn) (s : Connection),
        Connection.shutdown fuel c ≠ Res.throw e s := by
  refine ⟨by decide, ?_⟩
  intro fuel c e s h
  unfold Connection.shutdown at h
  split at h
  · simp at h
  · rcases drain_no_throw fuel (c.os.shutdownSend c.socket_) 0 (le_refl 0) with hd | ⟨b, os', hd, hb⟩
    · rw [hd] at h; simp at h
    · rw [hd] at h
      simp only [] at h
      rw [if_neg (by unfold SOCKET_ERROR; omega)] at h
      simp at h

/-- Log entries of a single-shot run after a prefix: no `onCreate`, and
`onConnection` at most once, followed only by the close of the listening
socket and the return, or by the exception the callback threw. -/
theorem singleShot_lift (ws : Int) (pre0 added : List WelcomeOp) (outcome : WelcomeEnd)
    (h1 : pre0.countP WelcomeOp.isOnCreate = 0) (h2 : pre0.countP WelcomeOp.isOnConnection = 0)
    (h : added.countP WelcomeOp.isOnCreate = 0 ∧
      (added.countP WelcomeOp.isOnConnection = 0 ∨
        ∃ (pre : List WelcomeOp) (fd : Int), pre.countP WelcomeOp.isOnConnection = 0 ∧
          ((added = pre ++ [WelcomeOp.onConnection fd, WelcomeOp.close ws]
              ∧ outcome = WelcomeEnd.returned)
            ∨ (added = pre ++ [WelcomeOp.onConnection fd] ∧ ∃ e, outcome = WelcomeEnd.threw e)))) :
    (pre0 ++ added).countP WelcomeOp.isOnCreate = 0 ∧
      ((pre0 ++ added).countP WelcomeOp.isOnConnection = 0 ∨
        ∃ (pre : List WelcomeOp) (fd : Int), pre.countP WelcomeOp.isOnConnection = 0 ∧
          ((pre0 ++ added = pre ++ [WelcomeOp.onConnection fd, WelcomeOp.close ws]
              ∧ outcome = WelcomeEnd.returned)
            ∨ (pre0 ++ added = pre ++ [WelcomeOp.onConnection fd]
              ∧ ∃ e, outcome = WelcomeEnd.threw e))) := by
  obtain ⟨ha, hb⟩ := h
  refine ⟨by rw [List.countP_append, h1, ha], ?_⟩
  rcases hb with hb | ⟨pre, fd, hp, hb⟩
  · left; rw [List.countP_append, h2, hb]
  · right
    refine ⟨pre0 ++ pre, fd, by rw [List.countP_append, h2, hp], ?_⟩
    rcases hb with ⟨hb1, hb2⟩ | ⟨hb1, hb2⟩
    · left; exact ⟨by rw [hb1, List.append_assoc], hb2⟩
    · right; exact ⟨by rw [hb1, List.append_assoc], hb2⟩

theorem welcome_peer_singleShot {U : Type} (cb : Callbacks U) (ws : Int) (hostName : String)
    (srcPort : Nat) (acceptSocket : Int) (peer : PeerInfo) (os : Sock) (u : U)
    (log : List WelcomeOp) (k : U → List WelcomeOp → WelcomeRun U)
    (hk : ∀ (u : U) (log : List WelcomeOp), ∃ added, (k u log).log = log ++ added ∧
      added.countP WelcomeOp.isOnCreate = 0 ∧
      (added.countP WelcomeOp.isOnConnection = 0 ∨
        ∃ (pre : List WelcomeOp) (fd : Int), pre.countP WelcomeOp.isOnConnection = 0 ∧
          ((added = pre ++ [WelcomeOp.onConnection fd, WelcomeOp.close ws]
              ∧ (k u log).outcome = WelcomeEnd.returned)
            ∨ (added = pre ++ [WelcomeOp.onConnection fd]
              ∧ ∃ e, (k u log).outcome = WelcomeEnd.threw e)))) :
    ∃ added,
      (welcome_peer cb true ws hostName srcPort acceptSocket peer os u log k).log = log ++ added ∧
      added.countP WelcomeOp.isOnCreate = 0 ∧
      (added.countP WelcomeOp.isOnConnection = 0 ∨
        ∃ (pre : List WelcomeOp) (fd : Int), pre.countP WelcomeOp.isOnConnection = 0 ∧
          ((added = pre ++ [WelcomeOp.onConnection fd, WelcomeOp.close ws]
              ∧ (welcome_peer cb true ws hostName srcPort acceptSocket peer os u log k).outcome
                  = WelcomeEnd.returned)
            ∨ (added = pre ++ [WelcomeOp.onConnection fd]
              ∧ ∃ e, (welcome_peer cb true ws hostName srcPort acceptSocket peer os u log k).outcome
                  = WelcomeEnd.threw e))) := by
  unfold welcome_peer
  split
  · -- getpeername fails
    split
    · exact ⟨_, rfl, rfl, Or.inl rfl⟩
    · rename_i b u1 _
      obtain ⟨added, hl, hp⟩ := hk u1
        (log ++ [WelcomeOp.close acceptSocket, WelcomeOp.onAcceptFailure Exn.getpeername_failed])
      refine ⟨[WelcomeOp.close acceptSocket, WelcomeOp.onAcceptFailure Exn.getpeername_failed]
        ++ added, by rw [hl, List.append_assoc], ?_⟩
      exact singleShot_lift ws _ added _ rfl rfl hp
  · split
    · split
      · rename_i e _
        exact ⟨[WelcomeOp.onConnection acceptSocket], rfl, rfl,
          Or.inr ⟨[], acceptSocket, rfl, Or.inr ⟨rfl, e, rfl⟩⟩⟩
      · exact ⟨[WelcomeOp.onConnection acceptSocket, WelcomeOp.close ws], rfl, rfl,
          Or.inr ⟨[], acceptSocket, rfl, Or.inl ⟨rfl, rfl⟩⟩⟩
    · exact ⟨_, rfl, rfl, Or.inl rfl⟩

theorem welcome_loop_singleShot {U : Type} (cb : Callbacks U) (timeoutMs ws : Int)
    (hostName : String) (srcPort : Nat) :
    ∀ (script : List (Int × ListenEvent)) (u : U) (log : List WelcomeOp),
      ∃ added,
        (welcome_loop cb true timeoutMs ws hostName srcPort script u log).log = log ++ added ∧
        added.countP WelcomeOp.isOnCreate = 0 ∧
        (added.countP WelcomeOp.isOnConnection = 0 ∨
          ∃ (pre : List WelcomeOp) (fd : Int), pre.countP WelcomeOp.isOnConnection = 0 ∧
            ((added = pre ++ [WelcomeOp.onConnection fd, WelcomeOp.close ws]
                ∧ (welcome_loop cb true timeoutMs ws hostName srcPort script u log).outcome
                    = WelcomeEnd.returned)
              ∨ (added = pre ++ [WelcomeOp.onConnection fd]
                ∧ ∃ e, (welcome_loop cb true timeoutMs ws hostName srcPort script u log).outcome
                    = WelcomeEnd.threw e))) := by
  intro script
  induction script with
  | nil =>
    intro u log
    unfold welcome_loop
    split
    · exact ⟨_, rfl, rfl, Or.inl rfl⟩
    · exact ⟨_, rfl, rfl, Or.inl rfl⟩
  | cons x rest ih =>
    intro u log
    obtain ⟨elapsed, ev⟩ := x
    unfold welcome_loop
    split
    · exact ⟨_, rfl, rfl, Or.inl rfl⟩
    · rename_i u1 _
      split
      · exact ⟨_, rfl, rfl, Or.inl rfl⟩
      · split
        · exact ⟨_, rfl, rfl, Or.inl rfl⟩
        · obtain ⟨added, hl, hp⟩ := ih u1 (log ++ [WelcomeOp.stopQuery false, WelcomeOp.select 0])
          exact ⟨[WelcomeOp.stopQuery false, WelcomeOp.select 0] ++ added,
            by rw [hl, List.append_assoc], singleShot_lift ws _ added _ rfl rfl hp⟩
        · obtain ⟨added, hl, hp⟩ := ih u1 (log ++ [WelcomeOp.stopQuery false, WelcomeOp.select 1])
          exact ⟨[WelcomeOp.stopQuery false, WelcomeOp.select 1] ++ added,
            by rw [hl, List.append_assoc], singleShot_lift ws _ added _ rfl rfl hp⟩
        · rename_i acceptSocket peer os
          split
          · split
            · exact ⟨_, rfl, rfl, Or.inl rfl⟩
            · exact ⟨_, rfl, rfl, Or.inl rfl⟩
            · rename_i u2 _
              obtain ⟨added, hl, hp⟩ := welcome_peer_singleShot cb ws hostName srcPort
                acceptSocket peer os u2
                (log ++ [WelcomeOp.stopQuery false, WelcomeOp.select 1,
                  WelcomeOp.accept acceptSocket, WelcomeOp.onAcceptFailure Exn.accept_failed])
                (welcome_loop cb true timeoutMs ws hostName srcPort rest) ih
              exact ⟨[WelcomeOp.stopQuery false, WelcomeOp.select 1,
                  WelcomeOp.accept acceptSocket, WelcomeOp.onAcceptFailure Exn.accept_failed]
                  ++ added,
                by rw [hl, List.append_assoc], singleShot_lift ws _ added _ rfl rfl hp⟩
          · obtain ⟨added, hl, hp⟩ := welcome_peer_singleShot cb ws hostName srcPort
              acceptSocket peer os u1
              (log ++ [WelcomeOp.stopQuery false, WelcomeOp.select 1,
                WelcomeOp.accept acceptSocket])
              (welcome_loop cb true timeoutMs ws hostName srcPort rest) ih
            exact ⟨[WelcomeOp.stopQuery false, WelcomeOp.select 1,
                WelcomeOp.accept acceptSocket] ++ added,
              by rw [hl, List.append_assoc], singleShot_lift ws _ added _ rfl rfl hp⟩

/-- The log of a single-shot run of `welcome`: `onCreate` at most once, and
when the set-up succeeds exactly once, right after the socket is made;
`onConnection` at most once, followed by nothing but the close of the listening
socket and the return, or by nothing at all when it throws. -/
theorem welcome_single_shot_log {U : Type} (port : Nat) (cb : Callbacks U) (timeoutMs : Int)
    (setup : ListenSetup) (script : List (Int × ListenEvent)) (u : U) :
    (Connection.welcome port cb true timeoutMs setup script u).log.countP WelcomeOp.isOnCreate ≤ 1
    ∧ (setup.succeeds port = true →
        ∃ added, (Connection.welcome port cb true timeoutMs setup script u).log
            = [WelcomeOp.socket setup.welcomeSocket,
               WelcomeOp.onCreate setup.hostName setup.srcPort] ++ added
          ∧ added.countP WelcomeOp.isOnCreate = 0)
    ∧ ((Connection.welcome port cb true timeoutMs setup script u).log.countP
          WelcomeOp.isOnConnection = 0
        ∨ ∃ (pre : List WelcomeOp) (fd : Int),
            pre.countP WelcomeOp.isOnConnection = 0 ∧ pre.countP WelcomeOp.isOnCreate ≤ 1 ∧
            (((Connection.welcome port cb true timeoutMs setup script u).log
                  = pre ++ [WelcomeOp.onConnection fd, WelcomeOp.close setup.welcomeSocket]
                ∧ (Connection.welcome port cb true timeoutMs setup script u).outcome
                    = WelcomeEnd.returned)
              ∨ ((Connection.welcome port cb true timeoutMs setup script u).log
                    = pre ++ [WelcomeOp.onConnection fd]
                ∧ ∃ e, (Connection.welcome port cb true timeoutMs setup script u).outcome
                    = WelcomeEnd.threw e))) := by
  by_cases hs : setup.succeeds port = true
  · have hs' := hs
    simp only [ListenSetup.succeeds, Bool.and_eq_true, Bool.or_eq_true, decide_eq_true_eq] at hs'
    obtain ⟨⟨⟨⟨⟨h1, h2⟩, h3⟩, h4⟩, h5⟩, h6⟩ := hs'
    have hw : Connection.welcome port cb true timeoutMs setup script u =
        match cb.onCreate u setup.hostName setup.srcPort with
        | Except.error e =>
          { user := u,
            log := [WelcomeOp.socket setup.welcomeSocket,
                    WelcomeOp.onCreate setup.hostName setup.srcPort],
            outcome := WelcomeEnd.threw e }
        | Except.ok u1 =>
          welcome_loop cb true timeoutMs setup.welcomeSocket setup.hostName setup.srcPort
            script u1
            [WelcomeOp.socket setup.welcomeSocket,
             WelcomeOp.onCreate setup.hostName setup.srcPort] := by
      unfold Connection.welcome
      rw [if_neg h1, if_neg (by intro h; rcases h2 with h2 | h2
                                · exact h.1 h2
                                · rw [h2] at h; simp at h),
        if_neg (by simp [h3]), if_neg (by simp [h4]), if_neg (by simp [h5]),
        if_neg (by simp [h6])]
    rw [hw]
    cases hc : cb.onCreate u setup.hostName setup.srcPort with
    | error e =>
      exact ⟨Nat.le_refl 1, fun _ => ⟨[], rfl, rfl⟩, Or.inl rfl⟩
    | ok u1 =>
      simp only []
      obtain ⟨added, hl, hp1, hp2⟩ := welcome_loop_singleShot cb timeoutMs setup.welcomeSocket
        setup.hostName setup.srcPort script u1
        [WelcomeOp.socket setup.welcomeSocket, WelcomeOp.onCreate setup.hostName setup.srcPort]
      have hcount : ([WelcomeOp.socket setup.welcomeSocket,
          WelcomeOp.onCreate setup.hostName setup.srcPort] ++ added).countP
            WelcomeOp.isOnCreate = 1 := by
        rw [List.countP_append, hp1]; rfl
      refine ⟨by rw [hl, hcount], fun _ => ⟨added, hl, hp1⟩, ?_⟩
      rcases hp2 with hp2 | ⟨pre, fd, hpre, hp2⟩
      · left
        rw [hl, List.countP_append, hp2]; rfl
      · right
        have hpc : pre.countP WelcomeOp.isOnCreate ≤ 1 := by
          have hle : pre.countP WelcomeOp.isOnCreate ≤ added.countP WelcomeOp.isOnCreate := by
            rcases hp2 with ⟨h, _⟩ | ⟨h, _⟩ <;> rw [h, List.countP_append] <;> omega
          omega
        refine ⟨[WelcomeOp.socket setup.welcomeSocket,
          WelcomeOp.onCreate setup.hostName setup.srcPort] ++ pre, fd, ?_, ?_, ?_⟩
        · rw [List.countP_append, hpre]; rfl
        · rw [List.countP_append]
          have : ([WelcomeOp.socket setup.welcomeSocket,
            WelcomeOp.onCreate setup.hostName setup.srcPort]).countP WelcomeOp.isOnCreate = 1 := rfl
          have hle : pre.countP WelcomeOp.isOnCreate ≤ added.countP WelcomeOp.isOnCreate := by
            rcases hp2 with ⟨h, _⟩ | ⟨h, _⟩ <;> rw [h, List.countP_append] <;> omega
          omega
        · rcases hp2 with ⟨h, ho⟩ | ⟨h, ho⟩
          · left; exact ⟨by rw [hl, h, List.append_assoc], ho⟩
          · right; exact ⟨by rw [hl, h, List.append_assoc], ho⟩
  · refine ⟨?_, fun h => absurd h hs, ?_⟩
    all_goals
      unfold Connection.welcome
      simp only [ListenSetup.succeeds, Bool.and_eq_true, Bool.or_eq_true, decide_eq_true_eq] at hs
      split
      · first | exact Nat.zero_le 1 | exact Or.inl rfl
      · split
        · first | exact Nat.zero_le 1 | exact Or.inl rfl
        · split
          · first | exact Nat.zero_le 1 | exact Or.inl rfl
          · split
            · first | exact Nat.zero_le 1 | exact Or.inl rfl
            · split
              · first | exact Nat.zero_le 1 | exact Or.inl rfl
              · split
                · first | exact Nat.zero_le 1 | exact Or.inl rfl
                · rename_i h1 h2 h3 h4 h5 h6
                  exfalso
                  apply hs
                  refine ⟨⟨⟨⟨⟨h1, ?_⟩, by simpa using h3⟩, by simpa using h4⟩, by simpa using h5⟩,
                    by simpa using h6⟩
                  by_cases hp : port = PORT_ANY
                  · exact Or.inl hp
                  · right
                    by_contra hso
                    exact h2 ⟨hp, by simpa using hso⟩

/-! ## Reaching a round of the accept loop -/

/-- When the part of a round from `getpeername` on hands over to the rest of
the loop, it does so with a state and a log that do not depend on that rest. -/
theorem welcome_peer_hands_over {U : Type} (cb : Callbacks U) (singleShot : Bool) (ws : Int)
    (hostName : String) (srcPort : Nat) (acceptSocket : Int) (peer : PeerInfo) (os : Sock)
    (u : U) (log : List WelcomeOp) (k : U → List WelcomeOp → WelcomeRun U)
    (h : (welcome_peer cb singleShot ws hostName srcPort acceptSocket peer os u log k).outcome
        = WelcomeEnd.listening) :
    ∃ (u2 : U) (more : List WelcomeOp),
      more.countP WelcomeOp.isAccept = 0 ∧
      ∀ k2 : U → List WelcomeOp → WelcomeRun U,
        welcome_peer cb singleShot ws hostName srcPort acceptSocket peer os u log k2
          = k2 u2 (log ++ more) := by
  unfold welcome_peer at h ⊢
  by_cases hg : getpeernameFails acceptSocket peer = true
  · simp only [hg, if_true] at h ⊢
    cases hf : cb.onAcceptFailure u Exn.getpeername_failed with
    | error e => rw [hf] at h; simp at h
    | ok p =>
      obtain ⟨b, u1⟩ := p
      exact ⟨u1, [WelcomeOp.close acceptSocket, WelcomeOp.onAcceptFailure Exn.getpeername_failed],
        rfl, fun k2 => rfl⟩
  · simp only [hg] at h ⊢
    cases peer with
    | getpeernameFail => simp at h
    | inet_ntopFail => simp at h
    | resolved rn dp =>
      simp only [] at h ⊢
      cases hc : cb.onConnection u
          { conn := { socket_ := acceptSocket, os := os }, hostName_ := hostName,
            remoteName_ := rn, hostPort_ := srcPort, remotePort_ := dp } with
      | error e => rw [hc] at h; simp at h
      | ok u1 =>
        rw [hc] at h
        simp only [] at h ⊢
        cases singleShot with
        | true => simp at h
        | false => exact ⟨u1, [WelcomeOp.onConnection acceptSocket], rfl, fun k2 => by simp⟩


/-- A run of the accept loop that is still listening at the end of `pre` goes
on, when more events follow, from a state and a log that those events do not
change; the log has at most one `accept` for each round of `pre`. -/
theorem welcome_loop_reaches {U : Type} (cb : Callbacks U) (singleShot : Bool)
    (timeoutMs ws : Int) (hostName : String) (srcPort : Nat) :
    ∀ (pre : List (Int × ListenEvent)) (u : U) (log : List WelcomeOp),
      (welcome_loop cb singleShot timeoutMs ws hostName srcPort pre u log).outcome
          = WelcomeEnd.listening →
      ∃ (u2 : U) (more : List WelcomeOp),
        more.countP WelcomeOp.isAccept ≤ pre.length ∧
        ∀ s, welcome_loop cb singleShot timeoutMs ws hostName srcPort (pre ++ s) u log
          = welcome_loop cb singleShot timeoutMs ws hostName srcPort s u2 (log ++ more) := by
  intro pre
  induction pre with
  | nil =>
    intro u log _
    exact ⟨u, [], Nat.le_refl 0, fun s => by rw [List.nil_append, List.append_nil]⟩
  | cons x rest ih =>
    intro u log h
    obtain ⟨elapsed, ev⟩ := x
    rw [welcome_loop] at h
    rcases hq : cb.stopListeningQuery u with ⟨b, u1⟩
    rw [hq] at h
    cases b with
    | true => simp at h
    | false =>
      simp only [] at h
      by_cases hto : timeoutMs ≠ TIMEOUT_NEVER ∧ elapsed > timeoutMs
      · rw [if_pos hto] at h; simp at h
      · rw [if_neg hto] at h
        cases ev with
        | selectFail => simp at h
        | selectTimeout =>
          simp only [] at h
          obtain ⟨u2, more, hc, hs⟩ := ih u1 _ h
          refine ⟨u2, [WelcomeOp.stopQuery false, WelcomeOp.select 0] ++ more, ?_, fun s => ?_⟩
          · rw [List.countP_append, List.length_cons]
            have : ([WelcomeOp.stopQuery false, WelcomeOp.select 0]).countP WelcomeOp.isAccept = 0 :=
              rfl
            omega
          · rw [List.cons_append, welcome_loop, hq]
            simp only []
            rw [if_neg hto, hs s, List.append_assoc]
        | notSet =>
          simp only [] at h
          obtain ⟨u2, more, hc, hs⟩ := ih u1 _ h
          refine ⟨u2, [WelcomeOp.stopQuery false, WelcomeOp.select 1] ++ more, ?_, fun s => ?_⟩
          · rw [List.countP_append, List.length_cons]
            have : ([WelcomeOp.stopQuery false, WelcomeOp.select 1]).countP WelcomeOp.isAccept = 0 :=
              rfl
            omega
          · rw [List.cons_append, welcome_loop, hq]
            simp only []
            rw [if_neg hto, hs s, List.append_assoc]
        | accepted acceptSocket peer os =>
          simp only [] at h
          by_cases hinv : acceptSocket = INVALID_SOCKET
          · rw [if_pos hinv] at h
            cases hf : cb.onAcceptFailure u1 Exn.accept_failed with
            | error e => rw [hf] at h; simp at h
            | ok p =>
              obtain ⟨b, u2⟩ := p
              rw [hf] at h
              cases b with
              | false => simp at h
              | true =>
                simp only [] at h
                obtain ⟨u3, m1, hm1, hp⟩ := welcome_peer_hands_over cb singleShot ws hostName
                  srcPort acceptSocket peer os u2 _ _ h
                rw [hp] at h
                obtain ⟨u4, more, hc, hs⟩ := ih u3 _ h
                refine ⟨u4, [WelcomeOp.stopQuery false, WelcomeOp.select 1,
                    WelcomeOp.accept acceptSocket, WelcomeOp.onAcceptFailure Exn.accept_failed]
                    ++ m1 ++ more, ?_, fun s => ?_⟩
                · rw [List.countP_append, List.countP_append, List.length_cons, hm1]
                  have : ([WelcomeOp.stopQuery false, WelcomeOp.select 1,
                    WelcomeOp.accept acceptSocket,
                    WelcomeOp.onAcceptFailure Exn.accept_failed]).countP WelcomeOp.isAccept = 1 :=
                    rfl
                  omega
                · rw [List.cons_append, welcome_loop, hq]
                  simp only []
                  rw [if_neg hto, if_pos hinv, hf]
                  simp only []
                  rw [hp, hs s, List.append_assoc, List.append_assoc, List.append_assoc]
          · rw [if_neg hinv] at h
            obtain ⟨u3, m1, hm1, hp⟩ := welcome_peer_hands_over cb singleShot ws hostName
              srcPort acceptSocket peer os u1 _ _ h
            rw [hp] at h
            obtain ⟨u4, more, hc, hs⟩ := ih u3 _ h
            refine ⟨u4, [WelcomeOp.stopQuery false, WelcomeOp.select 1,
                WelcomeOp.accept acceptSocket] ++ m1 ++ more, ?_, fun s => ?_⟩
            · rw [List.countP_append, List.countP_append, List.length_cons, hm1]
              have : ([WelcomeOp.stopQuery false, WelcomeOp.select 1,
                WelcomeOp.accept acceptSocket]).countP WelcomeOp.isAccept = 1 := rfl
              omega
            · rw [List.cons_append, welcome_loop, hq]
              simp only []
              rw [if_neg hto, if_neg hinv, hp, hs s, List.append_assoc, List.append_assoc,
                List.append_assoc]


/-- A run of `welcome` that is listening at the end of its script has set the
socket up and has had `onCreate` return; from there it is the accept loop. -/
theorem welcome_listening_loop {U : Type} (port : Nat) (cb : Callbacks U) (singleShot : Bool)
    (timeoutMs : Int) (setup : ListenSetup) (pre : List (Int × ListenEvent)) (u : U)
    (h : (Connection.welcome port cb singleShot timeoutMs setup pre u).outcome
        = WelcomeEnd.listening) :
    ∃ u1 : U, ∀ scr, Connection.welcome port cb singleShot timeoutMs setup scr u
      = welcome_loop cb singleShot timeoutMs setup.welcomeSocket setup.hostName setup.srcPort
          scr u1
          [WelcomeOp.socket setup.welcomeSocket,
           WelcomeOp.onCreate setup.hostName setup.srcPort] := by
  unfold Connection.welcome at h
  split at h
  · simp at h
  · split at h
    · simp at h
    · split at h
      · simp at h
      · split at h
        · simp at h
        · split at h
          · simp at h
          · split at h
            · simp at h
            · rename_i h1 h2 h3 h4 h5 h6
              cases hc : cb.onCreate u setup.hostName setup.srcPort with
              | error e => rw [hc] at h; simp at h
              | ok u1 =>
                refine ⟨u1, fun scr => ?_⟩
                unfold Connection.welcome
                rw [if_neg h1, if_neg h2, if_neg h3, if_neg h4, if_neg h5, if_neg h6, hc]

/-- The first connection a single-shot `welcome` gets with a resolved peer
address: `onConnection` is invoked with it; when the callback returns, the
listening socket is closed and `welcome` returns, whatever events follow; when
it throws, the exception leaves `welcome` at once. -/
theorem welcome_first_connection {U : Type} (port : Nat) (cb : Callbacks U) (timeoutMs : Int)
    (setup : ListenSetup) (pre rest : List (Int × ListenEvent)) (u : U) (t fd : Int)
    (rn : String) (dp : Nat) (os : Sock)
    (h : (Connection.welcome port cb true timeoutMs setup pre u).outcome = WelcomeEnd.listening)
    (hfd : fd ≠ INVALID_SOCKET) (hto : ¬ (timeoutMs ≠ TIMEOUT_NEVER ∧ t > timeoutMs)) :
    (Connection.welcome port cb true timeoutMs setup pre u).log.countP WelcomeOp.isAccept
        ≤ pre.length
    ∧ Connection.welcome port cb true timeoutMs setup
        (pre ++ (t, ListenEvent.accepted fd (PeerInfo.resolved rn dp) os) :: rest) u
      = match cb.onConnection (Connection.welcome port cb true timeoutMs setup pre u).user
            { conn := { socket_ := fd, os := os }, hostName_ := setup.hostName,
              remoteName_ := rn, hostPort_ := setup.srcPort, remotePort_ := dp } with
        | Except.ok u2 =>
          { user := u2,
            log := (Connection.welcome port cb true timeoutMs setup pre u).log
              ++ [WelcomeOp.select 1, WelcomeOp.accept fd, WelcomeOp.onConnection fd,
                  WelcomeOp.close setup.welcomeSocket],
            outcome := WelcomeEnd.returned }
        | Except.error e =>
          { user := (Connection.welcome port cb true timeoutMs setup pre u).user,
            log := (Connection.welcome port cb true timeoutMs setup pre u).log
              ++ [WelcomeOp.select 1, WelcomeOp.accept fd, WelcomeOp.onConnection fd],
            outcome := WelcomeEnd.threw e } := by
  obtain ⟨u1, hw⟩ := welcome_listening_loop port cb true timeoutMs setup pre u h
  rw [hw pre] at h ⊢
  rw [hw]
  obtain ⟨u2, more, hc, hs⟩ := welcome_loop_reaches cb true timeoutMs setup.welcomeSocket
    setup.hostName setup.srcPort pre u1 _ h
  have hpre := hs []
  rw [List.append_nil] at hpre
  rw [hpre] at h ⊢
  rw [hs]
  rw [welcome_loop] at h ⊢
  rw [welcome_loop]
  rcases hq : cb.stopListeningQuery u2 with ⟨b, u3⟩
  rw [hq] at h
  cases b with
  | true => simp at h
  | false =>
    simp only []
    have hg : getpeernameFails fd (PeerInfo.resolved rn dp) = false := by
      simp [getpeernameFails, hfd]
    refine ⟨?_, ?_⟩
    · rw [List.countP_append, List.countP_append]
      have h1 : ([WelcomeOp.socket setup.welcomeSocket,
        WelcomeOp.onCreate setup.hostName setup.srcPort]).countP WelcomeOp.isAccept = 0 := rfl
      have h2 : ([WelcomeOp.stopQuery false]).countP WelcomeOp.isAccept = 0 := rfl
      omega
    · rw [if_neg hto, if_neg hfd]
      unfold welcome_peer
      rw [hg]
      simp only [Bool.false_eq_true, if_false, if_true]
      cases cb.onConnection u3
          { conn := { socket_ := fd, os := os }, hostName_ := setup.hostName,
            remoteName_ := rn, hostPort_ := setup.srcPort, remotePort_ := dp } with
      | error e => simp
      | ok u4 => simp

/-- C12. A run of `Connection::welcome` with `singleShot = true`, for every
script of socket events and every behaviour of the callbacks: `onCreate` is
invoked at most once, and when the set-up succeeds exactly once, as the first
thing after the socket is made and so before any `accept`; `onConnection` is
invoked at most once, and when it is invoked and returns, the only thing that
follows is the close of the listening socket and the return of `welcome` (no
further `accept`); when it throws, nothing follows. And the callback is
invoked: when the run is still listening after the events `pre` (with at most
one `accept` for each of them) and the next round, not past the time limit,
accepts a connection whose peer address resolves, `onConnection` is invoked
with that connection; when it returns, `welcome` closes the listening socket
and returns, whatever events `rest` would follow (no further `select` or
`accept`); when it throws, the exception leaves `welcome` at once. -/
theorem welcome_single_shot {U : Type} (port : Nat) (cb : Callbacks U) (timeoutMs : Int)
    (setup : ListenSetup) (script : List (Int × ListenEvent)) (u : U) :
    (Connection.welcome port cb true timeoutMs setup script u).log.countP WelcomeOp.isOnCreate ≤ 1
    ∧ (setup.succeeds port = true →
        ∃ added, (Connection.welcome port cb true timeoutMs setup script u).log
            = [WelcomeOp.socket setup.welcomeSocket,
               WelcomeOp.onCreate setup.hostName setup.srcPort] ++ added
          ∧ added.countP WelcomeOp.isOnCreate = 0)
    ∧ ((Connection.welcome port cb true timeoutMs setup script u).log.countP
          WelcomeOp.isOnConnection = 0
        ∨ ∃ (pre : List WelcomeOp) (fd : Int),
            pre.countP WelcomeOp.isOnConnection = 0 ∧ pre.countP WelcomeOp.isOnCreate ≤ 1 ∧
            (((Connection.welcome port cb true timeoutMs setup script u).log
                  = pre ++ [WelcomeOp.onConnection fd, WelcomeOp.close setup.welcomeSocket]
                ∧ (Connection.welcome port cb true timeoutMs setup script u).outcome
                    = WelcomeEnd.returned)
              ∨ ((Connection.welcome port cb true timeoutMs setup script u).log
                    = pre ++ [WelcomeOp.onConnection fd]
                ∧ ∃ e, (Connection.welcome port cb true timeoutMs setup script u).outcome
                    = WelcomeEnd.threw e)))
    ∧ (∀ (pre rest : List (Int × ListenEvent)) (t fd : Int) (rn : String) (dp : Nat) (os : Sock),
        script = pre ++ (t, ListenEvent.accepted fd (PeerInfo.resolved rn dp) os) :: rest →
        (Connection.welcome port cb true timeoutMs setup pre u).outcome = WelcomeEnd.listening →
        fd ≠ INVALID_SOCKET →
        ¬ (timeoutMs ≠ TIMEOUT_NEVER ∧ t > timeoutMs) →
        (Connection.welcome port cb true timeoutMs setup pre u).log.countP WelcomeOp.isAccept
            ≤ pre.length
        ∧ Connection.welcome port cb true timeoutMs setup script u
          = match cb.onConnection (Connection.welcome port cb true timeoutMs setup pre u).user
                { conn := { socket_ := fd, os := os }, hostName_ := setup.hostName,
                  remoteName_ := rn, hostPort_ := setup.srcPort, remotePort_ := dp } with
            | Except.ok u2 =>
              { user := u2,
                log := (Connection.welcome port cb true timeoutMs setup pre u).log
                  ++ [WelcomeOp.select 1, WelcomeOp.accept fd, WelcomeOp.onConnection fd,
                      WelcomeOp.close setup.welcomeSocket],
                outcome := WelcomeEnd.returned }
            | Except.error e =>
              { user := (Connection.welcome port cb true timeoutMs setup pre u).user,
                log := (Connection.welcome port cb true timeoutMs setup pre u).log
                  ++ [WelcomeOp.select 1, WelcomeOp.accept fd, WelcomeOp.onConnection fd],
                outcome := WelcomeEnd.threw e }) := by
  obtain ⟨h1, h2, h3⟩ := welcome_single_shot_log port cb timeoutMs setup script u
  refine ⟨h1, h2, h3, ?_⟩
  intro pre rest t fd rn dp os hscript hlisten hfd hto
  rw [hscript]
  exact welcome_first_connection port cb timeoutMs setup pre rest u t fd rn dp os hlisten hfd hto

/-- Witness for C12: after one idle round two peers connect. The callback gets
the first connection, the listening socket is closed and `welcome` returns;
the second peer is never accepted. -/
theorem welcome_single_shot_witness :
    (∃ added, (Connection.welcome 0 (serverCallbacks true) true 0 goodSetup
        [(0, ListenEvent.selectTimeout),
         (50, ListenEvent.accepted 7 (PeerInfo.resolved "10.0.0.2" 5001) idleSock),
         (100, ListenEvent.accepted 8 (PeerInfo.resolved "10.0.0.3" 5002) idleSock)] 0).log
        = [WelcomeOp.socket goodSetup.welcomeSocket,
           WelcomeOp.onCreate goodSetup.hostName goodSetup.srcPort] ++ added
      ∧ added.countP WelcomeOp.isOnCreate = 0)
    ∧ (Connection.welcome 0 (serverCallbacks true) true 0 goodSetup
        [(0, ListenEvent.selectTimeout)] 0).log.countP WelcomeOp.isAccept ≤ 1
    ∧ Connection.welcome 0 (serverCallbacks true) true 0 goodSetup
        [(0, ListenEvent.selectTimeout),
         (50, ListenEvent.accepted 7 (PeerInfo.resolved "10.0.0.2" 5001) idleSock),
         (100, ListenEvent.accepted 8 (PeerInfo.resolved "10.0.0.3" 5002) idleSock)] 0
      = { user := 1,
          log := [WelcomeOp.socket 5, WelcomeOp.onCreate "0.0.0.0" 4000,
                  WelcomeOp.stopQuery false, WelcomeOp.select 0,
                  WelcomeOp.stopQuery false, WelcomeOp.select 1, WelcomeOp.accept 7,
                  WelcomeOp.onConnection 7, WelcomeOp.close 5],
          outcome := WelcomeEnd.returned } :=
  ⟨(welcome_single_shot 0 (serverCallbacks true) 0 goodSetup
      [(0, ListenEvent.selectTimeout),
       (50, ListenEvent.accepted 7 (PeerInfo.resolved "10.0.0.2" 5001) idleSock),
       (100, ListenEvent.accepted 8 (PeerInfo.resolved "10.0.0.3" 5002) idleSock)] 0).2.1
      (by decide),
   (welcome_single_shot 0 (serverCallbacks true) 0 goodSetup
      [(0, ListenEvent.selectTimeout),
       (50, ListenEvent.accepted 7 (PeerInfo.resolved "10.0.0.2" 5001) idleSock),
       (100, ListenEvent.accepted 8 (PeerInfo.resolved "10.0.0.3" 5002) idleSock)] 0).2.2.2
      [(0, ListenEvent.selectTimeout)]
      [(100, ListenEvent.accepted 8 (PeerInfo.resolved "10.0.0.3" 5002) idleSock)]
      50 7 "10.0.0.2" 5001 idleSock rfl (by decide) (by decide) (by decide)⟩

/-- C13 (the code at the failing inputs). (1) One `accept` fails and the
callback answers `true`: the loop body goes on to `getpeername` on
`INVALID_SOCKET`, which fails, and the callback is invoked a second time for
the same failed `accept`. (2) `getpeername` fails on an accepted socket and the
callback answers `false`: the answer is dropped and `welcome` goes on
listening (it takes the next round of `select`). -/
theorem welcome_accept_failure_runs :
    Connection.welcome 0 (serverCallbacks true) false 0 goodSetup
        [(0, ListenEvent.accepted INVALID_SOCKET PeerInfo.getpeernameFail idleSock)] 0
      = { user := 0,
          log := [WelcomeOp.socket 5, WelcomeOp.onCreate "0.0.0.0" 4000,
                  WelcomeOp.stopQuery false, WelcomeOp.select 1, WelcomeOp.accept (-1),
                  WelcomeOp.onAcceptFailure Exn.accept_failed, WelcomeOp.close (-1),
                  WelcomeOp.onAcceptFailure Exn.getpeername_failed,
                  WelcomeOp.stopQuery false],
          outcome := WelcomeEnd.listening }
    ∧ Connection.welcome 0 (serverCallbacks false) false 0 goodSetup
        [(0, ListenEvent.accepted 7 PeerInfo.getpeernameFail idleSock),
         (50, ListenEvent.selectTimeout)] 0
      = { user := 0,
          log := [WelcomeOp.socket 5, WelcomeOp.onCreate "0.0.0.0" 4000,
                  WelcomeOp.stopQuery false, WelcomeOp.select 1, WelcomeOp.accept 7,
                  WelcomeOp.close 7, WelcomeOp.onAcceptFailure Exn.getpeername_failed,
                  WelcomeOp.stopQuery false, WelcomeOp.select 0,
                  WelcomeOp.stopQuery false],
          outcome := WelcomeEnd.listening } := by
  constructor <;> rfl

/-- The accept loop through rounds in which nothing is accepted and then a
round whose clock reading is past a finite timeout: it returns. -/
theorem welcome_loop_timeout {U : Type} (cb : Callbacks U) (singleShot : Bool)
    (timeoutMs ws : Int) (hostName : String) (srcPort : Nat)
    (hstop : ∀ u, (cb.stopListeningQuery u).1 = false)
    (hfinite : timeoutMs ≠ TIMEOUT_NEVER) (elapsed : Int) (ev : ListenEvent)
    (rest : List (Int × ListenEvent)) (hlate : timeoutMs < elapsed) :
    ∀ (idle : List (Int × ListenEvent)) (u : U) (log : List WelcomeOp),
      (∀ x ∈ idle, x.2 = ListenEvent.selectTimeout ∨ x.2 = ListenEvent.notSet) →
      ∃ added,
        (welcome_loop cb singleShot timeoutMs ws hostName srcPort
            (idle ++ (elapsed, ev) :: rest) u log).log = log ++ added ++ [WelcomeOp.close ws]
        ∧ (welcome_loop cb singleShot timeoutMs ws hostName srcPort
            (idle ++ (elapsed, ev) :: rest) u log).outcome = WelcomeEnd.returned
        ∧ added.countP WelcomeOp.isOnConnection = 0
        ∧ added.countP WelcomeOp.isAccept = 0 := by
  intro idle
  induction idle with
  | nil =>
    intro u log _
    rcases hq : cb.stopListeningQuery u with ⟨b, u1⟩
    have hb : b = false := by have := hstop u; rw [hq] at this; exact this
    subst hb
    refine ⟨[WelcomeOp.stopQuery false], ?_, ?_, rfl, rfl⟩
    · simp only [List.nil_append, welcome_loop, hq]
      rw [if_pos ⟨hfinite, hlate⟩]
      simp
    · simp only [List.nil_append, welcome_loop, hq]
      rw [if_pos ⟨hfinite, hlate⟩]
  | cons x tl ih =>
    intro u log hidle
    obtain ⟨el, e⟩ := x
    rcases hq : cb.stopListeningQuery u with ⟨b, u1⟩
    have hb : b = false := by have := hstop u; rw [hq] at this; exact this
    subst hb
    have htl : ∀ x ∈ tl, x.2 = ListenEvent.selectTimeout ∨ x.2 = ListenEvent.notSet :=
      fun x hx => hidle x (List.mem_cons_of_mem _ hx)
    by_cases hto : timeoutMs ≠ TIMEOUT_NEVER ∧ el > timeoutMs
    · refine ⟨[WelcomeOp.stopQuery false], ?_, ?_, rfl, rfl⟩
      · simp only [List.cons_append, welcome_loop, hq]
        rw [if_pos hto]
        simp
      · simp only [List.cons_append, welcome_loop, hq]
        rw [if_pos hto]
    · rcases hidle (el, e) (List.mem_cons_self _ _) with he | he
      · simp only at he
        subst he
        obtain ⟨added, hl, ho, h1, h2⟩ :=
          ih u1 (log ++ [WelcomeOp.stopQuery false, WelcomeOp.select 0]) htl
        refine ⟨[WelcomeOp.stopQuery false, WelcomeOp.select 0] ++ added, ?_, ?_, ?_, ?_⟩
        · simp only [List.cons_append, welcome_loop, hq]
          rw [if_neg hto]
          exact hl.trans (by simp)
        · simp only [List.cons_append, welcome_loop, hq]
          rw [if_neg hto]
          exact ho
        · rw [List.countP_append, h1]; rfl
        · rw [List.countP_append, h2]; rfl
      · simp only at he
        subst he
        obtain ⟨added, hl, ho, h1, h2⟩ :=
          ih u1 (log ++ [WelcomeOp.stopQuery false, WelcomeOp.select 1]) htl
        refine ⟨[WelcomeOp.stopQuery false, WelcomeOp.select 1] ++ added, ?_, ?_, ?_, ?_⟩
        · simp only [List.cons_append, welcome_loop, hq]
          rw [if_neg hto]
          exact hl.trans (by simp)
        · simp only [List.cons_append, welcome_loop, hq]
          rw [if_neg hto]
          exact ho
        · rw [List.countP_append, h1]; rfl
        · rw [List.countP_append, h2]; rfl

theorem welcome_of_succeeds {U : Type} (port : Nat) (cb : Callbacks U) (singleShot : Bool)
    (timeoutMs : Int) (setup : ListenSetup) (script : List (Int × ListenEvent)) (u : U)
    (hs : setup.succeeds port = true) :
    Connection.welcome port cb singleShot timeoutMs setup script u =
      match cb.onCreate u setup.hostName setup.srcPort with
      | Except.error e =>
        { user := u,
          log := [WelcomeOp.socket setup.welcomeSocket,
                  WelcomeOp.onCreate setup.hostName setup.srcPort],
          outcome := WelcomeEnd.threw e }
      | Except.ok u1 =>
        welcome_loop cb singleShot timeoutMs setup.welcomeSocket setup.hostName setup.srcPort
          script u1
          [WelcomeOp.socket setup.welcomeSocket,
           WelcomeOp.onCreate setup.hostName setup.srcPort] := by
  simp only [ListenSetup.succeeds, Bool.and_eq_true, Bool.or_eq_true, decide_eq_true_eq] at hs
  obtain ⟨⟨⟨⟨⟨h1, h2⟩, h3⟩, h4⟩, h5⟩, h6⟩ := hs
  unfold Connection.welcome
  rw [if_neg h1, if_neg (by intro h; rcases h2 with h2 | h2
                            · exact h.1 h2
                            · rw [h2] at h; simp at h),
    if_neg (by simp [h3]), if_neg (by simp [h4]), if_neg (by simp [h5]),
    if_neg (by simp [h6])]

/-- C14 (amended). A run of `Connection::welcome` with a finite listen timeout
whose set-up succeeds, whose `onCreate` returns and whose stop query keeps
saying no: when, after any number of rounds in which nothing is accepted, a
round begins with the clock past the timeout, `welcome` closes the listening
socket and returns normally; it has called neither `accept` nor
`onConnection`, and no exception is raised. -/
theorem welcome_timeout_returns {U : Type} (port : Nat) (cb : Callbacks U) (singleShot : Bool)
    (timeoutMs : Int) (setup : ListenSetup) (idle : List (Int × ListenEvent)) (elapsed : Int)
    (ev : ListenEvent) (rest : List (Int × ListenEvent)) (u u1 : U)
    (hsetup : setup.succeeds port = true)
    (hcreate : cb.onCreate u setup.hostName setup.srcPort = Except.ok u1)
    (hstop : ∀ u, (cb.stopListeningQuery u).1 = false)
    (hfinite : timeoutMs ≠ TIMEOUT_NEVER)
    (hidle : ∀ x ∈ idle, x.2 = ListenEvent.selectTimeout ∨ x.2 = ListenEvent.notSet)
    (hlate : timeoutMs < elapsed) :
    ∃ added,
      (Connection.welcome port cb singleShot timeoutMs setup (idle ++ (elapsed, ev) :: rest) u).log
        = [WelcomeOp.socket setup.welcomeSocket,
           WelcomeOp.onCreate setup.hostName setup.srcPort] ++ added
          ++ [WelcomeOp.close setup.welcomeSocket]
      ∧ (Connection.welcome port cb singleShot timeoutMs setup
          (idle ++ (elapsed, ev) :: rest) u).outcome = WelcomeEnd.returned
      ∧ added.countP WelcomeOp.isOnConnection = 0
      ∧ added.countP WelcomeOp.isAccept = 0 := by
  rw [welcome_of_succeeds port cb singleShot timeoutMs setup _ u hsetup, hcreate]
  exact welcome_loop_timeout cb singleShot timeoutMs setup.welcomeSocket setup.hostName
    setup.srcPort hstop hfinite elapsed ev rest hlate idle u1 _ hidle

/-- Witness for C14: a 10 s rendezvous timeout, two empty rounds, then a round at 10.05 s. -/
theorem welcome_timeout_returns_witness :
    ∃ added,
      (Connection.welcome 0 (serverCallbacks true) true 10000 goodSetup
          ([(50, ListenEvent.selectTimeout), (100, ListenEvent.notSet)]
            ++ (10050, ListenEvent.accepted 7 (PeerInfo.resolved "10.0.0.2" 5001) idleSock)
              :: []) 0).log
        = [WelcomeOp.socket goodSetup.welcomeSocket,
           WelcomeOp.onCreate goodSetup.hostName goodSetup.srcPort] ++ added
          ++ [WelcomeOp.close goodSetup.welcomeSocket]
      ∧ (Connection.welcome 0 (serverCallbacks true) true 10000 goodSetup
          ([(50, ListenEvent.selectTimeout), (100, ListenEvent.notSet)]
            ++ (10050, ListenEvent.accepted 7 (PeerInfo.resolved "10.0.0.2" 5001) idleSock)
              :: []) 0).outcome = WelcomeEnd.returned
      ∧ added.countP WelcomeOp.isOnConnection = 0
      ∧ added.countP WelcomeOp.isAccept = 0 :=
  welcome_timeout_returns 0 (serverCallbacks true) true 10000 goodSetup
    [(50, ListenEvent.selectTimeout), (100, ListenEvent.notSet)] 10050
    (ListenEvent.accepted 7 (PeerInfo.resolved "10.0.0.2" 5001) idleSock) [] 0 0
    (by decide) rfl (fun _ => rfl) (by decide) (by decide) (by decide)

/-- C14 (counterexample). A single-shot rendezvous listener with a 10 s timeout
on which nothing connects: at the first round past the timeout `welcome`
returns normally; nothing is thrown. -/
theorem welcome_timeout_no_error :
    Connection.welcome 0 (serverCallbacks true) true 10000 goodSetup
        [(5000, ListenEvent.selectTimeout), (10001, ListenEvent.selectTimeout)] 0
      = { user := 0,
          log := [WelcomeOp.socket 5, WelcomeOp.onCreate "0.0.0.0" 4000,
                  WelcomeOp.stopQuery false, WelcomeOp.select 0,
                  WelcomeOp.stopQuery false, WelcomeOp.close 5],
          outcome := WelcomeEnd.returned } := by
  rfl

/-! ## The greeting -/

theorem receive_wire (fuel : Nat) (c : Connection) (t : Int) (n : Int) (r : Received)
    (h : Connection.receive fuel c t = Res.ok n r) :
    r.conn.os.wire = c.os.wire ∧ r.conn.os.outgoing = c.os.outgoing
      ∧ r.conn.socket_ = c.socket_ := by
  cases h1 : Connection.receive_stream fuel c StdStream.empty (MESSAGE_BYTE_LEN : Int) t with
  | outOfFuel => unfold Connection.receive at h; rw [h1] at h; simp at h
  | throw e s => unfold Connection.receive at h; rw [h1] at h; simp at h
  | ok a s =>
    obtain ⟨n1, to1⟩ := a
    obtain ⟨c1, ds⟩ := s
    obtain ⟨_, bs, _, _, _, hs1, ho1, hw1, _⟩ := receive_stream_spec _ _ _ _ _ _ _ _ _ h1
    rw [receive_eq _ _ _ _ _ _ _ h1] at h
    split at h
    · injection h with _ hr
      subst hr
      exact ⟨hw1, ho1, hs1⟩
    · split at h
      · simp at h
      · split at h
        · simp at h
        · simp at h
        · rename_i more to2 c2 ds3 h2
          obtain ⟨_, bs2, _, _, _, hs2, ho2, hw2, _⟩ := receive_stream_spec _ _ _ _ _ _ _ _ _ h2
          split at h
          · simp at h
          · injection h with _ hr
            subst hr
            exact ⟨hw2.trans hw1, ho2.trans ho1, hs2.trans hs1⟩

/-- A client that stays silent for the greeting timeout: the server has sent
its HELLO (38 bytes) and `serve` returns. -/
theorem serve_silent_client :
    ClientSession.serve 41 (exampleWorld [Event.quiet] []) ZERO_MSG
      = Res.ok ()
          { exampleWorld [] [] with
            control :=
              { socket_ := 7,
                os := { incoming := [], outgoing := [],
                        wire := (encode HELLO_MSG).unread,
                        trace := [Op.send 38 38, Op.select 0] } } } := by
  decide

/-! ## GET -/

theorem lookup_exists (fs : FileSystem) (name : List Byte) :
    fs.exists name = ((fs.nodes.lookup name).isSome,
      { fs with log := fs.log ++ [FsOp.exists name] }) := rfl

/-- C16. The checks of `handle_get` answer with the code of the first failing
check, whatever the filesystem holds: an empty name gives ERROR with
`ERR_INVALID_FILENAME`, a name with a slash or a backslash gives ERROR with
`ERR_INVALID_FILENAME`, both without any call to the filesystem; a name that
does not exist gives `ERR_DOES_NOT_EXIST` after the one call `exists`; a name
that exists and is not a regular file gives `ERR_NOT_A_FILE` after `exists`
and `is_regular_file`. An ERROR response is what `handle_get` hands to
`Connection::send` on the control connection. -/
theorem get_validation_order (fuel : Nat) (w : World) (clientCommand uninit : Message) :
    (clientCommand.payload = [] →
      (ClientSession.get_checks w.fs clientCommand { uninit with payload := [] }).1.msgid
          = MESSAGE_ERROR
      ∧ (ClientSession.get_checks w.fs clientCommand { uninit with payload := [] }).1.port
          = ERR_INVALID_FILENAME
      ∧ (ClientSession.get_checks w.fs clientCommand { uninit with payload := [] }).2.2.2 = w.fs)
    ∧ (clientCommand.payload ≠ [] →
        (SLASH ∈ clientCommand.payload ∨ BACKSLASH ∈ clientCommand.payload) →
      (ClientSession.get_checks w.fs clientCommand { uninit with payload := [] }).1.msgid
          = MESSAGE_ERROR
      ∧ (ClientSession.get_checks w.fs clientCommand { uninit with payload := [] }).1.port
          = ERR_INVALID_FILENAME
      ∧ (ClientSession.get_checks w.fs clientCommand { uninit with payload := [] }).2.2.2 = w.fs)
    ∧ (clientCommand.payload ≠ [] → SLASH ∉ clientCommand.payload →
        BACKSLASH ∉ clientCommand.payload →
        (w.fs.exists clientCommand.payload).1 = false →
      (ClientSession.get_checks w.fs clientCommand { uninit with payload := [] }).1.msgid
          = MESSAGE_ERROR
      ∧ (ClientSession.get_checks w.fs clientCommand { uninit with payload := [] }).1.port
          = ERR_DOES_NOT_EXIST
      ∧ (ClientSession.get_checks w.fs clientCommand { uninit with payload := [] }).2.2.2
          = { w.fs with log := w.fs.log ++ [FsOp.exists clientCommand.payload] })
    ∧ (clientCommand.payload ≠ [] → SLASH ∉ clientCommand.payload →
        BACKSLASH ∉ clientCommand.payload →
        (w.fs.exists clientCommand.payload).1 = true →
        (w.fs.is_regular_file clientCommand.payload).1 = false →
      (ClientSession.get_checks w.fs clientCommand { uninit with payload := [] }).1.msgid
          = MESSAGE_ERROR
      ∧ (ClientSession.get_checks w.fs clientCommand { uninit with payload := [] }).1.port
          = ERR_NOT_A_FILE
      ∧ (ClientSession.get_checks w.fs clientCommand { uninit with payload := [] }).2.2.2
          = { w.fs with log := w.fs.log ++ [FsOp.exists clientCommand.payload,
                                           FsOp.is_regular_file clientCommand.payload] })
    ∧ ((ClientSession.get_checks w.fs clientCommand { uninit with payload := [] }).1.msgid
          = MESSAGE_ERROR →
      ClientSession.handle_get fuel w clientCommand uninit
        = match w.control.send fuel
            (ClientSession.get_checks w.fs clientCommand { uninit with payload := [] }).1 with
          | Res.outOfFuel => Res.outOfFuel
          | Res.throw e c1 =>
            caught e
              { w with
                control := c1,
                fs := (ClientSession.get_checks w.fs clientCommand
                        { uninit with payload := [] }).2.2.2 }
          | Res.ok _ c1 =>
            Res.ok ()
              { w with
                control := c1,
                fs := (ClientSession.get_checks w.fs clientCommand
                        { uninit with payload := [] }).2.2.2 }) := by
  refine ⟨?_, ?_, ?_, ?_, ?_⟩
  · intro h
    unfold ClientSession.get_checks
    rw [if_pos (by rw [h]; rfl)]
    exact ⟨rfl, rfl, rfl⟩
  · intro h hsep
    unfold ClientSession.get_checks
    rw [if_neg (by simpa using h), if_pos hsep]
    exact ⟨rfl, rfl, rfl⟩
  · intro h hs hb hex
    have hex2 : w.fs.exists clientCommand.payload
        = (false, { w.fs with log := w.fs.log ++ [FsOp.exists clientCommand.payload] }) := by
      rw [lookup_exists] at hex ⊢
      simp only [] at hex
      rw [hex]
    unfold ClientSession.get_checks
    rw [if_neg (by simpa using h), if_neg (by simp [hs, hb]), hex2]
    exact ⟨rfl, rfl, rfl⟩
  · intro h hs hb hex hreg
    have hex2 : w.fs.exists clientCommand.payload
        = (true, { w.fs with log := w.fs.log ++ [FsOp.exists clientCommand.payload] }) := by
      rw [lookup_exists] at hex ⊢
      simp only [] at hex
      rw [hex]
    have hreg2 : FileSystem.is_regular_file
          { w.fs with log := w.fs.log ++ [FsOp.exists clientCommand.payload] }
          clientCommand.payload
        = (false, { w.fs with log := w.fs.log ++ [FsOp.exists clientCommand.payload,
                                                  FsOp.is_regular_file clientCommand.payload] }) := by
      unfold FileSystem.is_regular_file at hreg ⊢
      simp only [] at hreg ⊢
      rw [hreg]
      simp
    unfold ClientSession.get_checks
    rw [if_neg (by simpa using h), if_neg (by simp [hs, hb]), hex2]
    simp only []
    rw [hreg2]
    exact ⟨rfl, rfl, rfl⟩
  · intro herr
    unfold ClientSession.handle_get
    rcases hg : ClientSession.get_checks w.fs clientCommand { uninit with payload := [] } with
      ⟨response, input, fileSize, fs1⟩
    rw [hg] at herr
    simp only [] at herr ⊢
    rw [if_pos herr]


/-- Witness for C16: in the example directory an empty name and the name `/`
are refused with no call to the filesystem, the missing name `b` after
`exists`, the directory `d` after `exists` and `is_regular_file`. -/
theorem get_validation_order_witness :
    ((ClientSession.get_checks (exampleWorld [] []).fs (MAKE_MSG MESSAGE_GET 0 5000 [])
          { ZERO_MSG with payload := [] }).1.port = ERR_INVALID_FILENAME
      ∧ (ClientSession.get_checks (exampleWorld [] []).fs (MAKE_MSG MESSAGE_GET 0 5000 [])
          { ZERO_MSG with payload := [] }).2.2.2 = (exampleWorld [] []).fs)
    ∧ ((ClientSession.get_checks (exampleWorld [] []).fs (MAKE_MSG MESSAGE_GET 0 5000 [47])
          { ZERO_MSG with payload := [] }).1.port = ERR_INVALID_FILENAME
      ∧ (ClientSession.get_checks (exampleWorld [] []).fs (MAKE_MSG MESSAGE_GET 0 5000 [47])
          { ZERO_MSG with payload := [] }).2.2.2 = (exampleWorld [] []).fs)
    ∧ ((ClientSession.get_checks (exampleWorld [] []).fs (MAKE_MSG MESSAGE_GET 0 5000 [98])
          { ZERO_MSG with payload := [] }).1.port = ERR_DOES_NOT_EXIST
      ∧ (ClientSession.get_checks (exampleWorld [] []).fs (MAKE_MSG MESSAGE_GET 0 5000 [98])
          { ZERO_MSG with payload := [] }).2.2.2
        = { (exampleWorld [] []).fs with
            log := (exampleWorld [] []).fs.log
              ++ [FsOp.exists (MAKE_MSG MESSAGE_GET 0 5000 [98]).payload] })
    ∧ ((ClientSession.get_checks (exampleWorld [] []).fs (MAKE_MSG MESSAGE_GET 0 5000 [100])
          { ZERO_MSG with payload := [] }).1.port = ERR_NOT_A_FILE
      ∧ (ClientSession.get_checks (exampleWorld [] []).fs (MAKE_MSG MESSAGE_GET 0 5000 [100])
          { ZERO_MSG with payload := [] }).2.2.2
        = { (exampleWorld [] []).fs with
            log := (exampleWorld [] []).fs.log
              ++ [FsOp.exists (MAKE_MSG MESSAGE_GET 0 5000 [100]).payload,
                  FsOp.is_regular_file (MAKE_MSG MESSAGE_GET 0 5000 [100]).payload] }) :=
  ⟨((get_validation_order 20 (exampleWorld [] []) (MAKE_MSG MESSAGE_GET 0 5000 []) ZERO_MSG).1
      rfl).2,
   ((get_validation_order 20 (exampleWorld [] []) (MAKE_MSG MESSAGE_GET 0 5000 [47])
      ZERO_MSG).2.1 (by decide) (by decide)).2,
   ((get_validation_order 20 (exampleWorld [] []) (MAKE_MSG MESSAGE_GET 0 5000 [98])
      ZERO_MSG).2.2.1 (by decide) (by decide) (by decide) (by decide)).2,
   ((get_validation_order 20 (exampleWorld [] []) (MAKE_MSG MESSAGE_GET 0 5000 [100])
      ZERO_MSG).2.2.2.1 (by decide) (by decide) (by decide) (by decide) (by decide)).2⟩

theorem str_contains_length : (str " contains a path which is not permitted").length = 39 := by
  decide

/-- A GET whose name contains a slash and has 984 bytes or more: the text of
the ERROR response is longer than 1024 bytes, `Connection::send` refuses it
with `std::invalid_argument`, which the `catch` of `handle_get` does not
catch; nothing is sent and no connection is made. -/
theorem handle_get_long_name (fuel : Nat) (w : World) (clientCommand uninit : Message)
    (hsep : SLASH ∈ clientCommand.payload) (hlen : 984 ≤ clientCommand.payload.length) :
    ClientSession.handle_get fuel w clientCommand uninit = Res.throw Exn.payload_too_long w := by
  have hne : ¬ (clientCommand.payload.isEmpty = true) := by
    intro h
    rw [List.isEmpty_iff] at h
    rw [h] at hlen
    simp at hlen
  unfold ClientSession.handle_get ClientSession.get_checks
  rw [if_neg hne, if_pos (Or.inl hsep)]
  simp only []
  rw [if_pos (by rfl)]
  unfold Connection.send
  rw [if_pos (by
    show ([QUOTE] ++ clientCommand.payload ++ [QUOTE]
      ++ str " contains a path which is not permitted").length > MAX_PAYLOAD_LEN
    simp only [List.length_append, str_contains_length, List.length_singleton]
    unfold MAX_PAYLOAD_LEN
    omega)]
  rfl

/-- C17 (the code at the failing input). A GET for a name of 1000 slashes
fails the separator check, but the server sends no message at all on the
control connection: `handle_get` ends with the `std::invalid_argument` of
`Connection::send`, the session as it was. -/
theorem get_long_name_no_reply :
    ClientSession.handle_get 50 (exampleWorld [] [])
        (MAKE_MSG MESSAGE_GET 0 5000 (List.replicate 1000 SLASH)) ZERO_MSG
      = Res.throw Exn.payload_too_long (exampleWorld [] [])
    ∧ (exampleWorld [] []).control.os.wire = []
    ∧ (exampleWorld [] []).net.connects = [] :=
  ⟨handle_get_long_name 50 (exampleWorld [] [])
      (MAKE_MSG MESSAGE_GET 0 5000 (List.replicate 1000 SLASH)) ZERO_MSG
      (by show SLASH ∈ List.replicate 1000 SLASH
          rw [List.mem_replicate]; exact ⟨by decide, rfl⟩)
      (by show 984 ≤ (List.replicate 1000 SLASH).length
          rw [List.length_replicate]; decide),
   rfl, rfl⟩

/-- C18 (the code at the failing input). A GET for the existing, readable,
three-byte regular file `a`, when the memory of the local `response` happens to
hold 200 in `msgid`: every check passes and no branch assigns `response`, the
test `response.msgid == MESSAGE_ERROR` succeeds, and the server replies with an
ERROR message made of the leftover fields and connects to nobody. -/
theorem get_uninitialised_response :
    ClientSession.handle_get 50 (exampleWorld [] []) (MAKE_MSG MESSAGE_GET 0 5000 [97])
        { msgid := 200, msglen := 7, datalen := 9, port := 11, payload := [] }
      = Res.ok ()
          { exampleWorld [] [] with
            control :=
              { socket_ := 7,
                os := { incoming := [], outgoing := [],
                        wire := [200, 0, 13, 0, 0, 0, 0, 0, 0, 0, 9, 0, 11],
                        trace := [Op.send 13 13] } },
            fs := { exampleFs with
                    log := [FsOp.exists [97], FsOp.is_regular_file [97], FsOp.open [97]] } }
    ∧ (exampleWorld [] []).net.connects = [] := by
  decide

/-- The same GET when the leftover `msgid` is not 200: the server connects to
the client at port 5000, replies OK with `datalen = 3`, streams the three bytes
on the data connection and shuts it down. -/
theorem handle_get_success_example :
    ClientSession.handle_get 50 (exampleWorld [] []) (MAKE_MSG MESSAGE_GET 0 5000 [97])
        { msgid := 0, msglen := 7, datalen := 9, port := 11, payload := [] }
      = Res.ok ()
          { exampleWorld [] [] with
            control :=
              { socket_ := 7,
                os := { incoming := [], outgoing := [],
                        wire := [128, 0, 13, 0, 0, 0, 0, 0, 0, 0, 3, 0, 0],
                        trace := [Op.send 13 13] } },
            fs := { exampleFs with
                    log := [FsOp.exists [97], FsOp.is_regular_file [97], FsOp.open [97]] },
            net := { script := [], connects := [("client", 5000)],
                     closed := [{ socket_ := INVALID_SOCKET,
                                  os := { incoming := [], outgoing := [], wire := [1, 2, 3],
                                          trace := [Op.send 3 3, Op.shutdown 9, Op.select 1,
                                                    Op.recv 1024 0, Op.close 9] } }] } } := by
  decide

/-! ## PUT -/

/-- A message with a payload within the limit, on a socket that takes what it
is given, is sent whole. -/
theorem send_ok (fuel : Nat) (c : Connection) (m : Message)
    (hL : m.payload.length ≤ 1024)
    (hfull : ∀ e ∈ c.os.outgoing, e.acceptsChunk = true)
    (hfuel : m.payload.length + c.os.outgoing.length + 16 ≤ fuel) :
    ∃ c', Connection.send fuel c m = Res.ok ((13 + m.payload.length : Nat) : Int) c'
      ∧ c'.os.wire = c.os.wire ++ (encode m).unread
      ∧ c'.socket_ = c.socket_ ∧ c'.os.incoming = c.os.incoming
      ∧ ∃ k, c'.os.outgoing = c.os.outgoing.drop k := by
  have hlenu : (encode m).unread.length = 13 + m.payload.length := by
    rw [encode_unread]; simp; omega
  obtain ⟨c', d', hres, hs, hi, ho, _, _, _, hwire⟩ :=
    send_stream_wrap fuel c (encode m) (encode_good m)
      (noFail_of_acceptsChunk _ hfull) (by rw [hlenu]; omega)
  refine ⟨c', ?_, hwire hfull, hs, hi, ho⟩
  unfold Connection.send
  rw [if_neg (by unfold MAX_PAYLOAD_LEN; omega), hres, hlenu]
  simp only []
  rw [wrapInt32_of_range (by omega) (by omega)]

theorem put_checks_exists (fs : FileSystem) (clientCommand : Message)
    (hex : (fs.exists clientCommand.payload).1 = true) :
    ClientSession.put_checks fs clientCommand
      = (MAKE_EMSG ERR_ALREADY_EXISTS, false,
          { fs with log := fs.log ++ [FsOp.exists clientCommand.payload] }) := by
  have hex2 : fs.exists clientCommand.payload
      = (true, { fs with log := fs.log ++ [FsOp.exists clientCommand.payload] }) := by
    rw [lookup_exists] at hex ⊢
    simp only [] at hex
    rw [hex]
  unfold ClientSession.put_checks
  rw [hex2]

/-- C19. A PUT whose name already exists on the server: however the call ends,
no connection has been attempted and the filesystem has seen the one call
`exists` and nothing else (no open, no truncation, the same files); and on a
control socket that takes what it is given the call returns having sent one
message, ERROR with `ERR_ALREADY_EXISTS` (5). -/
theorem put_existing_name (fuel : Nat) (w : World) (clientCommand : Message)
    (hex : (w.fs.exists clientCommand.payload).1 = true) :
    (∀ w1, (ClientSession.handle_put fuel w clientCommand = Res.ok () w1
          ∨ ∃ e, ClientSession.handle_put fuel w clientCommand = Res.throw e w1) →
        w1.net = w.net
        ∧ w1.fs = { w.fs with log := w.fs.log ++ [FsOp.exists clientCommand.payload] })
    ∧ ((∀ e ∈ w.control.os.outgoing, e.acceptsChunk = true) →
        w.control.os.outgoing.length + 16 ≤ fuel →
        ∃ c1, ClientSession.handle_put fuel w clientCommand
            = Res.ok ()
                { w with control := c1,
                         fs := { w.fs with
                                 log := w.fs.log ++ [FsOp.exists clientCommand.payload] } }
          ∧ c1.os.wire = w.control.os.wire ++ [200, 0, 13, 0, 0, 0, 0, 0, 0, 0, 0, 0, 5]
          ∧ [(MESSAGE_ERROR : Nat), ERR_ALREADY_EXISTS] = [200, 5]) := by
  have hpc := put_checks_exists w.fs clientCommand hex
  have hne : (MAKE_EMSG ERR_ALREADY_EXISTS).msgid ≠ MESSAGE_OK := by decide
  constructor
  · intro w1 h
    unfold ClientSession.handle_put at h
    rw [hpc] at h
    simp only [] at h
    cases hs : Connection.send fuel w.control (MAKE_EMSG ERR_ALREADY_EXISTS) with
    | outOfFuel =>
      rw [hs] at h
      rcases h with h | ⟨e, h⟩ <;> simp at h
    | throw e1 c1 =>
      rw [hs] at h
      rcases h with h | ⟨e, h⟩
      · simp at h
      · simp only [Res.throw.injEq] at h
        rw [← h.2]
        exact ⟨rfl, rfl⟩
    | ok n c1 =>
      rw [hs] at h
      simp only [] at h
      rw [if_pos hne] at h
      rcases h with h | ⟨e, h⟩
      · simp only [Res.ok.injEq, true_and] at h
        rw [← h]
        exact ⟨rfl, rfl⟩
      · simp at h
  · intro hfull hfuel
    obtain ⟨c1, hs, hw, _⟩ := send_ok fuel w.control (MAKE_EMSG ERR_ALREADY_EXISTS)
      (by decide) hfull (by
        have : (MAKE_EMSG ERR_ALREADY_EXISTS).payload.length = 0 := by decide
        omega)
    refine ⟨c1, ?_, ?_, rfl⟩
    · unfold ClientSession.handle_put
      rw [hpc]
      simp only []
      rw [hs]
      simp only []
      rw [if_pos hne]
    · rw [hw]
      rfl

/-- Witness for C19: a PUT of the name `a` into the example directory, which
holds a file `a`. -/
theorem put_existing_name_witness :
    ((exampleWorld [] []).fs.exists (MAKE_MSG MESSAGE_PUT 3 5000 [97]).payload).1 = true
    ∧ ∃ c1, ClientSession.handle_put 20 (exampleWorld [] []) (MAKE_MSG MESSAGE_PUT 3 5000 [97])
            = Res.ok ()
                { exampleWorld [] [] with
                  control := c1,
                  fs := { (exampleWorld [] []).fs with
                          log := (exampleWorld [] []).fs.log
                            ++ [FsOp.exists (MAKE_MSG MESSAGE_PUT 3 5000 [97]).payload] } }
          ∧ c1.os.wire = (exampleWorld [] []).control.os.wire
              ++ [200, 0, 13, 0, 0, 0, 0, 0, 0, 0, 0, 0, 5]
          ∧ [(MESSAGE_ERROR : Nat), ERR_ALREADY_EXISTS] = [200, 5] :=
  ⟨by decide,
   (put_existing_name 20 (exampleWorld [] []) (MAKE_MSG MESSAGE_PUT 3 5000 [97]) (by decide)).2
    (by simp [exampleWorld, idleSock]) (by decide)⟩

theorem put_loop_succ (fuel : Nat) (dataChannel : Connection) (output : StdStream)
    (bytesLeft : Nat) (steps : List PutStep) :
    ClientSession.put_loop (fuel + 1) dataChannel output bytesLeft steps =
      if bytesLeft > 0 then
        match dataChannel.receive_stream fuel output
            (if bytesLeft > CHUNK_SIZE then (CHUNK_SIZE : Int) else wrapInt32 (bytesLeft : Int))
            TIMEOUT_NEVER with
        | Res.outOfFuel => Res.outOfFuel
        | Res.throw e s => Res.throw e s
        | Res.ok (received, _) (dc1, output1) =>
          ClientSession.put_loop fuel dc1 output1
            (Int.toNat (((bytesLeft : Int) - received % 2 ^ 64) % 2 ^ 64))
            (steps ++
              [PutStep.request
                (Int.toNat
                  (if bytesLeft > CHUNK_SIZE then (CHUNK_SIZE : Int)
                   else wrapInt32 (bytesLeft : Int))),
               PutStep.flush])
      else Res.ok (bytesLeft, steps) (dataChannel, output) := rfl

theorem chunkRequests_zero : chunkRequests 0 = [] := by decide

theorem CHUNK_SIZE_eq : CHUNK_SIZE = 32768 := by decide

theorem chunkRequests_step (D : Nat) (h : 0 < D) :
    chunkRequests D = min D CHUNK_SIZE :: chunkRequests (D - min D CHUNK_SIZE) := by
  unfold chunkRequests
  rw [CHUNK_SIZE_eq]
  by_cases hb : 32768 < D
  · have h1 : min D 32768 = 32768 := by omega
    have h2 : D / 32768 = (D - 32768) / 32768 + 1 := by omega
    have h3 : (D - 32768) % 32768 = D % 32768 := by omega
    rw [h1, h2, h3, List.replicate_succ, List.cons_append]
  · have h1 : min D 32768 = D := by omega
    rw [h1, Nat.sub_self]
    by_cases he : D = 32768
    · have h2 : D / 32768 = 1 := by omega
      have h3 : D % 32768 = 0 := by omega
      rw [h2, h3, he]
      simp
    · have h2 : D / 32768 = 0 := by omega
      have h3 : D % 32768 = D := by omega
      rw [h2, h3, if_neg (by omega)]
      simp

theorem chunkRequests_facts : ∀ (k D : Nat), D ≤ k * CHUNK_SIZE →
    (chunkRequests D).length = (D + 32767) / 32768 ∧ (chunkRequests D).sum = D
      ∧ ∀ n ∈ chunkRequests D, 0 < n ∧ n ≤ 32768 := by
  intro k
  induction k with
  | zero =>
    intro D h
    have : D = 0 := by omega
    subst this
    rw [chunkRequests_zero]
    simp
  | succ k ih =>
    intro D h
    rcases Nat.eq_zero_or_pos D with h0 | hpos
    · subst h0
      rw [chunkRequests_zero]
      simp
    · rw [chunkRequests_step D hpos]
      have hm : 0 < min D CHUNK_SIZE ∧ min D CHUNK_SIZE ≤ 32768 ∧ min D CHUNK_SIZE ≤ D := by
        rw [CHUNK_SIZE_eq]; omega
      obtain ⟨i1, i2, i3⟩ := ih (D - min D CHUNK_SIZE) (by
        rw [CHUNK_SIZE_eq] at h ⊢; omega)
      refine ⟨?_, ?_, ?_⟩
      · rw [List.length_cons, i1]
        rw [CHUNK_SIZE_eq]; omega
      · rw [List.sum_cons, i2]; omega
      · intro n hn
        rcases List.mem_cons.1 hn with h1 | h1
        · rw [h1]; exact ⟨hm.1, hm.2.1⟩
        · exact i3 n h1

theorem sub_wrap (b : Nat) (r : Int) (h0 : 0 ≤ r) (h1 : r ≤ (b : Int)) (hb : b < 2 ^ 64) :
    ((Int.toNat (((b : Int) - r % 2 ^ 64) % 2 ^ 64) : Nat) : Int) = (b : Int) - r := by
  have hb2 : (b : Int) < 2 ^ 64 := by exact_mod_cast hb
  have e1 : r % 2 ^ 64 = r := Int.emod_eq_of_lt h0 (lt_of_le_of_lt h1 hb2)
  have e2 : ((b : Int) - r) % 2 ^ 64 = (b : Int) - r :=
    Int.emod_eq_of_lt (sub_nonneg.2 h1) (lt_of_le_of_lt (sub_le_self _ h0) hb2)
  rw [e1, e2]
  exact Int.toNat_of_nonneg (sub_nonneg.2 h1)

theorem put_request (b : Nat) (h : 0 < b) (hb : b < 2 ^ 64) :
    (if b > CHUNK_SIZE then (CHUNK_SIZE : Int) else wrapInt32 (b : Int))
      = ((min b CHUNK_SIZE : Nat) : Int) := by
  by_cases hc : b > CHUNK_SIZE
  · rw [if_pos hc]
    unfold CHUNK_SIZE at hc ⊢
    have : min b (1024 * 32) = 1024 * 32 := by omega
    rw [this]
  · rw [if_neg hc]
    unfold CHUNK_SIZE at hc ⊢
    have : min b (1024 * 32) = b := by omega
    rw [this, wrapInt32_of_range (by omega) (by omega)]

theorem put_loop_ok :
    ∀ (fuel : Nat) (dc : Connection) (output : StdStream) (b : Nat) (steps : List PutStep)
      (chunks : List (List Byte)) (rest : List Event),
      dc.os.incoming = chunks.map Event.bytes ++ rest → (∀ ch ∈ chunks, ch ≠ []) →
      output.good = true → b ≤ chunks.flatten.length → b < 2 ^ 64 → b + 2 ≤ fuel →
      ∃ (dc1 : Connection) (chunks1 : List (List Byte)),
        ClientSession.put_loop fuel dc output b steps
          = Res.ok (0, steps ++ stepsOf (chunkRequests b))
              (dc1, { output with buf := output.buf ++ chunks.flatten.take b })
        ∧ dc1.os.incoming = chunks1.map Event.bytes ++ rest
        ∧ (∀ ch ∈ chunks1, ch ≠ [])
        ∧ chunks1.flatten = chunks.flatten.drop b
        ∧ dc1.socket_ = dc.socket_ ∧ dc1.os.outgoing = dc.os.outgoing
        ∧ dc1.os.wire = dc.os.wire := by
  intro fuel
  induction fuel with
  | zero => intro dc output b steps chunks rest _ _ _ _ _ h; omega
  | succ f ih =>
    intro dc output b steps chunks rest hin hne hgood hlen hb hfuel
    rw [put_loop_succ]
    rcases Nat.eq_zero_or_pos b with h0 | hpos
    · subst h0
      rw [if_neg (by omega), chunkRequests_zero]
      refine ⟨dc, chunks, ?_, hin, hne, by simp, rfl, rfl, rfl⟩
      simp [stepsOf]
    · rw [if_pos hpos, put_request b hpos hb]
      have hm : 0 < min b CHUNK_SIZE ∧ min b CHUNK_SIZE ≤ b
          ∧ min b CHUNK_SIZE ≤ 32768 := by
        rw [CHUNK_SIZE_eq]; omega
      obtain ⟨dc1, chunks1, hres, hin1, hne1, hfl1, hs1, ho1, hw1⟩ :=
        receive_stream_chunks chunks f dc output (min b CHUNK_SIZE) TIMEOUT_NEVER rest hin hne
          hgood (by omega) (by omega) (by decide)
      rw [hres]
      simp only []
      have hnext : Int.toNat ((((b : Int) - ((min b CHUNK_SIZE : Nat) : Int) % 2 ^ 64)) % 2 ^ 64)
          = b - min b CHUNK_SIZE := by
        have hw := sub_wrap b ((min b CHUNK_SIZE : Nat) : Int) (Int.ofNat_nonneg _)
          (by exact_mod_cast hm.2.1) hb
        have hle : min b CHUNK_SIZE ≤ b := hm.2.1
        rw [← Int.ofNat_sub hle] at hw
        exact_mod_cast hw
      rw [hnext, Int.toNat_ofNat]
      obtain ⟨dc2, chunks2, hres2, hin2, hne2, hfl2, hs2, ho2, hw2⟩ :=
        ih dc1 { output with buf := output.buf ++ chunks.flatten.take (min b CHUNK_SIZE) }
          (b - min b CHUNK_SIZE)
          (steps ++ [PutStep.request (min b CHUNK_SIZE), PutStep.flush]) chunks1 rest hin1 hne1
          hgood (by rw [hfl1, List.length_drop]; omega) (by omega) (by omega)
      refine ⟨dc2, chunks2, ?_, hin2, hne2, ?_, hs2.trans hs1, ho2.trans ho1, hw2.trans hw1⟩
      · rw [hres2, chunkRequests_step b hpos, hfl1]
        have htake : chunks.flatten.take (min b CHUNK_SIZE)
            ++ (chunks.flatten.drop (min b CHUNK_SIZE)).take (b - min b CHUNK_SIZE)
            = chunks.flatten.take b := by
          have hsum : b = min b CHUNK_SIZE + (b - min b CHUNK_SIZE) := by omega
          conv_rhs => rw [hsum, List.take_add]
        simp only [stepsOf, List.append_assoc, List.cons_append, List.nil_append, htake]
      · rw [hfl2, hfl1, List.drop_drop]
        congr 1
        omega


/-- Whatever the data channel does, a receive of the loop of `handle_put`
that returns brings between 0 and `bytesLeft` bytes, and the 64-bit
subtraction does not wrap. -/
theorem put_step_no_underflow (f b : Nat) (c : Connection) (out : StdStream) (received : Int)
    (flag : Bool) (c1 : Connection) (out1 : StdStream) (hpos : 0 < b) (hb : b < 2 ^ 64)
    (h : Connection.receive_stream f c out
            (if b > CHUNK_SIZE then (CHUNK_SIZE : Int) else wrapInt32 (b : Int)) TIMEOUT_NEVER
          = Res.ok (received, flag) (c1, out1)) :
    (if b > CHUNK_SIZE then (CHUNK_SIZE : Int) else wrapInt32 (b : Int))
        = ((min b 32768 : Nat) : Int)
    ∧ 0 ≤ received ∧ received ≤ (b : Int)
    ∧ ((Int.toNat (((b : Int) - received % 2 ^ 64) % 2 ^ 64) : Nat) : Int)
        = (b : Int) - received := by
  have hmin : min b CHUNK_SIZE = min b 32768 := by rw [CHUNK_SIZE_eq]
  have hreq := (put_request b hpos hb).trans (congrArg Nat.cast hmin)
  rw [hreq] at h
  obtain ⟨_, bs, _, _, hn, _, _, _, hcase⟩ := receive_stream_spec _ _ _ _ _ _ _ _ _ h
  have hrange : 0 ≤ received ∧ received ≤ (b : Int) := by
    rcases hcase with ⟨_, hbs, _⟩ | ⟨_, hl, _⟩ | ⟨_, h0, _⟩
    · rw [hn, hbs]; simp
    · rw [hn, hl]; omega
    · rw [h0]; omega
  exact ⟨hreq, hrange.1, hrange.2, sub_wrap b received hrange.1 hrange.2 hb⟩

theorem chunkRequests_min (D : Nat) (hpos : 0 < D) :
    chunkRequests D = min D 32768 :: chunkRequests (D - min D 32768) := by
  have := chunkRequests_step D hpos
  rw [CHUNK_SIZE_eq] at this
  exact this

theorem chunkRequests_count (D : Nat) :
    (chunkRequests D).length = (D + 32767) / 32768 ∧ (chunkRequests D).sum = D
      ∧ ∀ n ∈ chunkRequests D, 0 < n ∧ n ≤ 32768 :=
  chunkRequests_facts (D + 1) D (by rw [CHUNK_SIZE_eq]; omega)

theorem put_loop_run (fuel D : Nat) (dc : Connection) (output : StdStream)
    (chunks : List (List Byte)) (rest : List Event)
    (hD : D < 2 ^ 64)
    (hin : dc.os.incoming = chunks.map Event.bytes ++ rest) (hne : ∀ ch ∈ chunks, ch ≠ [])
    (hgood : output.good = true) (hlen : D ≤ chunks.flatten.length) (hfuel : D + 2 ≤ fuel) :
    ∃ dc1, ClientSession.put_loop fuel dc output D []
        = Res.ok (0, stepsOf (chunkRequests D))
            (dc1, { output with buf := output.buf ++ chunks.flatten.take D }) := by
  obtain ⟨dc1, _, hres, _⟩ :=
    put_loop_ok fuel dc output D [] chunks rest hin hne hgood hlen hD hfuel
  exact ⟨dc1, by simpa using hres⟩

/-- C20. The receive loop of `handle_put` for a declared length `D` below
2^64. Every step asks the data channel for `min(remaining, 32768)` bytes and,
whatever the channel does, a receive that returns brings between 0 and
`remaining` bytes, so that the 64-bit subtraction does not wrap. When the data
channel delivers `D` bytes (in non-empty pieces of any size) and the fuel is
`D + 2` or more, the loop ends with `bytesLeft = 0` after one request and one
flush per chunk, the requests being 32768 for each full chunk and then the
rest: `ceil(D / 32768)` chunks that add up to `D`, the destination holding
exactly the first `D` bytes of the channel; for `D = 0` nothing is requested. -/
theorem put_loop_chunks (fuel D : Nat) (dc : Connection) (output : StdStream)
    (chunks : List (List Byte)) (rest : List Event)
    (hD : D < 2 ^ 64)
    (hin : dc.os.incoming = chunks.map Event.bytes ++ rest) (hne : ∀ ch ∈ chunks, ch ≠ [])
    (hgood : output.good = true) (hlen : D ≤ chunks.flatten.length) (hfuel : D + 2 ≤ fuel) :
    (∃ dc1, ClientSession.put_loop fuel dc output D []
        = Res.ok (0, stepsOf (chunkRequests D))
            (dc1, { output with buf := output.buf ++ chunks.flatten.take D }))
    ∧ (chunkRequests D).length = (D + 32767) / 32768
    ∧ (chunkRequests D).sum = D
    ∧ (∀ n ∈ chunkRequests D, 0 < n ∧ n ≤ 32768)
    ∧ (0 < D → chunkRequests D = min D 32768 :: chunkRequests (D - min D 32768))
    ∧ chunkRequests 0 = []
    ∧ (∀ (f b : Nat) (c : Connection) (out : StdStream) (received : Int) (flag : Bool)
        (c1 : Connection) (out1 : StdStream), 0 < b → b < 2 ^ 64 →
        Connection.receive_stream f c out
            (if b > CHUNK_SIZE then (CHUNK_SIZE : Int) else wrapInt32 (b : Int)) TIMEOUT_NEVER
          = Res.ok (received, flag) (c1, out1) →
        (if b > CHUNK_SIZE then (CHUNK_SIZE : Int) else wrapInt32 (b : Int))
            = ((min b 32768 : Nat) : Int)
        ∧ 0 ≤ received ∧ received ≤ (b : Int)
        ∧ ((Int.toNat (((b : Int) - received % 2 ^ 64) % 2 ^ 64) : Nat) : Int)
            = (b : Int) - received) := by
  exact ⟨put_loop_run fuel D dc output chunks rest hD hin hne hgood hlen hfuel,
    (chunkRequests_count D).1, (chunkRequests_count D).2.1, (chunkRequests_count D).2.2,
    chunkRequests_min D, chunkRequests_zero,
    fun f b c out received flag c1 out1 hpos hb h =>
      put_step_no_underflow f b c out received flag c1 out1 hpos hb h⟩

/-- Witness for C20: three bytes declared, arriving as one byte and then two. -/
theorem put_loop_chunks_witness :
    (3 : Nat) < 2 ^ 64
    ∧ (∃ dc1, ClientSession.put_loop 5
          { socket_ := 9,
            os := { idleSock with incoming := [[1], [2, 3]].map Event.bytes ++ [] } }
          StdStream.empty 3 []
        = Res.ok (0, stepsOf (chunkRequests 3))
            (dc1, { StdStream.empty with
                    buf := StdStream.empty.buf ++ ([[1], [2, 3]] : List (List Byte)).flatten.take 3 }))
    ∧ (chunkRequests 3).length = (3 + 32767) / 32768
    ∧ stepsOf (chunkRequests 3) = [PutStep.request 3, PutStep.flush] :=
  ⟨by decide,
   (put_loop_chunks 5 3
      { socket_ := 9, os := { idleSock with incoming := [[1], [2, 3]].map Event.bytes ++ [] } }
      StdStream.empty [[1], [2, 3]] [] (by decide) rfl (by decide) (by decide) (by decide)
      (by decide)).1,
   (put_loop_chunks 5 3
      { socket_ := 9, os := { idleSock with incoming := [[1], [2, 3]].map Event.bytes ++ [] } }
      StdStream.empty [[1], [2, 3]] [] (by decide) rfl (by decide) (by decide) (by decide)
      (by decide)).2.1,
   by decide⟩


theorem chunkRequests_example : chunkRequests 70000 = [32768, 32768, 4464] := by decide

/-- An accepted PUT of the new name `b` with three bytes declared, which
arrive as one byte and then two: OK is sent, the server connects to the client
at port 5000, the file holds the three bytes and the data connection is shut
down. -/
theorem handle_put_example :
    ClientSession.handle_put 50 (exampleWorld [] [Event.bytes [1], Event.bytes [2, 3]])
        { MAKE_MSG MESSAGE_PUT 0 5000 [98] with datalen := 3 }
      = Res.ok ()
          { exampleWorld [] [] with
            control :=
              { socket_ := 7,
                os := { incoming := [], outgoing := [],
                        wire := [128, 0, 13, 0, 0, 0, 0, 0, 0, 0, 0, 0, 0],
                        trace := [Op.send 13 13] } },
            fs := { exampleFs with
                    nodes := ([98], Node.file [1, 2, 3] true true) :: exampleFs.nodes,
                    log := [FsOp.exists [98], FsOp.create [98], FsOp.store [98]] },
            net := { script := [], connects := [("client", 5000)],
                     closed := [{ socket_ := INVALID_SOCKET,
                                  os := { incoming := [], outgoing := [], wire := [],
                                          trace := [Op.select 1, Op.recv 3 1, Op.select 1,
                                                    Op.recv 2 2, Op.shutdown 9, Op.select 1,
                                                    Op.recv 1024 0, Op.close 9] } }] } } := by
  decide

/-! ## The command loop -/

theorem serve_loop_succ (fuel : Nat) (w : World) (uninit : Message) :
    ClientSession.serve_loop (fuel + 1) w uninit =
      match w.control.receive fuel TIMEOUT_IDLE with
      | Res.outOfFuel => Res.outOfFuel
      | Res.throw e r => Res.throw e { w with control := r.conn }
      | Res.ok _ r =>
        if r.timedOut then Res.ok () { w with control := r.conn }
        else if r.msg.msgid = MESSAGE_LS then
          match ClientSession.handle_ls fuel
              { w with control := r.conn, dispatched := w.dispatched ++ [r.msg.msgid] } r.msg with
          | Res.ok _ w1 => ClientSession.serve_loop fuel w1 uninit
          | other => other
        else if r.msg.msgid = MESSAGE_GET then
          match ClientSession.handle_get fuel
              { w with control := r.conn, dispatched := w.dispatched ++ [r.msg.msgid] } r.msg
              uninit with
          | Res.ok _ w1 => ClientSession.serve_loop fuel w1 uninit
          | other => other
        else if r.msg.msgid = MESSAGE_PUT then
          match ClientSession.handle_put fuel
              { w with control := r.conn, dispatched := w.dispatched ++ [r.msg.msgid] } r.msg with
          | Res.ok _ w1 => ClientSession.serve_loop fuel w1 uninit
          | other => other
        else if r.msg.msgid = MESSAGE_QUIT then
          ClientSession.handle_quit fuel
            { w with control := r.conn, dispatched := w.dispatched ++ [r.msg.msgid] }
        else Res.ok () { w with control := r.conn } := rfl

/-- What the loop of `serve` does with a message that arrived in time. -/
theorem serve_loop_received (fuel : Nat) (w : World) (uninit : Message) (n : Int) (r : Received)
    (hrecv : Connection.receive fuel w.control TIMEOUT_IDLE = Res.ok n r)
    (hto : r.timedOut = false) :
    ClientSession.serve_loop (fuel + 1) w uninit =
      if r.msg.msgid = MESSAGE_LS then
        match ClientSession.handle_ls fuel
            { w with control := r.conn, dispatched := w.dispatched ++ [r.msg.msgid] } r.msg with
        | Res.ok _ w1 => ClientSession.serve_loop fuel w1 uninit
        | other => other
      else if r.msg.msgid = MESSAGE_GET then
        match ClientSession.handle_get fuel
            { w with control := r.conn, dispatched := w.dispatched ++ [r.msg.msgid] } r.msg
            uninit with
        | Res.ok _ w1 => ClientSession.serve_loop fuel w1 uninit
        | other => other
      else if r.msg.msgid = MESSAGE_PUT then
        match ClientSession.handle_put fuel
            { w with control := r.conn, dispatched := w.dispatched ++ [r.msg.msgid] } r.msg with
        | Res.ok _ w1 => ClientSession.serve_loop fuel w1 uninit
        | other => other
      else if r.msg.msgid = MESSAGE_QUIT then
        ClientSession.handle_quit fuel
          { w with control := r.conn, dispatched := w.dispatched ++ [r.msg.msgid] }
      else Res.ok () { w with control := r.conn } := by
  rw [serve_loop_succ, hrecv]
  simp only [hto, Bool.false_eq_true, if_false]

/-- On an open connection with fuel for the bytes still to arrive,
`shutdown()` returns: the socket is closed, nothing is written. -/
theorem shutdown_ok (fuel : Nat) (c : Connection)
    (hopen : c.socket_ ≠ INVALID_SOCKET)
    (hfuel : (pending c.os.incoming).length + 1 ≤ fuel) :
    ∃ (c1 : Connection) (ops : List Op), Connection.shutdown fuel c = Res.ok () c1
      ∧ c1.socket_ = INVALID_SOCKET
      ∧ c1.os.trace = c.os.trace ++ ([Op.shutdown c.socket_] ++ ops ++ [Op.close c.socket_])
      ∧ (∀ op ∈ ops, op.isReceive = true)
      ∧ c1.os.wire = c.os.wire ∧ c1.os.outgoing = c.os.outgoing := by
  obtain ⟨b, os1, hres, hb, ho, hw, ops, hops, hall⟩ :=
    drain_ok fuel (c.os.shutdownSend c.socket_) 0 hfuel (le_refl 0)
  have hne : ¬ (b = SOCKET_ERROR) := by unfold SOCKET_ERROR; omega
  refine ⟨{ socket_ := INVALID_SOCKET, os := os1.close c.socket_ }, ops, ?_, rfl, ?_, hall,
    hw, ho⟩
  · unfold Connection.shutdown
    rw [if_neg hopen, hres]
    simp only []
    rw [if_neg hne]
  · show os1.trace ++ [Op.close c.socket_] = _
    rw [hops]
    simp [Sock.shutdownSend]

/-- C21. In the loop of `serve`, a message that arrived in time and whose
`msgid` is none of LS, GET, PUT ends the loop with nothing written on the
control connection and with the filesystem and the network untouched. When
the `msgid` is not QUIT either, the loop returns at once, the control
connection left as the receive left it (same descriptor, no shutdown) and no
handler dispatched. When it is QUIT and the control connection is open,
`handle_quit` is the one handler dispatched and the control connection has
been shut down (`::shutdown`, drain, `closesocket`) when the loop returns. -/
theorem serve_other_message_ends (fuel : Nat) (w : World) (uninit : Message) (n : Int)
    (r : Received)
    (hrecv : Connection.receive fuel w.control TIMEOUT_IDLE = Res.ok n r)
    (hto : r.timedOut = false)
    (hls : r.msg.msgid ≠ MESSAGE_LS) (hget : r.msg.msgid ≠ MESSAGE_GET)
    (hput : r.msg.msgid ≠ MESSAGE_PUT) :
    (r.msg.msgid ≠ MESSAGE_QUIT →
        ClientSession.serve_loop (fuel + 1) w uninit = Res.ok () { w with control := r.conn }
        ∧ r.conn.os.wire = w.control.os.wire ∧ r.conn.socket_ = w.control.socket_)
    ∧ (r.msg.msgid = MESSAGE_QUIT → r.conn.socket_ ≠ INVALID_SOCKET →
        (pending r.conn.os.incoming).length + 1 ≤ fuel →
        ∃ (c1 : Connection) (ops : List Op),
          ClientSession.serve_loop (fuel + 1) w uninit
            = Res.ok () { w with control := c1, dispatched := w.dispatched ++ [MESSAGE_QUIT] }
          ∧ c1.socket_ = INVALID_SOCKET
          ∧ c1.os.wire = w.control.os.wire
          ∧ c1.os.trace = r.conn.os.trace
              ++ ([Op.shutdown r.conn.socket_] ++ ops ++ [Op.close r.conn.socket_])
          ∧ ∀ op ∈ ops, op.isReceive = true) := by
  have hw := receive_wire _ _ _ _ _ hrecv
  have hloop := serve_loop_received fuel w uninit n r hrecv hto
  rw [if_neg hls, if_neg hget, if_neg hput] at hloop
  constructor
  · intro hq
    rw [if_neg hq] at hloop
    exact ⟨hloop, hw.1, hw.2.2⟩
  · intro hq hopen hfuel
    rw [if_pos hq] at hloop
    obtain ⟨c1, ops, hs, hinv, htr, hall, hwire, _⟩ := shutdown_ok fuel r.conn hopen hfuel
    refine ⟨c1, ops, ?_, hinv, hwire.trans hw.1, htr, hall⟩
    rw [hloop]
    unfold ClientSession.handle_quit
    simp only []
    rw [hs, hq]


/-- Witness for C21: a HELLO message and a QUIT message arriving in the
command loop of the example session. -/
theorem serve_other_message_ends_witness :
    (ClientSession.serve_loop (20 + 1)
          (exampleWorld [Event.bytes [32, 0, 13, 0, 0, 0, 0, 0, 0, 0, 0, 0, 0]] []) ZERO_MSG
        = Res.ok ()
            { exampleWorld [Event.bytes [32, 0, 13, 0, 0, 0, 0, 0, 0, 0, 0, 0, 0]] [] with
              control := { socket_ := 7,
                           os := { incoming := [], outgoing := [], wire := [],
                                   trace := [Op.select 1, Op.recv 13 13] } } })
    ∧ ∃ (c1 : Connection) (ops : List Op),
        ClientSession.serve_loop (20 + 1)
            (exampleWorld [Event.bytes [4, 0, 13, 0, 0, 0, 0, 0, 0, 0, 0, 0, 0]] []) ZERO_MSG
          = Res.ok ()
              { exampleWorld [Event.bytes [4, 0, 13, 0, 0, 0, 0, 0, 0, 0, 0, 0, 0]] [] with
                control := c1,
                dispatched :=
                  (exampleWorld [Event.bytes [4, 0, 13, 0, 0, 0, 0, 0, 0, 0, 0, 0, 0]]
                    []).dispatched ++ [MESSAGE_QUIT] }
        ∧ c1.socket_ = INVALID_SOCKET
        ∧ c1.os.wire
            = (exampleWorld [Event.bytes [4, 0, 13, 0, 0, 0, 0, 0, 0, 0, 0, 0, 0]]
                []).control.os.wire
        ∧ c1.os.trace = [Op.select 1, Op.recv 13 13] ++ ([Op.shutdown 7] ++ ops ++ [Op.close 7])
        ∧ ∀ op ∈ ops, op.isReceive = true :=
  ⟨((serve_other_message_ends 20
        (exampleWorld [Event.bytes [32, 0, 13, 0, 0, 0, 0, 0, 0, 0, 0, 0, 0]] []) ZERO_MSG 13
        { conn := { socket_ := 7,
                    os := { incoming := [], outgoing := [], wire := [],
                            trace := [Op.select 1, Op.recv 13 13] } },
          msg := { msgid := 32, msglen := 13, datalen := 0, port := 0, payload := [] },
          timedOut := false }
        (by decide) rfl (by decide) (by decide) (by decide)).1 (by decide)).1,
   (serve_other_message_ends 20
        (exampleWorld [Event.bytes [4, 0, 13, 0, 0, 0, 0, 0, 0, 0, 0, 0, 0]] []) ZERO_MSG 13
        { conn := { socket_ := 7,
                    os := { incoming := [], outgoing := [], wire := [],
                            trace := [Op.select 1, Op.recv 13 13] } },
          msg := { msgid := 4, msglen := 13, datalen := 0, port := 0, payload := [] },
          timedOut := false }
        (by decide) rfl (by decide) (by decide) (by decide)).2 rfl (by decide) (by decide)⟩

/-- C22 (the code at the failing input). The command loop receives a GET whose
name is 1000 slashes, followed by a QUIT. The GET fails the separator check,
but the loop does not go on: `handle_get` ends with the `std::invalid_argument`
of `Connection::send`, `serve` ends with it, no ERROR message has been sent
and the QUIT is never received. -/
theorem serve_get_long_name_ends :
    ∃ w1, ClientSession.serve_loop (1100 + 1)
          (exampleWorld
            [Event.bytes ([2, 3, 245, 0, 0, 0, 0, 0, 0, 0, 0, 19, 136]
              ++ List.replicate 1000 SLASH),
             Event.bytes [4, 0, 13, 0, 0, 0, 0, 0, 0, 0, 0, 0, 0]] [])
          ZERO_MSG
        = Res.throw Exn.payload_too_long w1
      ∧ w1.control.os.wire = []
      ∧ w1.control.os.incoming = [Event.bytes [4, 0, 13, 0, 0, 0, 0, 0, 0, 0, 0, 0, 0]]
      ∧ w1.dispatched = [MESSAGE_GET] := by
  obtain ⟨r, hr, hmsg, hto, hrest, _, _, hwire⟩ :=
    receive_decodes 1100
      (exampleWorld
        [Event.bytes ([2, 3, 245, 0, 0, 0, 0, 0, 0, 0, 0, 19, 136] ++ List.replicate 1000 SLASH),
         Event.bytes [4, 0, 13, 0, 0, 0, 0, 0, 0, 0, 0, 0, 0]] []).control
      TIMEOUT_IDLE
      [[2, 3, 245, 0, 0, 0, 0, 0, 0, 0, 0, 19, 136] ++ List.replicate 1000 SLASH]
      [Event.bytes [4, 0, 13, 0, 0, 0, 0, 0, 0, 0, 0, 0, 0]]
      2 3 245 0 0 0 0 0 0 0 0 19 136 (List.replicate 1000 SLASH)
      (by show _ ++ [] = _
          rw [List.append_nil])
      (by rw [List.length_replicate]; decide)
      (by intro ch hch
          rw [List.mem_singleton] at hch
          rw [hch]
          exact List.cons_ne_nil _ _)
      rfl
      (by rw [List.length_replicate]; decide)
      (by decide)
  have hid : r.msg.msgid = MESSAGE_GET := by rw [hmsg]; decide
  have hpl : r.msg.payload = List.replicate 1000 SLASH := by rw [hmsg]
  have hloop := serve_loop_received 1100 _ ZERO_MSG _ r hr hto
  rw [if_neg (by rw [hid]; decide), if_pos hid,
    handle_get_long_name 1100 _ r.msg ZERO_MSG
      (by rw [hpl, List.mem_replicate]; exact ⟨by decide, rfl⟩)
      (by rw [hpl, List.length_replicate]; decide)] at hloop
  refine ⟨_, hloop, ?_, hrest, ?_⟩
  · exact hwire
  · show [] ++ [r.msg.msgid] = [MESSAGE_GET]
    rw [hid]
    rfl

/-- A GET for the missing name `b` followed by a QUIT: the ERROR reply with
`ERR_DOES_NOT_EXIST` is sent, the loop receives the QUIT and shuts the control
connection down. -/
theorem serve_get_missing_example :
    ClientSession.serve_loop 40
        (exampleWorld
          [Event.bytes [2, 0, 14, 0, 0, 0, 0, 0, 0, 0, 0, 19, 136, 98],
           Event.bytes [4, 0, 13, 0, 0, 0, 0, 0, 0, 0, 0, 0, 0]] [])
        ZERO_MSG
      = Res.ok ()
          { exampleWorld [] [] with
            control :=
              { socket_ := INVALID_SOCKET,
                os := { incoming := [], outgoing := [],
                        wire := [200, 0, 41, 0, 0, 0, 0, 0, 0, 0, 0, 0, 2]
                          ++ (str "File " ++ [QUOTE] ++ [98] ++ [QUOTE]
                              ++ str " not found on server"),
                        trace := [Op.select 1, Op.recv 13 13, Op.select 1, Op.recv 1 1,
                                  Op.send 41 41, Op.select 1, Op.recv 13 13, Op.shutdown 7,
                                  Op.select 1, Op.recv 1024 0, Op.close 7] } },
            fs := { exampleFs with log := [FsOp.exists [98]] },
            dispatched := [MESSAGE_GET, MESSAGE_QUIT] } := by
  decide

/-! ## Exceptions in the handlers -/

theorem shutdown_never_throws (fuel : Nat) (c : Connection) (e : Exn) (s : Connection) :
    Connection.shutdown fuel c ≠ Res.throw e s := by
  intro h
  unfold Connection.shutdown at h
  split at h
  · simp at h
  · rcases drain_no_throw fuel (c.os.shutdownSend c.socket_) 0 (le_refl 0) with
      hd | ⟨b, os1, hd, hb⟩
    · rw [hd] at h; simp at h
    · rw [hd] at h
      simp only [] at h
      rw [if_neg (by unfold SOCKET_ERROR; omega)] at h
      simp at h

theorem destroy_never_throws (fuel : Nat) (c : Connection) (e : Exn) (s : Connection) :
    Connection.destroy fuel c ≠ Res.throw e s := by
  intro h
  unfold Connection.destroy at h
  split at h
  · cases hs : Connection.shutdown fuel c with
    | outOfFuel => rw [hs] at h; simp at h
    | throw e1 c1 => exact shutdown_never_throws fuel c e1 c1 hs
    | ok a c1 => rw [hs] at h; simp at h
  · simp at h

theorem release_never_throws (net : Network) (fuel : Nat) (c : Connection) (e : Exn)
    (s : Network) : net.release fuel c ≠ Res.throw e s := by
  intro h
  unfold Network.release at h
  cases hd : Connection.destroy fuel c with
  | outOfFuel => rw [hd] at h; simp at h
  | throw e1 c1 => exact destroy_never_throws fuel c e1 c1 hd
  | ok a c1 => rw [hd] at h; simp at h

theorem caught_throw (e e1 : Exn) (w w1 : World) (h : caught e w = Res.throw e1 w1) :
    e1.isConnectionException = false := by
  unfold caught at h
  split at h
  · simp at h
  · rename_i hc
    simp only [Res.throw.injEq] at h
    rw [← h.1]
    simpa using hc

theorem leave_swallow_throw (fuel : Nat) (w : World) (dc : Connection) (e : Option Exn)
    (e1 : Exn) (w1 : World)
    (h : ClientSession.leave fuel w dc swallow e = Res.throw e1 w1) :
    e1.isConnectionException = false := by
  unfold ClientSession.leave at h
  cases hr : w.net.release fuel dc with
  | outOfFuel => rw [hr] at h; simp at h
  | throw e2 n2 => exact (release_never_throws _ _ _ _ _ hr).elim
  | ok a n2 =>
    rw [hr] at h
    simp only [] at h
    cases e with
    | none => simp [swallow] at h
    | some e0 => exact caught_throw e0 e1 _ w1 h

/-- No `ConnectionException` leaves `handle_get`. -/
theorem handle_get_throw (fuel : Nat) (w : World) (clientCommand uninit : Message) (e : Exn)
    (w1 : World) (h : ClientSession.handle_get fuel w clientCommand uninit = Res.throw e w1) :
    e.isConnectionException = false := by
  unfold ClientSession.handle_get at h
  rcases hg : ClientSession.get_checks w.fs clientCommand { uninit with payload := [] } with
    ⟨response, input, fileSize, fs1⟩
  rw [hg] at h
  simp only [] at h
  split at h
  · cases hs : Connection.send fuel w.control response with
    | outOfFuel => rw [hs] at h; simp at h
    | throw e2 c2 => rw [hs] at h; exact caught_throw _ _ _ _ h
    | ok a c2 => rw [hs] at h; simp at h
  · rcases hc : Connection.connect w.net w.remoteName clientCommand.port with ⟨dco, net1⟩
    rw [hc] at h
    cases dco with
    | none => exact caught_throw _ _ _ _ h
    | some dataChannel =>
      simp only [] at h
      cases hs : Connection.send fuel w.control
          { MAKE_MSG MESSAGE_OK 0 0 [] with datalen := Int.toNat (fileSize % 2 ^ 64) } with
      | outOfFuel => rw [hs] at h; simp at h
      | throw e2 c2 => rw [hs] at h; exact leave_swallow_throw _ _ _ _ _ _ h
      | ok a c2 =>
        rw [hs] at h
        simp only [] at h
        cases hd : Connection.send_stream fuel dataChannel input with
        | outOfFuel => rw [hd] at h; simp at h
        | throw e3 s3 =>
          rw [hd] at h
          obtain ⟨dc1, d1⟩ := s3
          exact leave_swallow_throw _ _ _ _ _ _ h
        | ok b s3 =>
          rw [hd] at h
          obtain ⟨dc1, d1⟩ := s3
          simp only [] at h
          cases hsh : Connection.shutdown fuel dc1 with
          | outOfFuel => rw [hsh] at h; simp at h
          | throw e4 dc2 => rw [hsh] at h; exact leave_swallow_throw _ _ _ _ _ _ h
          | ok u dc2 => rw [hsh] at h; exact leave_swallow_throw _ _ _ _ _ _ h

/-- C23 (amended). A message arrived in time in the command loop. Whatever
`handle_ls` or `handle_put` throws ends the loop at once, with no further
receive: so does a failed connect in LS, and in PUT a failed send of the reply
and a failed connect after the OK. No `ConnectionException` leaves
`handle_get`: when the connect of a GET that passed its checks fails, the loop
goes on to receive the next message; and when the receive loop of PUT fails on
the data channel with a `ConnectionException`, the loop goes on as well. -/
theorem transport_failure_outcomes (fuel : Nat) (w : World) (uninit : Message) (n : Int)
    (r : Received)
    (hrecv : Connection.receive fuel w.control TIMEOUT_IDLE = Res.ok n r)
    (hto : r.timedOut = false) :
    (r.msg.msgid = MESSAGE_LS → ∀ e w1,
        ClientSession.handle_ls fuel
            { w with control := r.conn, dispatched := w.dispatched ++ [r.msg.msgid] } r.msg
          = Res.throw e w1 →
        ClientSession.serve_loop (fuel + 1) w uninit = Res.throw e w1)
    ∧ (r.msg.msgid = MESSAGE_PUT → ∀ e w1,
        ClientSession.handle_put fuel
            { w with control := r.conn, dispatched := w.dispatched ++ [r.msg.msgid] } r.msg
          = Res.throw e w1 →
        ClientSession.serve_loop (fuel + 1) w uninit = Res.throw e w1)
    ∧ (r.msg.msgid = MESSAGE_LS →
        (Connection.connect w.net w.remoteName r.msg.port).1 = none →
        ClientSession.serve_loop (fuel + 1) w uninit
          = Res.throw Exn.connect_failed
              { w with control := r.conn, dispatched := w.dispatched ++ [r.msg.msgid],
                       net := (Connection.connect w.net w.remoteName r.msg.port).2 })
    ∧ (r.msg.msgid = MESSAGE_PUT → ∀ e c1,
        Connection.send fuel r.conn (ClientSession.put_checks w.fs r.msg).1 = Res.throw e c1 →
        ClientSession.serve_loop (fuel + 1) w uninit
          = Res.throw e
              { w with control := c1, dispatched := w.dispatched ++ [r.msg.msgid],
                       fs := (ClientSession.put_checks w.fs r.msg).2.2 })
    ∧ (r.msg.msgid = MESSAGE_PUT → ∀ k c1,
        (ClientSession.put_checks w.fs r.msg).1.msgid = MESSAGE_OK →
        Connection.send fuel r.conn (ClientSession.put_checks w.fs r.msg).1 = Res.ok k c1 →
        (Connection.connect w.net w.remoteName r.msg.port).1 = none →
        ClientSession.serve_loop (fuel + 1) w uninit
          = Res.throw Exn.connect_failed
              { w with control := c1, dispatched := w.dispatched ++ [r.msg.msgid],
                       fs := (ClientSession.put_checks w.fs r.msg).2.2,
                       net := (Connection.connect w.net w.remoteName r.msg.port).2 })
    ∧ (∀ wg cmd e w1, ClientSession.handle_get fuel wg cmd uninit = Res.throw e w1 →
        e.isConnectionException = false)
    ∧ (r.msg.msgid = MESSAGE_GET →
        (ClientSession.get_checks w.fs r.msg { uninit with payload := [] }).1.msgid
          ≠ MESSAGE_ERROR →
        (Connection.connect w.net w.remoteName r.msg.port).1 = none →
        ClientSession.serve_loop (fuel + 1) w uninit
          = ClientSession.serve_loop fuel
              { w with control := r.conn, dispatched := w.dispatched ++ [r.msg.msgid],
                       fs := (ClientSession.get_checks w.fs r.msg
                                { uninit with payload := [] }).2.2.2,
                       net := (Connection.connect w.net w.remoteName r.msg.port).2 }
              uninit)
    ∧ (r.msg.msgid = MESSAGE_PUT → ∀ k c1 dc net1 e dc1 out1 net2,
        (ClientSession.put_checks w.fs r.msg).1.msgid = MESSAGE_OK →
        Connection.send fuel r.conn (ClientSession.put_checks w.fs r.msg).1 = Res.ok k c1 →
        Connection.connect w.net w.remoteName r.msg.port = (some dc, net1) →
        ClientSession.put_loop fuel dc StdStream.empty r.msg.datalen []
          = Res.throw e (dc1, out1) →
        e.isConnectionException = true →
        net1.release fuel dc1 = Res.ok () net2 →
        ClientSession.serve_loop (fuel + 1) w uninit
          = ClientSession.serve_loop fuel
              { w with control := c1, dispatched := w.dispatched ++ [r.msg.msgid],
                       fs := (ClientSession.put_checks w.fs r.msg).2.2.store r.msg.payload
                               out1.buf,
                       net := net2 }
              uninit) := by
  have hloop := serve_loop_received fuel w uninit n r hrecv hto
  have hpl : MESSAGE_PUT ≠ MESSAGE_LS := by decide
  have hpg : MESSAGE_PUT ≠ MESSAGE_GET := by decide
  have hgl : MESSAGE_GET ≠ MESSAGE_LS := by decide
  refine ⟨?_, ?_, ?_, ?_, ?_, ?_, ?_, ?_⟩
  · intro hid e w1 hthrow
    rw [if_pos hid, hthrow] at hloop
    exact hloop
  · intro hid e w1 hthrow
    rw [if_neg (by rw [hid]; exact hpl), if_neg (by rw [hid]; exact hpg), if_pos hid,
      hthrow] at hloop
    exact hloop
  · intro hid hconn
    rw [if_pos hid] at hloop
    rw [hloop]
    unfold ClientSession.handle_ls
    rcases hc : Connection.connect w.net w.remoteName r.msg.port with ⟨dco, net1⟩
    rw [hc] at hconn
    simp only [] at hconn ⊢
    rw [hconn]
  · intro hid e c1 hsend
    rw [if_neg (by rw [hid]; exact hpl), if_neg (by rw [hid]; exact hpg), if_pos hid] at hloop
    rw [hloop]
    unfold ClientSession.handle_put
    rcases hp : ClientSession.put_checks w.fs r.msg with ⟨response, isOpen, fs1⟩
    rw [hp] at hsend
    simp only [] at hsend ⊢
    rw [hsend]
  · intro hid k c1 hok hsend hconn
    rw [if_neg (by rw [hid]; exact hpl), if_neg (by rw [hid]; exact hpg), if_pos hid] at hloop
    rw [hloop]
    unfold ClientSession.handle_put
    rcases hp : ClientSession.put_checks w.fs r.msg with ⟨response, isOpen, fs1⟩
    rw [hp] at hsend hok
    simp only [] at hsend hok ⊢
    rw [hsend]
    simp only []
    rw [if_neg (by simp [hok])]
    rcases hc : Connection.connect w.net w.remoteName r.msg.port with ⟨dco, net1⟩
    rw [hc] at hconn
    simp only [] at hconn ⊢
    rw [hconn]
  · intro wg cmd e w1 h
    exact handle_get_throw fuel wg cmd uninit e w1 h
  · intro hid hok hconn
    rw [if_neg (by rw [hid]; exact hgl), if_pos hid] at hloop
    rw [hloop]
    unfold ClientSession.handle_get
    rcases hg : ClientSession.get_checks w.fs r.msg { uninit with payload := [] } with
      ⟨response, input, fileSize, fs1⟩
    rw [hg] at hok
    simp only [] at hok ⊢
    rw [if_neg hok]
    rcases hc : Connection.connect w.net w.remoteName r.msg.port with ⟨dco, net1⟩
    rw [hc] at hconn
    simp only [] at hconn ⊢
    rw [hconn]
    rfl
  · intro hid k c1 dc net1 e dc1 out1 net2 hok hsend hc hput he hrel
    rw [if_neg (by rw [hid]; exact hpl), if_neg (by rw [hid]; exact hpg), if_pos hid] at hloop
    rw [hloop]
    unfold ClientSession.handle_put
    rcases hp : ClientSession.put_checks w.fs r.msg with ⟨response, isOpen, fs1⟩
    rw [hp] at hsend hok
    simp only [] at hsend hok ⊢
    rw [hsend]
    simp only []
    rw [if_neg (by simp [hok]), hc]
    simp only []
    rw [hput]
    simp only []
    unfold ClientSession.leave
    simp only []
    rw [hrel]
    simp only [swallow, caught, he, if_true]


/-- Witness for C23: a GET for the file `a` arrives, followed by a QUIT, and
no connection to the client can be made: the loop goes on after the GET. -/
theorem transport_failure_outcomes_witness :
    ClientSession.serve_loop (30 + 1)
        (unreachableWorld
          [Event.bytes [2, 0, 14, 0, 0, 0, 0, 0, 0, 0, 0, 19, 136, 97],
           Event.bytes [4, 0, 13, 0, 0, 0, 0, 0, 0, 0, 0, 0, 0]])
        { ZERO_MSG with msgid := 0 }
      = ClientSession.serve_loop 30
          { unreachableWorld [Event.bytes [4, 0, 13, 0, 0, 0, 0, 0, 0, 0, 0, 0, 0]] with
            control :=
              { socket_ := 7,
                os := { incoming := [Event.bytes [4, 0, 13, 0, 0, 0, 0, 0, 0, 0, 0, 0, 0]],
                        outgoing := [], wire := [],
                        trace := [Op.select 1, Op.recv 13 13, Op.select 1, Op.recv 1 1] } },
            dispatched := [MESSAGE_GET],
            fs := { exampleFs with
                    log := [FsOp.exists [97], FsOp.is_regular_file [97], FsOp.open [97]] },
            net := { script := [], connects := [("client", 5000)], closed := [] } }
          { ZERO_MSG with msgid := 0 } :=
  (transport_failure_outcomes 30
      (unreachableWorld
        [Event.bytes [2, 0, 14, 0, 0, 0, 0, 0, 0, 0, 0, 19, 136, 97],
         Event.bytes [4, 0, 13, 0, 0, 0, 0, 0, 0, 0, 0, 0, 0]])
      { ZERO_MSG with msgid := 0 } 14
      { conn := { socket_ := 7,
                  os := { incoming := [Event.bytes [4, 0, 13, 0, 0, 0, 0, 0, 0, 0, 0, 0, 0]],
                          outgoing := [], wire := [],
                          trace := [Op.select 1, Op.recv 13 13, Op.select 1, Op.recv 1 1] } },
        msg := { msgid := 2, msglen := 14, datalen := 0, port := 5000, payload := [97] },
        timedOut := false }
      (by decide) rfl).2.2.2.2.2.2.1 (by decide) (by decide) (by decide)

/-- C23 (counterexample). A GET for the existing file `a` arrives, followed by
a QUIT, and the connect to the data port of the client fails: the
`ConnectionException` is caught in `handle_get`, nothing is sent, and the loop
receives and dispatches the QUIT. -/
theorem serve_get_connect_failure_goes_on :
    ClientSession.serve_loop 40
        (unreachableWorld
          [Event.bytes [2, 0, 14, 0, 0, 0, 0, 0, 0, 0, 0, 19, 136, 97],
           Event.bytes [4, 0, 13, 0, 0, 0, 0, 0, 0, 0, 0, 0, 0]])
        { ZERO_MSG with msgid := 0 }
      = Res.ok ()
          { unreachableWorld [] with
            control :=
              { socket_ := INVALID_SOCKET,
                os := { incoming := [], outgoing := [], wire := [],
                        trace := [Op.select 1, Op.recv 13 13, Op.select 1, Op.recv 1 1,
                                  Op.select 1, Op.recv 13 13, Op.shutdown 7, Op.select 1,
                                  Op.recv 1024 0, Op.close 7] } },
            fs := { exampleFs with
                    log := [FsOp.exists [97], FsOp.is_regular_file [97], FsOp.open [97]] },
            net := { script := [], connects := [("client", 5000)], closed := [] },
            dispatched := [MESSAGE_GET, MESSAGE_QUIT] } := by
  decide

/-! ## Bounds of `receive` -/

/-- C24 (the code at the failing input). A frame whose header declares
`msglen = 1038` and which carries 1025 payload bytes:
`Connection::receive(Message*)` returns it, with a payload of 1025 bytes,
above `MAX_PAYLOAD_LEN = 1024`. -/
theorem receive_oversized_payload :
    ∃ r, Connection.receive 1100
          { socket_ := 3,
            os := { idleSock with
                    incoming := [Event.bytes ([2, 4, 14, 0, 0, 0, 0, 0, 0, 0, 0, 19, 136]
                      ++ List.replicate 1025 0)] } }
          TIMEOUT_NEVER
        = Res.ok 1038 r
      ∧ r.msg.msgid = MESSAGE_GET ∧ r.msg.msglen = 1038
      ∧ r.msg.payload = List.replicate 1025 0
      ∧ r.msg.payload.length = 1025
      ∧ MAX_PAYLOAD_LEN = 1024 := by
  obtain ⟨r, hr, hmsg, _⟩ :=
    receive_decodes 1100
      { socket_ := 3,
        os := { idleSock with
                incoming := [Event.bytes ([2, 4, 14, 0, 0, 0, 0, 0, 0, 0, 0, 19, 136]
                  ++ List.replicate 1025 0)] } }
      TIMEOUT_NEVER
      [[2, 4, 14, 0, 0, 0, 0, 0, 0, 0, 0, 19, 136] ++ List.replicate 1025 0] []
      2 4 14 0 0 0 0 0 0 0 0 19 136 (List.replicate 1025 0)
      (by show _ ++ [] = _
          rw [List.append_nil])
      (by rw [List.length_replicate]; decide)
      (by intro ch hch
          rw [List.mem_singleton] at hch
          rw [hch]
          exact List.cons_ne_nil _ _)
      rfl
      (by rw [List.length_replicate]; decide)
      (by decide)
  rw [List.length_replicate] at hr
  refine ⟨r, hr, ?_, ?_, ?_, ?_, rfl⟩
  · rw [hmsg]; decide
  · rw [hmsg]; decide
  · rw [hmsg]
  · rw [hmsg]
    show (List.replicate 1025 (0 : Byte)).length = 1025
    rw [List.length_replicate]

/-! ## The order of the OK reply and the connect -/

theorem connect_connects (net : Network) (remoteName : String) (destPort : Nat) :
    (Connection.connect net remoteName destPort).2.connects
      = net.connects ++ [(remoteName, destPort)] := by
  unfold Connection.connect
  split <;> rfl

/-- In `handle_put` a connect is attempted only after the OK reply has been
sent. -/
theorem handle_put_connect_after_ok (fuel : Nat) (w : World) (clientCommand : Message)
    (w1 : World)
    (hout : ClientSession.handle_put fuel w clientCommand = Res.ok () w1
      ∨ ∃ e, ClientSession.handle_put fuel w clientCommand = Res.throw e w1)
    (hnet : w1.net.connects ≠ w.net.connects) :
    (ClientSession.put_checks w.fs clientCommand).1.msgid = MESSAGE_OK
    ∧ ∃ k c1, Connection.send fuel w.control (ClientSession.put_checks w.fs clientCommand).1
        = Res.ok k c1 := by
  unfold ClientSession.handle_put at hout
  rcases hp : ClientSession.put_checks w.fs clientCommand with ⟨response, isOpen, fs1⟩
  rw [hp] at hout
  simp only [] at hout ⊢
  cases hs : Connection.send fuel w.control response with
  | outOfFuel =>
    rw [hs] at hout
    rcases hout with h | ⟨e, h⟩ <;> simp at h
  | throw e1 c1 =>
    rw [hs] at hout
    rcases hout with h | ⟨e, h⟩
    · simp at h
    · simp only [Res.throw.injEq] at h
      rw [← h.2] at hnet
      exact (hnet rfl).elim
  | ok k c1 =>
    rw [hs] at hout
    simp only [] at hout
    by_cases hok : response.msgid = MESSAGE_OK
    · exact ⟨hok, k, c1, rfl⟩
    · rw [if_pos hok] at hout
      rcases hout with h | ⟨e, h⟩
      · simp only [Res.ok.injEq, true_and] at h
        rw [← h] at hnet
        exact (hnet rfl).elim
      · simp at h

/-- C25 (amended). In `handle_put` a connect is attempted only after the OK
reply has been sent on the control connection. In `handle_get` (for a request
that passed the checks) and in `handle_ls` the connect comes first: when it
fails, the connect has been attempted and nothing at all has been sent on the
control connection; and whenever something has been sent on the control
connection, the connect had succeeded. -/
theorem ok_and_connect_order (fuel : Nat) (w : World) (clientCommand uninit : Message) :
    (∀ w1, (ClientSession.handle_put fuel w clientCommand = Res.ok () w1
          ∨ ∃ e, ClientSession.handle_put fuel w clientCommand = Res.throw e w1) →
        w1.net.connects ≠ w.net.connects →
        (ClientSession.put_checks w.fs clientCommand).1.msgid = MESSAGE_OK
        ∧ ∃ k c1, Connection.send fuel w.control (ClientSession.put_checks w.fs clientCommand).1
            = Res.ok k c1)
    ∧ ((ClientSession.get_checks w.fs clientCommand { uninit with payload := [] }).1.msgid
          ≠ MESSAGE_ERROR →
        (Connection.connect w.net w.remoteName clientCommand.port).1 = none →
        ∃ w1, ClientSession.handle_get fuel w clientCommand uninit = Res.ok () w1
          ∧ w1.control = w.control
          ∧ w1.net.connects = w.net.connects ++ [(w.remoteName, clientCommand.port)])
    ∧ ((Connection.connect w.net w.remoteName clientCommand.port).1 = none →
        ∃ w1, ClientSession.handle_ls fuel w clientCommand = Res.throw Exn.connect_failed w1
          ∧ w1.control = w.control
          ∧ w1.net.connects = w.net.connects ++ [(w.remoteName, clientCommand.port)])
    ∧ ((ClientSession.get_checks w.fs clientCommand { uninit with payload := [] }).1.msgid
          ≠ MESSAGE_ERROR →
        ∀ w1, (ClientSession.handle_get fuel w clientCommand uninit = Res.ok () w1
          ∨ ∃ e, ClientSession.handle_get fuel w clientCommand uninit = Res.throw e w1) →
        w1.control ≠ w.control →
        ∃ dc, (Connection.connect w.net w.remoteName clientCommand.port).1 = some dc)
    ∧ (∀ w1, (ClientSession.handle_ls fuel w clientCommand = Res.ok () w1
          ∨ ∃ e, ClientSession.handle_ls fuel w clientCommand = Res.throw e w1) →
        w1.control ≠ w.control →
        ∃ dc, (Connection.connect w.net w.remoteName clientCommand.port).1 = some dc) := by
  refine ⟨fun w1 hout hnet => handle_put_connect_after_ok fuel w clientCommand w1 hout hnet,
    ?_, ?_, ?_, ?_⟩
  · intro hok hconn
    have hcc := connect_connects w.net w.remoteName clientCommand.port
    unfold ClientSession.handle_get
    rcases hg : ClientSession.get_checks w.fs clientCommand { uninit with payload := [] } with
      ⟨response, input, fileSize, fs1⟩
    rw [hg] at hok
    simp only [] at hok ⊢
    rw [if_neg hok]
    rcases hc : Connection.connect w.net w.remoteName clientCommand.port with ⟨dco, net1⟩
    rw [hc] at hconn hcc
    simp only [] at hconn hcc ⊢
    rw [hconn]
    exact ⟨_, rfl, rfl, hcc⟩
  · intro hconn
    have hcc := connect_connects w.net w.remoteName clientCommand.port
    unfold ClientSession.handle_ls
    rcases hc : Connection.connect w.net w.remoteName clientCommand.port with ⟨dco, net1⟩
    rw [hc] at hconn hcc
    simp only [] at hconn hcc ⊢
    rw [hconn]
    exact ⟨_, rfl, rfl, hcc⟩
  · intro hok w1 hout hctl
    unfold ClientSession.handle_get at hout
    rcases hg : ClientSession.get_checks w.fs clientCommand { uninit with payload := [] } with
      ⟨response, input, fileSize, fs1⟩
    rw [hg] at hok hout
    simp only [] at hok hout
    rw [if_neg hok] at hout
    rcases hc : Connection.connect w.net w.remoteName clientCommand.port with ⟨dco, net1⟩
    rw [hc] at hout
    cases dco with
    | some dc => exact ⟨dc, rfl⟩
    | none =>
      simp only [caught] at hout
      rcases hout with h | ⟨e, h⟩
      · simp only [Exn.isConnectionException, if_true, Res.ok.injEq, true_and] at h
        rw [← h] at hctl
        exact (hctl rfl).elim
      · simp [Exn.isConnectionException] at h
  · intro w1 hout hctl
    unfold ClientSession.handle_ls at hout
    rcases hc : Connection.connect w.net w.remoteName clientCommand.port with ⟨dco, net1⟩
    rw [hc] at hout
    cases dco with
    | some dc => exact ⟨dc, rfl⟩
    | none =>
      rcases hout with h | ⟨e, h⟩
      · simp at h
      · simp only [Res.throw.injEq] at h
        rw [← h.2] at hctl
        exact (hctl rfl).elim


/-- Witness for C25: a GET for the file `a` when no connection to the client
can be made. -/
theorem ok_and_connect_order_witness :
    ∃ w1, ClientSession.handle_get 50 (unreachableWorld []) (MAKE_MSG MESSAGE_GET 0 5000 [97])
          { ZERO_MSG with msgid := 0 } = Res.ok () w1
      ∧ w1.control = (unreachableWorld []).control
      ∧ w1.net.connects = (unreachableWorld []).net.connects
          ++ [((unreachableWorld []).remoteName, (MAKE_MSG MESSAGE_GET 0 5000 [97]).port)] :=
  (ok_and_connect_order 50 (unreachableWorld []) (MAKE_MSG MESSAGE_GET 0 5000 [97])
    { ZERO_MSG with msgid := 0 }).2.1 (by decide) (by decide)

/-- C25 (counterexample). A GET for the existing file `a`, accepted by the
server, on a control socket whose `::send` fails: the server has connected to
the client at port 5000 (and then closed that connection) although no OK reply
was ever sent; and an LS on the same socket likewise. -/
theorem get_connects_before_ok :
    ClientSession.handle_get 50
        { exampleWorld [] [] with
          control := { socket_ := 7, os := { idleSock with outgoing := [WriteEvent.fail] } } }
        (MAKE_MSG MESSAGE_GET 0 5000 [97]) { ZERO_MSG with msgid := 0 }
      = Res.ok ()
          { exampleWorld [] [] with
            control := { socket_ := 7,
                         os := { incoming := [], outgoing := [], wire := [],
                                 trace := [Op.send 13 (-1)] } },
            fs := { exampleFs with
                    log := [FsOp.exists [97], FsOp.is_regular_file [97], FsOp.open [97]] },
            net := { script := [], connects := [("client", 5000)],
                     closed := [{ socket_ := INVALID_SOCKET,
                                  os := { incoming := [], outgoing := [], wire := [],
                                          trace := [Op.shutdown 9, Op.select 1, Op.recv 1024 0,
                                                    Op.close 9, Op.close (-1)] } }] } }
    ∧ ClientSession.handle_ls 50
        { exampleWorld [] [] with
          control := { socket_ := 7, os := { idleSock with outgoing := [WriteEvent.fail] } } }
        (MAKE_MSG MESSAGE_LS 0 5000 [])
      = Res.throw Exn.send_failed
          { exampleWorld [] [] with
            control := { socket_ := 7,
                         os := { incoming := [], outgoing := [], wire := [],
                                 trace := [Op.send 13 (-1)] } },
            fs := { exampleFs with log := [FsOp.list] },
            net := { script := [], connects := [("client", 5000)],
                     closed := [{ socket_ := INVALID_SOCKET,
                                  os := { incoming := [], outgoing := [], wire := [],
                                          trace := [Op.shutdown 9, Op.select 1, Op.recv 1024 0,
                                                    Op.close 9, Op.close (-1)] } }] } } := by
  decide

/-! ## GET: the open and size checks -/

/-- When the name passes the first four checks and the stream does not open,
the response of the checks is ERROR with `ERR_UNKNOWN`: the seek on the failed
stream fails too and the assignment after it replaces `ERR_FAILED_TO_OPEN`. -/
theorem get_checks_open_failure (fs : FileSystem) (clientCommand response : Message)
    (hne : clientCommand.payload ≠ []) (hs : SLASH ∉ clientCommand.payload)
    (hb : BACKSLASH ∉ clientCommand.payload)
    (hex : (fs.nodes.lookup clientCommand.payload).isSome = true)
    (hreg : (FileSystem.is_regular_file
              { fs with log := fs.log ++ [FsOp.exists clientCommand.payload] }
              clientCommand.payload).1 = true)
    (hopen : (FileSystem.open
              { fs with log := fs.log ++ [FsOp.exists clientCommand.payload,
                                         FsOp.is_regular_file clientCommand.payload] }
              clientCommand.payload).1.good = false) :
    (ClientSession.get_checks fs clientCommand response).1
      = { MAKE_EMSG ERR_UNKNOWN with payload := str "could not determine length of file" } := by
  have hex2 : fs.exists clientCommand.payload
      = (true, { fs with log := fs.log ++ [FsOp.exists clientCommand.payload] }) := by
    rw [lookup_exists, hex]
  have hreg2 : FileSystem.is_regular_file
        { fs with log := fs.log ++ [FsOp.exists clientCommand.payload] } clientCommand.payload
      = (true, { fs with log := fs.log ++ [FsOp.exists clientCommand.payload,
                                           FsOp.is_regular_file clientCommand.payload] }) := by
    unfold FileSystem.is_regular_file at hreg ⊢
    simp only [] at hreg ⊢
    rw [hreg]
    simp
  unfold ClientSession.get_checks
  rw [if_neg (by simpa using hne), if_neg (by simp [hs, hb]), hex2]
  simp only []
  rw [hreg2]
  simp only []
  rcases ho : FileSystem.open
      { fs with log := fs.log ++ [FsOp.exists clientCommand.payload,
                                 FsOp.is_regular_file clientCommand.payload] }
      clientCommand.payload with ⟨input, sizeKnown, fs3⟩
  rw [ho] at hopen
  simp only [] at hopen ⊢
  have hseek : seek_size input sizeKnown = (-1, { input with failbit := true }) := by
    unfold seek_size
    rw [hopen]
    simp
  rw [hseek]
  simp only []
  have hbad : (({ input with failbit := true } : StdStream).good) = false := by
    simp [StdStream.good]
  rw [hbad]
  rfl

/-- C26 (the code at the failing input). A GET for `x`, which exists and is a
regular file but cannot be opened: the reply on the control connection is
ERROR with code 255 (`ERR_UNKNOWN`) and the text "could not determine length
of file", not `ERR_FAILED_TO_OPEN` (1). -/
theorem get_open_failure_code :
    ClientSession.handle_get 60 (exampleWorld [] []) (MAKE_MSG MESSAGE_GET 0 5000 [120])
        { ZERO_MSG with msgid := 0 }
      = Res.ok ()
          { exampleWorld [] [] with
            control :=
              { socket_ := 7,
                os := { incoming := [], outgoing := [],
                        wire := [200, 0, 47, 0, 0, 0, 0, 0, 0, 0, 0, 0, 255]
                          ++ str "could not determine length of file",
                        trace := [Op.send 47 47] } },
            fs := { exampleFs with
                    log := [FsOp.exists [120], FsOp.is_regular_file [120], FsOp.open [120]] } }
    ∧ exampleFs.nodes.lookup [120] = some (Node.file [4] false false)
    ∧ ERR_UNKNOWN = 255 ∧ ERR_FAILED_TO_OPEN = 1 := by
  decide

/-! ## LS -/

theorem ls_reply_datalen (lsData : List Byte) :
    (ClientSession.ls_reply lsData).datalen = lsData.length % 2 ^ 32
      ∧ (ClientSession.ls_reply lsData).msgid = MESSAGE_OK
      ∧ (ClientSession.ls_reply lsData).payload = [] := by
  refine ⟨?_, rfl, rfl⟩
  show lsData.length % 2 ^ 32 % 2 ^ 32 = lsData.length % 2 ^ 32
  omega

theorem destroy_closed (fuel : Nat) (c : Connection) (h : c.socket_ = INVALID_SOCKET) :
    Connection.destroy fuel c = Res.ok () c := by
  unfold Connection.destroy
  rw [if_neg (by simp [h])]

/-- A run of `handle_ls` on sockets that take what they are given, for a
listing of fewer than 2^31 bytes. -/
theorem handle_ls_ok (fuel : Nat) (w : World) (clientCommand : Message) (dc : Connection)
    (net1 : Network)
    (hconn : Connection.connect w.net w.remoteName clientCommand.port = (some dc, net1))
    (hn : w.fs.listing.length < 2 ^ 31)
    (hfull : ∀ e ∈ w.control.os.outgoing, e.acceptsChunk = true)
    (hfulld : ∀ e ∈ dc.os.outgoing, e.acceptsChunk = true)
    (hopen : dc.socket_ ≠ INVALID_SOCKET)
    (hfuel : w.control.os.outgoing.length + 16 ≤ fuel)
    (hfueld : w.fs.listing.length + dc.os.outgoing.length + 3 ≤ fuel)
    (hfuels : (pending dc.os.incoming).length + 1 ≤ fuel) :
    ∃ c1 dc2, ClientSession.handle_ls fuel w clientCommand
        = Res.ok ()
            { w with control := c1,
                     fs := { w.fs with log := w.fs.log ++ [FsOp.list] },
                     net := { net1 with closed := net1.closed ++ [dc2] } }
      ∧ c1.os.wire = w.control.os.wire ++ (encode (ClientSession.ls_reply w.fs.listing)).unread
      ∧ dc2.os.wire = dc.os.wire ++ w.fs.listing
      ∧ dc2.socket_ = INVALID_SOCKET := by
  obtain ⟨c1, hs, hw, _⟩ := send_ok fuel w.control (ClientSession.ls_reply w.fs.listing)
    (by rw [(ls_reply_datalen _).2.2]; simp)
    hfull (by rw [(ls_reply_datalen _).2.2]; simpa using hfuel)
  have hgood : (StdStream.ofBytes w.fs.listing).good = true := rfl
  have hun : (StdStream.ofBytes w.fs.listing).unread = w.fs.listing := by
    simp [StdStream.ofBytes, StdStream.unread]
  obtain ⟨dc1, d1, hres, hsock, hinc, _, _, _, _, hwire⟩ :=
    send_stream_wrap fuel dc (StdStream.ofBytes w.fs.listing) hgood
      (noFail_of_acceptsChunk _ hfulld) (by rw [hun]; exact hfueld)
  rw [hun] at hres hwire
  rw [wrapInt32_of_range (by omega) (by omega)] at hres
  obtain ⟨dc2, ops, hsh, hinv, _, _, hw2, _⟩ :=
    shutdown_ok fuel dc1 (by rw [hsock]; exact hopen) (by rw [hinc]; exact hfuels)
  refine ⟨c1, dc2, ?_, hw, ?_, hinv⟩
  · unfold ClientSession.handle_ls
    rw [hconn]
    simp only [FileSystem.list]
    rw [hs]
    simp only []
    rw [hres]
    simp only [ne_eq, not_true_eq_false, if_false]
    rw [hsh]
    simp only [ClientSession.leave, Network.release]
    rw [destroy_closed fuel dc2 hinv]
    rfl
  · rw [hw2, hwire hfulld]

/-- C27 (amended). The OK reply of `handle_ls` carries the length of the
listing reduced modulo 2^32 (the `uint32_t` parameter of `MAKE_MSG`): for a
listing of `n < 2^32` bytes it carries `datalen = n`. For `n < 2^31`, on
sockets that take what they are given, `handle_ls` returns having put that
reply (13 bytes, msgid OK, `datalen = n`) on the control connection and
exactly the `n` bytes of the listing on the data connection, which it has
shut down. -/
theorem ls_reply_length (fuel : Nat) (w : World) (clientCommand : Message) (dc : Connection)
    (net1 : Network)
    (hconn : Connection.connect w.net w.remoteName clientCommand.port = (some dc, net1))
    (hn : w.fs.listing.length < 2 ^ 32) :
    (ClientSession.ls_reply w.fs.listing).datalen = w.fs.listing.length
    ∧ (ClientSession.ls_reply w.fs.listing).msgid = MESSAGE_OK
    ∧ (w.fs.listing.length < 2 ^ 31 →
        (∀ e ∈ w.control.os.outgoing, e.acceptsChunk = true) →
        (∀ e ∈ dc.os.outgoing, e.acceptsChunk = true) →
        dc.socket_ ≠ INVALID_SOCKET →
        w.control.os.outgoing.length + 16 ≤ fuel →
        w.fs.listing.length + dc.os.outgoing.length + 3 ≤ fuel →
        (pending dc.os.incoming).length + 1 ≤ fuel →
        ∃ c1 dc2 reply, ClientSession.handle_ls fuel w clientCommand
            = Res.ok ()
                { w with control := c1,
                         fs := { w.fs with log := w.fs.log ++ [FsOp.list] },
                         net := { net1 with closed := net1.closed ++ [dc2] } }
          ∧ c1.os.wire = w.control.os.wire ++ reply
          ∧ reply.length = 13
          ∧ (reply.take 1).map Fin.val = [MESSAGE_OK]
          ∧ beVal ((reply.drop 3).take 8) = w.fs.listing.length
          ∧ dc2.os.wire = dc.os.wire ++ w.fs.listing
          ∧ dc2.socket_ = INVALID_SOCKET) := by
  have hd := ls_reply_datalen w.fs.listing
  have hdl : (ClientSession.ls_reply w.fs.listing).datalen = w.fs.listing.length := by
    rw [hd.1]; omega
  refine ⟨hdl, hd.2.1, ?_⟩
  intro hn31 hfull hfulld hopen hfuel hfueld hfuels
  obtain ⟨c1, dc2, hrun, hw, hw2, hinv⟩ :=
    handle_ls_ok fuel w clientCommand dc net1 hconn hn31 hfull hfulld hopen hfuel hfueld hfuels
  refine ⟨c1, dc2, (encode (ClientSession.ls_reply w.fs.listing)).unread, hrun, hw, ?_, ?_, ?_,
    hw2, hinv⟩
  · rw [encode_unread, hd.2.2]; rfl
  · rw [encode_unread, hd.2.1]; rfl
  · rw [encode_unread, hdl]
    exact beVal_eight _ (by omega)

/-- Witness for C27: an LS in the example session, whose listing has four bytes. -/
theorem ls_reply_length_witness :
    (ClientSession.ls_reply (exampleWorld [] []).fs.listing).datalen
      = (exampleWorld [] []).fs.listing.length
    ∧ ∃ c1 dc2 reply, ClientSession.handle_ls 50 (exampleWorld [] [])
            (MAKE_MSG MESSAGE_LS 0 5000 [])
          = Res.ok ()
              { exampleWorld [] [] with
                control := c1,
                fs := { (exampleWorld [] []).fs with
                        log := (exampleWorld [] []).fs.log ++ [FsOp.list] },
                net := { script := [], connects := [("client", 5000)],
                         closed := [] ++ [dc2] } }
        ∧ c1.os.wire = (exampleWorld [] []).control.os.wire ++ reply
        ∧ reply.length = 13
        ∧ (reply.take 1).map Fin.val = [MESSAGE_OK]
        ∧ beVal ((reply.drop 3).take 8) = (exampleWorld [] []).fs.listing.length
        ∧ dc2.os.wire = [] ++ (exampleWorld [] []).fs.listing
        ∧ dc2.socket_ = INVALID_SOCKET :=
  ⟨(ls_reply_length 50 (exampleWorld [] []) (MAKE_MSG MESSAGE_LS 0 5000 [])
      { socket_ := 9, os := idleSock }
      { script := [], connects := [("client", 5000)], closed := [] }
      (by decide) (by decide)).1,
   (ls_reply_length 50 (exampleWorld [] []) (MAKE_MSG MESSAGE_LS 0 5000 [])
      { socket_ := 9, os := idleSock }
      { script := [], connects := [("client", 5000)], closed := [] }
      (by decide) (by decide)).2.2 (by decide) (by simp [exampleWorld, idleSock])
      (by simp [idleSock]) (by decide) (by decide) (by decide) (by decide)⟩

/-- C27 (counterexample). For a listing of 2^32 bytes the OK reply of
`handle_ls` carries `datalen = 0`. -/
theorem ls_reply_datalen_wraps :
    (List.replicate (2 ^ 32) (0 : Byte)).length = 2 ^ 32
    ∧ (ClientSession.ls_reply (List.replicate (2 ^ 32) 0)).datalen = 0 := by
  refine ⟨List.length_replicate _ _, ?_⟩
  rw [(ls_reply_datalen _).1, List.length_replicate]
  norm_num

/-- An LS in the example session: the reply carries `datalen = 4` and the four
bytes of the listing go out on the data connection. -/
theorem handle_ls_example :
    ClientSession.handle_ls 50 (exampleWorld [] []) (MAKE_MSG MESSAGE_LS 0 5000 [])
      = Res.ok ()
          { exampleWorld [] [] with
            control :=
              { socket_ := 7,
                os := { incoming := [], outgoing := [],
                        wire := [128, 0, 13, 0, 0, 0, 0, 0, 0, 0, 4, 0, 0],
                        trace := [Op.send 13 13] } },
            fs := { exampleFs with log := [FsOp.list] },
            net := { script := [], connects := [("client", 5000)],
                     closed := [{ socket_ := INVALID_SOCKET,
                                  os := { incoming := [], outgoing := [],
                                          wire := [97, 10, 120, 10],
                                          trace := [Op.send 4 4, Op.shutdown 9, Op.select 1,
                                                    Op.recv 1024 0, Op.close 9] } }] } } := by
  decide

/-- C28 (the code at the failing input). A header that declares
`msglen = 65535` arrives, and the next `recv` fails: the payload read of
`Connection::receive(Message*)` has asked `::recv` for 65522 bytes into the
local buffer of `CHUNK_SIZE = 32768` bytes. Likewise a direct call with
`howMany = 40000` asks for 40000 bytes. -/
theorem receive_request_exceeds_buffer :
    Connection.receive 10
        { socket_ := 3,
          os := { idleSock with
                  incoming := [Event.bytes [2, 255, 255, 0, 0, 0, 0, 0, 0, 0, 0, 19, 136],
                               Event.recvFail] } }
        TIMEOUT_NEVER
      = Res.throw Exn.recv_failed
          { conn := { socket_ := 3,
                      os := { incoming := [], outgoing := [], wire := [],
                              trace := [Op.select 1, Op.recv 13 13, Op.select 1,
                                        Op.recv 65522 (-1)] } },
            msg := { ZERO_MSG with msgid := 2, msglen := 65535 },
            timedOut := false }
    ∧ Connection.receive_stream 10
        { socket_ := 3, os := { idleSock with incoming := [Event.recvFail] } }
        StdStream.empty 40000 TIMEOUT_NEVER
      = Res.throw Exn.recv_failed
          ({ socket_ := 3,
             os := { incoming := [], outgoing := [], wire := [],
                     trace := [Op.select 1, Op.recv 40000 (-1)] } },
           StdStream.empty)
    ∧ CHUNK_SIZE = 32768 := by
  decide

/-! ## Invalid names -/

theorem get_checks_invalid (fs : FileSystem) (clientCommand response : Message)
    (hbad : clientCommand.payload = [] ∨ SLASH ∈ clientCommand.payload
      ∨ BACKSLASH ∈ clientCommand.payload) :
    ∃ reply, ClientSession.get_checks fs clientCommand response
        = (reply, StdStream.empty, 0, fs)
      ∧ reply.msgid = MESSAGE_ERROR ∧ reply.port = ERR_INVALID_FILENAME := by
  unfold ClientSession.get_checks
  by_cases he : clientCommand.payload = []
  · rw [if_pos (by rw [he]; rfl)]
    exact ⟨_, rfl, rfl, rfl⟩
  · have hsep : SLASH ∈ clientCommand.payload ∨ BACKSLASH ∈ clientCommand.payload := by
      rcases hbad with h | h
      · exact (he h).elim
      · exact h
    rw [if_neg (by simpa using he), if_pos hsep]
    exact ⟨_, rfl, rfl, rfl⟩

theorem put_checks_invalid (fs : FileSystem) (clientCommand : Message)
    (hbad : clientCommand.payload = [] ∨ SLASH ∈ clientCommand.payload
      ∨ BACKSLASH ∈ clientCommand.payload) :
    ∃ reply, ClientSession.put_checks fs clientCommand
        = (reply, false, { fs with log := fs.log ++ [FsOp.exists clientCommand.payload] })
      ∧ reply.msgid = MESSAGE_ERROR
      ∧ (reply.port = ERR_ALREADY_EXISTS ∨ reply.port = ERR_INVALID_FILENAME) := by
  unfold ClientSession.put_checks
  rw [lookup_exists]
  cases hl : (fs.nodes.lookup clientCommand.payload).isSome with
  | true => exact ⟨_, rfl, rfl, Or.inl rfl⟩
  | false =>
    simp only []
    rw [if_pos (by
      rcases hbad with h | h | h
      · left; rw [h]; rfl
      · right; left; exact h
      · right; right; exact h)]
    exact ⟨_, rfl, rfl, Or.inr rfl⟩

/-- C29. A GET or a PUT whose name is empty or contains a slash or a
backslash, on any filesystem and however the call ends. The only message the
handler hands to `Connection::send` is an ERROR (never OK), and that send is
all that happens to the control connection; no connect is attempted; GET makes
no call to the filesystem at all, PUT makes the one query `exists` and nothing
else, so no file is opened, created or truncated. -/
theorem invalid_name_no_access (fuel : Nat) (w : World) (clientCommand uninit : Message)
    (hbad : clientCommand.payload = [] ∨ SLASH ∈ clientCommand.payload
      ∨ BACKSLASH ∈ clientCommand.payload) :
    (∃ reply, reply.msgid = MESSAGE_ERROR ∧
      ∀ w1, (ClientSession.handle_get fuel w clientCommand uninit = Res.ok () w1
          ∨ ∃ e, ClientSession.handle_get fuel w clientCommand uninit = Res.throw e w1) →
        w1.net = w.net ∧ w1.fs = w.fs
        ∧ ((∃ k, Connection.send fuel w.control reply = Res.ok k w1.control)
            ∨ ∃ e, Connection.send fuel w.control reply = Res.throw e w1.control))
    ∧ (∃ reply, reply.msgid = MESSAGE_ERROR ∧
      ∀ w1, (ClientSession.handle_put fuel w clientCommand = Res.ok () w1
          ∨ ∃ e, ClientSession.handle_put fuel w clientCommand = Res.throw e w1) →
        w1.net = w.net
        ∧ w1.fs = { w.fs with log := w.fs.log ++ [FsOp.exists clientCommand.payload] }
        ∧ ((∃ k, Connection.send fuel w.control reply = Res.ok k w1.control)
            ∨ ∃ e, Connection.send fuel w.control reply = Res.throw e w1.control)) := by
  constructor
  · obtain ⟨reply, hg, hid, _⟩ :=
      get_checks_invalid w.fs clientCommand { uninit with payload := [] } hbad
    refine ⟨reply, hid, ?_⟩
    intro w1 hout
    unfold ClientSession.handle_get at hout
    rw [hg] at hout
    simp only [] at hout
    rw [if_pos hid] at hout
    cases hs : Connection.send fuel w.control reply with
    | outOfFuel =>
      rw [hs] at hout
      rcases hout with h | ⟨e, h⟩ <;> simp at h
    | throw e1 c1 =>
      rw [hs] at hout
      simp only [caught] at hout
      rcases hout with h | ⟨e, h⟩
      · split at h
        · simp only [Res.ok.injEq, true_and] at h
          rw [← h]
          exact ⟨rfl, rfl, Or.inr ⟨e1, rfl⟩⟩
        · simp at h
      · split at h
        · simp at h
        · simp only [Res.throw.injEq] at h
          rw [← h.2]
          exact ⟨rfl, rfl, Or.inr ⟨e1, rfl⟩⟩
    | ok k c1 =>
      rw [hs] at hout
      rcases hout with h | ⟨e, h⟩
      · simp only [Res.ok.injEq, true_and] at h
        rw [← h]
        exact ⟨rfl, rfl, Or.inl ⟨k, rfl⟩⟩
      · simp at h
  · obtain ⟨reply, hp, hid, _⟩ := put_checks_invalid w.fs clientCommand hbad
    have hne : reply.msgid ≠ MESSAGE_OK := by rw [hid]; decide
    refine ⟨reply, hid, ?_⟩
    intro w1 hout
    unfold ClientSession.handle_put at hout
    rw [hp] at hout
    simp only [] at hout
    cases hs : Connection.send fuel w.control reply with
    | outOfFuel =>
      rw [hs] at hout
      rcases hout with h | ⟨e, h⟩ <;> simp at h
    | throw e1 c1 =>
      rw [hs] at hout
      rcases hout with h | ⟨e, h⟩
      · simp at h
      · simp only [Res.throw.injEq] at h
        rw [← h.2]
        exact ⟨rfl, rfl, Or.inr ⟨e1, rfl⟩⟩
    | ok k c1 =>
      rw [hs] at hout
      simp only [] at hout
      rw [if_pos hne] at hout
      rcases hout with h | ⟨e, h⟩
      · simp only [Res.ok.injEq, true_and] at h
        rw [← h]
        exact ⟨rfl, rfl, Or.inl ⟨k, rfl⟩⟩
      · simp at h

/-- A GET and a PUT for the name `../a` in the example session: each is
answered with ERROR and code `ERR_INVALID_FILENAME` (3), nothing else happens. -/
theorem invalid_name_example :
    ClientSession.handle_get 80 (exampleWorld [] []) (MAKE_MSG MESSAGE_GET 0 5000 [46, 46, 47, 97])
        { ZERO_MSG with msgid := 0 }
      = Res.ok ()
          { exampleWorld [] [] with
            control :=
              { socket_ := 7,
                os := { incoming := [], outgoing := [],
                        wire := [200, 0, 58, 0, 0, 0, 0, 0, 0, 0, 0, 0, 3]
                          ++ ([QUOTE] ++ [46, 46, 47, 97] ++ [QUOTE]
                              ++ str " contains a path which is not permitted"),
                        trace := [Op.send 58 58] } } }
    ∧ ClientSession.handle_put 80 (exampleWorld [] []) (MAKE_MSG MESSAGE_PUT 0 5000 [46, 46, 47, 97])
      = Res.ok ()
          { exampleWorld [] [] with
            control :=
              { socket_ := 7,
                os := { incoming := [], outgoing := [],
                        wire := [200, 0, 13, 0, 0, 0, 0, 0, 0, 0, 0, 0, 3],
                        trace := [Op.send 13 13] } },
            fs := { exampleFs with log := [FsOp.exists [46, 46, 47, 97]] } } := by
  decide

/-- Witness for C29: the name `../a` in the example session. -/
theorem invalid_name_no_access_witness :
    ((MAKE_MSG MESSAGE_GET 0 5000 [46, 46, 47, 97]).payload = []
      ∨ SLASH ∈ (MAKE_MSG MESSAGE_GET 0 5000 [46, 46, 47, 97]).payload
      ∨ BACKSLASH ∈ (MAKE_MSG MESSAGE_GET 0 5000 [46, 46, 47, 97]).payload)
    ∧ ∃ reply, reply.msgid = MESSAGE_ERROR ∧
      ∀ w1, (ClientSession.handle_get 80 (exampleWorld [] [])
              (MAKE_MSG MESSAGE_GET 0 5000 [46, 46, 47, 97]) { ZERO_MSG with msgid := 0 }
            = Res.ok () w1
          ∨ ∃ e, ClientSession.handle_get 80 (exampleWorld [] [])
              (MAKE_MSG MESSAGE_GET 0 5000 [46, 46, 47, 97]) { ZERO_MSG with msgid := 0 }
            = Res.throw e w1) →
        w1.net = (exampleWorld [] []).net ∧ w1.fs = (exampleWorld [] []).fs
        ∧ ((∃ k, Connection.send 80 (exampleWorld [] []).control reply = Res.ok k w1.control)
            ∨ ∃ e, Connection.send 80 (exampleWorld [] []).control reply
                = Res.throw e w1.control) :=
  ⟨by decide,
   (invalid_name_no_access 80 (exampleWorld [] []) (MAKE_MSG MESSAGE_GET 0 5000 [46, 46, 47, 97])
      { ZERO_MSG with msgid := 0 } (by decide)).1⟩

/-! ## Comparison of messages -/

theorem string_compare_eq_zero : ∀ (a b : List Byte), string_compare a b = 0 ↔ a = b := by
  intro a
  induction a with
  | nil =>
    intro b
    cases b with
    | nil => simp [string_compare]
    | cons y ys => simp [string_compare]
  | cons x xs ih =>
    intro b
    cases b with
    | nil => simp [string_compare]
    | cons y ys =>
      simp only [string_compare]
      by_cases h1 : x.val < y.val
      · rw [if_pos h1]
        have hne : x ≠ y := by intro h; rw [h] at h1; exact lt_irrefl _ h1
        simp [hne]
      · rw [if_neg h1]
        by_cases h2 : y.val < x.val
        · rw [if_pos h2]
          have hne : x ≠ y := by intro h; rw [h] at h2; exact lt_irrefl _ h2
          simp [hne]
        · rw [if_neg h2]
          have hxy : x = y := Fin.ext (by omega)
          rw [ih ys, hxy]
          simp

theorem op_eq_iff (a b : Message) :
    a.op_eq b = true
      ↔ (a.msgid = b.msgid ∧ a.msglen = b.msglen ∧ a.port = b.port ∧ a.payload = b.payload) := by
  unfold Message.op_eq
  simp only [Bool.and_eq_true, beq_iff_eq, string_compare_eq_zero]
  tauto

/-- C30. `Message::operator==` returns true exactly when `msgid`, `msglen`,
the port or error code and the payload are equal; it is reflexive, symmetric
and transitive; `datalen` plays no part, so two messages that differ only in
`datalen` compare equal; and `operator!=` is its negation. -/
theorem message_equality :
    (∀ a b : Message, a.op_eq b = true
      ↔ (a.msgid = b.msgid ∧ a.msglen = b.msglen ∧ a.port = b.port ∧ a.payload = b.payload))
    ∧ (∀ a : Message, a.op_eq a = true)
    ∧ (∀ a b : Message, a.op_eq b = b.op_eq a)
    ∧ (∀ a b c : Message, a.op_eq b = true → b.op_eq c = true → a.op_eq c = true)
    ∧ (∀ (a : Message) (d : Nat), a.op_eq { a with datalen := d } = true)
    ∧ (∀ a b : Message, a.op_ne b = !(a.op_eq b)) := by
  refine ⟨op_eq_iff, ?_, ?_, ?_, ?_, fun _ _ => rfl⟩
  · intro a
    rw [op_eq_iff]
    exact ⟨rfl, rfl, rfl, rfl⟩
  · intro a b
    rw [Bool.eq_iff_iff, op_eq_iff, op_eq_iff]
    constructor
    · rintro ⟨h1, h2, h3, h4⟩
      exact ⟨h1.symm, h2.symm, h3.symm, h4.symm⟩
    · rintro ⟨h1, h2, h3, h4⟩
      exact ⟨h1.symm, h2.symm, h3.symm, h4.symm⟩
  · intro a b c hab hbc
    rw [op_eq_iff] at hab hbc ⊢
    obtain ⟨h1, h2, h3, h4⟩ := hab
    obtain ⟨g1, g2, g3, g4⟩ := hbc
    exact ⟨h1.trans g1, h2.trans g2, h3.trans g3, h4.trans g4⟩
  · intro a d
    rw [op_eq_iff]
    exact ⟨rfl, rfl, rfl, rfl⟩

/-- Witness for C30: two OK messages that differ only in `datalen` compare
equal, and an OK and an ERROR message compare unequal. -/
theorem message_equality_witness :
    Message.op_eq (MAKE_MSG MESSAGE_OK 3 0 []) (MAKE_MSG MESSAGE_OK 4 0 []) = true
    ∧ Message.op_ne (MAKE_MSG MESSAGE_OK 3 0 []) (MAKE_MSG MESSAGE_OK 4 0 []) = false
    ∧ Message.op_eq (MAKE_MSG MESSAGE_OK 3 0 []) (MAKE_EMSG ERR_UNKNOWN) = false :=
  ⟨(message_equality.1 (MAKE_MSG MESSAGE_OK 3 0 []) (MAKE_MSG MESSAGE_OK 4 0 [])).2
      ⟨rfl, rfl, rfl, rfl⟩,
   (message_equality.2.2.2.2.2 (MAKE_MSG MESSAGE_OK 3 0 []) (MAKE_MSG MESSAGE_OK 4 0 [])).trans
      (by decide),
   by decide⟩

/-! ## Validation failures in the command loop -/

/-- A GET that fails a check and whose ERROR reply fits in a message: on a
control socket that takes what it is given the reply is sent and the loop goes
on with the next receive, on the same open connection, the filesystem as the
checks left it and the network untouched. -/
theorem serve_loop_get_error_goes_on (fuel : Nat) (w : World) (uninit : Message) (n : Int)
    (r : Received)
    (hrecv : Connection.receive fuel w.control TIMEOUT_IDLE = Res.ok n r)
    (hto : r.timedOut = false) (hid : r.msg.msgid = MESSAGE_GET)
    (herr : (ClientSession.get_checks w.fs r.msg { uninit with payload := [] }).1.msgid
      = MESSAGE_ERROR)
    (hL : (ClientSession.get_checks w.fs r.msg { uninit with payload := [] }).1.payload.length
      ≤ 1024)
    (hfull : ∀ e ∈ w.control.os.outgoing, e.acceptsChunk = true)
    (hfuel : 1024 + w.control.os.outgoing.length + 16 ≤ fuel) :
    ∃ c1, ClientSession.serve_loop (fuel + 1) w uninit
        = ClientSession.serve_loop fuel
            { w with control := c1, dispatched := w.dispatched ++ [MESSAGE_GET],
                     fs := (ClientSession.get_checks w.fs r.msg
                              { uninit with payload := [] }).2.2.2 }
            uninit
      ∧ c1.os.wire = w.control.os.wire
          ++ (encode (ClientSession.get_checks w.fs r.msg { uninit with payload := [] }).1).unread
      ∧ c1.socket_ = w.control.socket_ ∧ c1.os.incoming = r.conn.os.incoming := by
  have hw := receive_wire _ _ _ _ _ hrecv
  obtain ⟨c1, hs, hwire, hsock, hinc, _⟩ := send_ok fuel r.conn
    (ClientSession.get_checks w.fs r.msg { uninit with payload := [] }).1 hL
    (by rw [hw.2.1]; exact hfull) (by rw [hw.2.1]; omega)
  refine ⟨c1, ?_, by rw [hwire, hw.1], hsock.trans hw.2.2, hinc⟩
  have hloop := serve_loop_received fuel w uninit n r hrecv hto
  rw [if_neg (by rw [hid]; decide), if_pos hid] at hloop
  rw [hloop]
  unfold ClientSession.handle_get
  rcases hg : ClientSession.get_checks w.fs r.msg { uninit with payload := [] } with
    ⟨response, input, fileSize, fs1⟩
  rw [hg] at herr hs
  simp only [] at herr hs ⊢
  rw [if_pos herr, hs, hid]

/-- A PUT that fails a check: on a control socket that takes what it is given
the ERROR reply is sent and the loop goes on with the next receive, on the
same open connection, the network untouched. -/
theorem serve_loop_put_error_goes_on (fuel : Nat) (w : World) (uninit : Message) (n : Int)
    (r : Received)
    (hrecv : Connection.receive fuel w.control TIMEOUT_IDLE = Res.ok n r)
    (hto : r.timedOut = false) (hid : r.msg.msgid = MESSAGE_PUT)
    (herr : (ClientSession.put_checks w.fs r.msg).1.msgid ≠ MESSAGE_OK)
    (hL : (ClientSession.put_checks w.fs r.msg).1.payload.length ≤ 1024)
    (hfull : ∀ e ∈ w.control.os.outgoing, e.acceptsChunk = true)
    (hfuel : 1024 + w.control.os.outgoing.length + 16 ≤ fuel) :
    ∃ c1, ClientSession.serve_loop (fuel + 1) w uninit
        = ClientSession.serve_loop fuel
            { w with control := c1, dispatched := w.dispatched ++ [MESSAGE_PUT],
                     fs := (ClientSession.put_checks w.fs r.msg).2.2 }
            uninit
      ∧ c1.os.wire = w.control.os.wire
          ++ (encode (ClientSession.put_checks w.fs r.msg).1).unread
      ∧ c1.socket_ = w.control.socket_ ∧ c1.os.incoming = r.conn.os.incoming := by
  have hw := receive_wire _ _ _ _ _ hrecv
  obtain ⟨c1, hs, hwire, hsock, hinc, _⟩ := send_ok fuel r.conn
    (ClientSession.put_checks w.fs r.msg).1 hL
    (by rw [hw.2.1]; exact hfull) (by rw [hw.2.1]; omega)
  refine ⟨c1, ?_, by rw [hwire, hw.1], hsock.trans hw.2.2, hinc⟩
  have hloop := serve_loop_received fuel w uninit n r hrecv hto
  rw [if_neg (by rw [hid]; decide), if_neg (by rw [hid]; decide), if_pos hid] at hloop
  rw [hloop]
  unfold ClientSession.handle_put
  rcases hp : ClientSession.put_checks w.fs r.msg with ⟨response, isOpen, fs1⟩
  rw [hp] at herr hs
  simp only [] at herr hs ⊢
  rw [hs]
  simp only []
  rw [if_pos herr, hid]

end connection
